import Mathlib

/-!
# DW EQoS v5.00 TSN register layer (`dwmac5_tsn.c`)

A shallow embedding of the EST and FPE-MMC functions of
`drivers/net/ethernet/stmicro/stmmac/dwmac5_tsn.c`.

* `u32` values are natural numbers below `2 ^ 32`; every operation that can
  leave that range in C is reduced modulo `2 ^ 32` explicitly.
* Memory-mapped I/O is explicit state passing over `Mmio`: the hardware is a
  function from the history of accesses to the value the next `readl`
  returns, and every `readl` / `writel` / log call is appended to a trace.
* The bit-mask macros of `dwmac5.h` are not part of the source tree; they are
  the fields of `Hdr` and every function takes them as a parameter.
-/

namespace Dwmac5

/-! ## 32-bit arithmetic -/

/-- Truncation of a C expression to `u32`. -/
def u32 (x : Nat) : Nat := x % 4294967296

/-- C `~x` on a `u32`. -/
def not32 (x : Nat) : Nat := 4294967295 - x % 4294967296

/-- C `x << n` on a `u32` (bits shifted past bit 31 are lost). -/
def shl32 (x n : Nat) : Nat := (x <<< n) % 4294967296

/-- C `x - y` on `u32` operands. -/
def sub32 (x y : Nat) : Nat := (x % 4294967296 + (4294967296 - y % 4294967296)) % 4294967296

/-- C `x + y` on `u32` operands. -/
def add32 (x y : Nat) : Nat := (x + y) % 4294967296

/-- The expression `(1 << n) - 1` as the source writes it for its masks. -/
def low_mask (n : Nat) : Nat := sub32 (shl32 1 n) 1

/-- Modelled from the spec: `GENMASK(h, l)` of `linux/bits.h`, which is not in
the source tree: the contiguous mask with bits `l..h` set (empty when
`h < l`). -/
def GENMASK (h l : Nat) : Nat := 2 ^ (h + 1) - 2 ^ l

/-- The bit-scan loop of the kernel `fls`: the 1-based position of the most
significant set bit of `n`, `0` for `0`, scanning at most `fuel` bits. -/
def fls_loop : Nat → Nat → Nat
  | 0, _ => 0
  | fuel + 1, n => if n = 0 then 0 else fls_loop fuel (n / 2) + 1

/-- Modelled from the spec: `ilog2` of `linux/log2.h`, which is not in the
source tree: the base-2 logarithm that turns a depth into an address width
(spec 4.3, "masked to `log2(depth)` bits"), computed as the kernel does for a
32-bit argument, `fls(n) - 1`, and stored into a `u32`. -/
def ilog2 (n : Nat) : Nat := sub32 (fls_loop 32 (n % 4294967296)) 1

/-- The errno `ETIMEDOUT`; `readl_poll_timeout` returns its negation. -/
def ETIMEDOUT : Int := 110

/-! ## Registers, trace and environment -/

/-- The registers the modelled functions touch, named by their offset macro.
Distinct macros denote distinct registers. -/
inductive Reg where
  | GMAC_HW_FEATURE2
  | GMAC_HW_FEATURE3
  | MTL_EST_CTRL
  | MTL_EST_STATUS
  | MTL_EST_SCH_ERR
  | MTL_EST_FRM_SZ_ERR
  | MTL_EST_FRM_SZ_CAP
  | MTL_EST_GCL_CTRL
  | MTL_EST_GCL_DATA
  | MMC_FPE_TX_INTR
  | MMC_FPE_RX_INTR
  | MMC_TX_HOLD_REQ
  | MMC_TX_FPE_FRAGMENT
  | MMC_RX_PACKET_ASSEMBLY_ERR
  | MMC_RX_PACKET_SMD_ERR
  | MMC_RX_PACKET_ASSEMBLY_OK
  | MMC_RX_FPE_FRAGMENT
  | MTL_FPE_CTRL_STS
  | MAC_FPE_CTRL_STS
  | MTL_FPE_ADVANCE
  | MTL_TBS_CTRL
  | DMA_TBS_CTRL
  deriving DecidableEq, Repr

/-- The kernel-log lines the modelled functions print, with their arguments. -/
inductive Msg where
  | est_hlb_sched (queues : Nat)
  | est_hlb_size (hbfq hbfs : Nat)
  | est_btr_loop (btrl : Nat)
  | est_swol_switched
  | fpe_irq_txhrc (v : Nat)
  | fpe_irq_txffc (v : Nat)
  | fpe_irq_paec (v : Nat)
  | fpe_irq_psec (v : Nat)
  | fpe_irq_paoc (v : Nat)
  | fpe_irq_rxffc (v : Nat)
  | fpe_trsp
  | fpe_tver
  | fpe_rrsp
  | fpe_rver
  deriving DecidableEq, Repr

/-- One observable step of a driver function. -/
inductive Event where
  | rd (r : Reg) (v : Nat)
  | wr (r : Reg) (v : Nat)
  | ratelimit (allowed : Bool)
  | msg (m : Msg)
  deriving DecidableEq, Repr

/-- The world a driver function runs in: the device (what a read of a register
returns after a given history), the log rate limiter, the number of further
polls the clock allows before a poll deadline passes, and the trace so far
(oldest event first). -/
structure Mmio where
  dev : List Event → Reg → Nat
  net_ratelimit : List Event → Bool
  poll_retries : List Event → Nat
  trace : List Event

/-- Kernel `readl`: a 32-bit register read. -/
def readl (st : Mmio) (r : Reg) : Nat × Mmio :=
  let v := st.dev st.trace r % 4294967296
  (v, { st with trace := st.trace ++ [Event.rd r v] })

/-- Kernel `writel`: a 32-bit register write. -/
def writel (value : Nat) (r : Reg) (st : Mmio) : Mmio :=
  { st with trace := st.trace ++ [Event.wr r (value % 4294967296)] }

/-- Kernel `net_ratelimit()`: asks the rate limiter whether to print. -/
def net_ratelimit (st : Mmio) : Bool × Mmio :=
  let b := st.net_ratelimit st.trace
  (b, { st with trace := st.trace ++ [Event.ratelimit b] })

/-- Kernel `netdev_err` / `netdev_info`: prints one line. -/
def netdev_log (m : Msg) (st : Mmio) : Mmio :=
  { st with trace := st.trace ++ [Event.msg m] }

/-- The polling loop of `readl_poll_timeout` with `n` further reads left
before the deadline. Returns the status and the last value read. -/
def poll_loop (r : Reg) (cond : Nat → Bool) : Nat → Mmio → Int × Nat × Mmio
  | 0, st =>
    let (v, st) := readl st r
    (if cond v then 0 else -ETIMEDOUT, v, st)
  | n + 1, st =>
    let (v, st) := readl st r
    if cond v then (0, v, st) else poll_loop r cond n st

/-- Modelled from the spec: `readl_poll_timeout` of `linux/iopoll.h`, which is
not in the source tree. Spec 4.1: repeatedly reads `reg` until the condition
holds, failing with a Timeout error if the timeout elapses first; success is
immediate when the condition holds on the first read. The deadline is
abstracted as the number of re-reads the environment allows. -/
def readl_poll_timeout (st : Mmio) (r : Reg) (cond : Nat → Bool) : Int × Nat × Mmio :=
  poll_loop r cond (st.poll_retries st.trace) st

/-! ## Header constants -/

/-- The bit-mask and shift macros of `dwmac5.h` / `stmmac_tsn.h` used by the
modelled functions; the header is not in the source tree, so they are
parameters. `MMC_STAT_BITS` is the width in bits of one statistics counter,
the unsigned element type of `tsn_mmc_stat.count`. -/
structure Hdr where
  GMAC_HW_FEAT_ESTDEP : Nat
  GMAC_HW_FEAT_ESTDEP_SHIFT : Nat
  GMAC_HW_FEAT_ESTWID : Nat
  GMAC_HW_FEAT_ESTWID_SHIFT : Nat
  GMAC_HW_FEAT_TXQCNT : Nat
  GMAC_HW_FEAT_RXQCNT : Nat
  MTL_EST_CTRL_PTOV : Nat
  MTL_EST_CTRL_PTOV_SHIFT : Nat
  MTL_EST_CTRL_CTOV : Nat
  MTL_EST_CTRL_CTOV_SHIFT : Nat
  MTL_EST_CTRL_TILS : Nat
  MTL_EST_CTRL_TILS_SHIFT : Nat
  MTL_EST_CTRL_SSWL : Nat
  MTL_EST_CTRL_EEST : Nat
  MTL_EST_STATUS_BTRL : Nat
  MTL_EST_STATUS_BTRL_SHIFT : Nat
  MTL_EST_STATUS_BTRL_MAX : Nat
  MTL_EST_STATUS_SWOL : Nat
  MTL_EST_STATUS_SWOL_SHIFT : Nat
  MTL_EST_STATUS_CGCE : Nat
  MTL_EST_STATUS_HLBS : Nat
  MTL_EST_STATUS_HLBF : Nat
  MTL_EST_STATUS_BTRE : Nat
  MTL_EST_STATUS_SWLC : Nat
  MTL_EST_FRM_SZ_CAP_HBFS_MASK : Nat
  MTL_EST_FRM_SZ_CAP_HBFQ_SHIFT : Nat
  MTL_EST_FRM_SZ_CAP_HBFQ_MASK : Nat → Nat
  MTL_EST_GCL_CTRL_DBGB1 : Nat
  MTL_EST_GCL_CTRL_DBGM : Nat
  MTL_EST_GCL_CTRL_GCRR : Nat
  MTL_EST_GCL_CTRL_SRWO : Nat
  GCL_OPS_R : Nat
  GCL_OPS_W : Nat
  MMC_FPE_TX_INTR_MASK_HRCIM : Nat
  MMC_FPE_TX_INTR_MASK_FCIM : Nat
  MMC_FPE_TX_INTR_MASK_DEFAULT : Nat
  MMC_FPE_RX_INTR_MASK_FCIM : Nat
  MMC_FPE_RX_INTR_MASK_PAOCIM : Nat
  MMC_FPE_RX_INTR_MASK_PSECIM : Nat
  MMC_FPE_RX_INTR_MASK_PAECIM : Nat
  MMC_FPE_RX_INTR_MASK_DEFAULT : Nat
  MMC_STAT_BITS : Nat

/-- Modelled from the spec: `MTL_EST_GCL_CTRL_ADDR_VAL(addr)` of `dwmac5.h`
(not in the source tree): the row address placed at the address position of
the address-control word, bit 8. -/
def MTL_EST_GCL_CTRL_ADDR_VAL (addr : Nat) : Nat := shl32 addr 8

/-- Modelled from the spec: `MTL_EST_GCL_CTRL_ADDR(dep)` of `dwmac5.h` (not in
the source tree): the mask of the `dep`-bit address field, i.e.
`GENMASK(8 + dep - 1, 8)` (spec 4.3, "row address masked to `log2(depth)`
bits"). -/
def MTL_EST_GCL_CTRL_ADDR (dep : Nat) : Nat := GENMASK (sub32 (add32 8 dep) 1) 8

/-- C conversion of a `u32` to `int` (two's complement). -/
def int_of_u32 (x : Nat) : Int :=
  if x % 4294967296 < 2147483648 then (x % 4294967296 : Nat) else (x % 4294967296 : Nat) - 4294967296

/-! ## Statistics vector -/

/-- The `count` array of `struct tsn_mmc_stat`: `STMMAC_TSN_STAT_SIZE = 16`
counters. -/
abbrev Stat := Fin 16 → Nat

def EST_MMC_BTRE : Fin 16 := 0
def EST_MMC_BTRLM : Fin 16 := 1
def EST_MMC_HLBF : Fin 16 := 2
def EST_MMC_HLBS : Fin 16 := 3
def EST_MMC_CGCE : Fin 16 := 4
def FPE_MMC_TXFFC : Fin 16 := 5
def FPE_MMC_TXHRC : Fin 16 := 6
def FPE_MMC_PAEC : Fin 16 := 7
def FPE_MMC_PSEC : Fin 16 := 8
def FPE_MMC_PAOC : Fin 16 := 9
def FPE_MMC_FFC : Fin 16 := 10

/-- The statement `mmc_stat->count[i]++` on an unsigned counter of
`MMC_STAT_BITS` bits. -/
def stat_inc (k : Hdr) (mmc_stat : Stat) (i : Fin 16) : Stat :=
  Function.update mmc_stat i ((mmc_stat i + 1) % 2 ^ k.MMC_STAT_BITS)

/-- The statement `mmc_stat->count[i] = v` for a `u32` value `v`. -/
def stat_set (k : Hdr) (mmc_stat : Stat) (i : Fin 16) (v : Nat) : Stat :=
  Function.update mmc_stat i (v % 2 ^ k.MMC_STAT_BITS)

/-! ## EST: gate-control-list access -/

/-- Source `est_set_gcl_addr`. -/
def est_set_gcl_addr (k : Hdr) (st : Mmio) (addr : Nat) (is_gcrr : Bool)
    (rwops dep dbgb : Nat) (is_dbgm : Bool) : Int × Mmio :=
  let value := MTL_EST_GCL_CTRL_ADDR_VAL addr &&& MTL_EST_GCL_CTRL_ADDR dep
  let value :=
    if is_dbgm then
      (if dbgb ≠ 0 then value ||| k.MTL_EST_GCL_CTRL_DBGB1 else value)
        ||| k.MTL_EST_GCL_CTRL_DBGM
    else value
  let value := if is_gcrr then value ||| k.MTL_EST_GCL_CTRL_GCRR else value
  let value := value ||| (rwops ||| k.MTL_EST_GCL_CTRL_SRWO)
  let st := writel value Reg.MTL_EST_GCL_CTRL st
  let r := readl_poll_timeout st Reg.MTL_EST_GCL_CTRL
    (fun v => v &&& k.MTL_EST_GCL_CTRL_SRWO = 0)
  (r.1, r.2.2)

/-- Source `dwmac5_est_get_gcl_depth`. -/
def dwmac5_est_get_gcl_depth (k : Hdr) (st : Mmio) : Nat × Mmio :=
  let (hw_cap3, st) := readl st Reg.GMAC_HW_FEATURE3
  let estdep := (hw_cap3 &&& k.GMAC_HW_FEAT_ESTDEP) >>> k.GMAC_HW_FEAT_ESTDEP_SHIFT
  let depth :=
    if estdep = 1 then 64
    else if estdep = 2 then 128
    else if estdep = 3 then 256
    else if estdep = 4 then 512
    else if estdep = 5 then 1024
    else 0
  (depth, st)

/-- Source `dwmac5_est_get_ti_width`. -/
def dwmac5_est_get_ti_width (k : Hdr) (st : Mmio) : Nat × Mmio :=
  let (hw_cap3, st) := readl st Reg.GMAC_HW_FEATURE3
  let estwid := (hw_cap3 &&& k.GMAC_HW_FEAT_ESTWID) >>> k.GMAC_HW_FEAT_ESTWID_SHIFT
  let width :=
    if estwid = 1 then 16
    else if estwid = 2 then 20
    else if estwid = 3 then 24
    else 0
  (width, st)

/-- Source `dwmac5_est_get_txqcnt`. -/
def dwmac5_est_get_txqcnt (k : Hdr) (st : Mmio) : Nat × Mmio :=
  let (hw_cap2, st) := readl st Reg.GMAC_HW_FEATURE2
  (add32 ((hw_cap2 &&& k.GMAC_HW_FEAT_TXQCNT) >>> 6) 1, st)

/-- Source `dwmac5_est_write_gcl_config`. -/
def dwmac5_est_write_gcl_config (k : Hdr) (st : Mmio) (data addr : Nat)
    (is_gcrr : Bool) (dbgb : Nat) (is_dbgm : Bool) : Int × Mmio :=
  let (dep, st) := dwmac5_est_get_gcl_depth k st
  let dep := ilog2 dep
  let st := writel data Reg.MTL_EST_GCL_DATA st
  est_set_gcl_addr k st addr is_gcrr k.GCL_OPS_W dep dbgb is_dbgm

/-- Source `dwmac5_est_read_gcl_config`. The out-parameter `*data` is passed in
with its prior content and returned second. -/
def dwmac5_est_read_gcl_config (k : Hdr) (st : Mmio) (data addr : Nat)
    (is_gcrr : Bool) (dbgb : Nat) (is_dbgm : Bool) : Int × Nat × Mmio :=
  let (dep, st) := dwmac5_est_get_gcl_depth k st
  let dep := ilog2 dep
  let (ret, st) := est_set_gcl_addr k st addr is_gcrr k.GCL_OPS_R dep dbgb is_dbgm
  if ret ≠ 0 then (ret, data, st)
  else
    let (data, st) := readl st Reg.MTL_EST_GCL_DATA
    (ret, data, st)

/-- Source `dwmac5_est_read_gce`. The out-parameters `*gates` and `*ti_nsec`
are passed in with their prior content and returned second and third;
`value` is the indeterminate initial content of the local of that name. -/
def dwmac5_est_read_gce (k : Hdr) (st : Mmio) (row gates ti_nsec ti_wid txqcnt dbgb : Nat)
    (is_dbgm : Bool) (value : Nat) : Int × Nat × Nat × Mmio :=
  let gates_mask := low_mask txqcnt
  let ti_mask := low_mask ti_wid
  let (ret, value, st) := dwmac5_est_read_gcl_config k st value row false dbgb is_dbgm
  if ret ≠ 0 then (ret, gates, ti_nsec, st)
  else
    let ti_nsec := value &&& ti_mask
    let gates := (value >>> ti_wid) &&& gates_mask
    (ret, gates, ti_nsec, st)

/-! ## EST: control register -/

/-- Source `dwmac5_est_set_tils`. -/
def dwmac5_est_set_tils (k : Hdr) (st : Mmio) (tils : Nat) : Mmio :=
  let (value, st) := readl st Reg.MTL_EST_CTRL
  let value := value &&& not32 (k.MTL_EST_CTRL_SSWL ||| k.MTL_EST_CTRL_TILS)
  let value := value ||| shl32 tils k.MTL_EST_CTRL_TILS_SHIFT
  writel value Reg.MTL_EST_CTRL st

/-- Source `dwmac5_est_set_ptov`. -/
def dwmac5_est_set_ptov (k : Hdr) (st : Mmio) (ptov : Nat) : Mmio :=
  let (value, st) := readl st Reg.MTL_EST_CTRL
  let value := value &&& not32 (k.MTL_EST_CTRL_SSWL ||| k.MTL_EST_CTRL_PTOV)
  let value := value ||| shl32 ptov k.MTL_EST_CTRL_PTOV_SHIFT
  writel value Reg.MTL_EST_CTRL st

/-- Source `dwmac5_est_set_ctov`. -/
def dwmac5_est_set_ctov (k : Hdr) (st : Mmio) (ctov : Nat) : Mmio :=
  let (value, st) := readl st Reg.MTL_EST_CTRL
  let value := value &&& not32 (k.MTL_EST_CTRL_SSWL ||| k.MTL_EST_CTRL_CTOV)
  let value := value ||| shl32 ctov k.MTL_EST_CTRL_CTOV_SHIFT
  writel value Reg.MTL_EST_CTRL st

/-- Source `dwmac5_est_set_enable`; the `bool` argument is promoted to `0` or
`1` before the `&`. -/
def dwmac5_est_set_enable (k : Hdr) (st : Mmio) (enable : Bool) : Int × Mmio :=
  let (value, st) := readl st Reg.MTL_EST_CTRL
  let value := value &&& not32 (k.MTL_EST_CTRL_SSWL ||| k.MTL_EST_CTRL_EEST)
  let value := value ||| ((if enable then 1 else 0) &&& k.MTL_EST_CTRL_EEST)
  let st := writel value Reg.MTL_EST_CTRL st
  (0, st)

/-- Source `dwmac5_est_get_enable`. -/
def dwmac5_est_get_enable (k : Hdr) (st : Mmio) : Bool × Mmio :=
  let (value, st) := readl st Reg.MTL_EST_CTRL
  (decide (value &&& k.MTL_EST_CTRL_EEST ≠ 0), st)

/-- Source `dwmac5_est_get_bank`. -/
def dwmac5_est_get_bank (k : Hdr) (st : Mmio) (is_own : Bool) : Nat × Mmio :=
  let (value, st) := readl st Reg.MTL_EST_STATUS
  let value := (value &&& k.MTL_EST_STATUS_SWOL) >>> k.MTL_EST_STATUS_SWOL_SHIFT
  if is_own then (value, st) else (not32 value &&& 1, st)

/-- Source `dwmac5_est_switch_swol`. -/
def dwmac5_est_switch_swol (k : Hdr) (st : Mmio) : Mmio :=
  let (value, st) := readl st Reg.MTL_EST_CTRL
  let value := value ||| k.MTL_EST_CTRL_SSWL
  writel value Reg.MTL_EST_CTRL st

/-! ## EST: interrupt status -/

/-- Source `dwmac5_est_irq_status`. The statistics vector is passed in and
returned second. -/
def dwmac5_est_irq_status (k : Hdr) (st : Mmio) (mmc_stat : Stat) (txqcnt : Nat) :
    Int × Stat × Mmio :=
  let txqcnt_mask := low_mask txqcnt
  let (status, st) := readl st Reg.MTL_EST_STATUS
  let value := k.MTL_EST_STATUS_CGCE ||| k.MTL_EST_STATUS_HLBS |||
    k.MTL_EST_STATUS_HLBF ||| k.MTL_EST_STATUS_BTRE ||| k.MTL_EST_STATUS_SWLC
  if status &&& value = 0 then (0, mmc_stat, st)
  else
    let (mmc_stat, st) :=
      if status &&& k.MTL_EST_STATUS_CGCE ≠ 0 then
        let st := writel k.MTL_EST_STATUS_CGCE Reg.MTL_EST_STATUS st
        (stat_inc k mmc_stat EST_MMC_CGCE, st)
      else (mmc_stat, st)
    let (mmc_stat, st) :=
      if status &&& k.MTL_EST_STATUS_HLBS ≠ 0 then
        let (value, st) := readl st Reg.MTL_EST_SCH_ERR
        let value := value &&& txqcnt_mask
        let mmc_stat := stat_inc k mmc_stat EST_MMC_HLBS
        let st := writel value Reg.MTL_EST_SCH_ERR st
        let (allowed, st) := net_ratelimit st
        (mmc_stat, if allowed then netdev_log (Msg.est_hlb_sched value) st else st)
      else (mmc_stat, st)
    let (mmc_stat, st) :=
      if status &&& k.MTL_EST_STATUS_HLBF ≠ 0 then
        let (value, st) := readl st Reg.MTL_EST_FRM_SZ_ERR
        let feqn := value &&& txqcnt_mask
        let (value, st) := readl st Reg.MTL_EST_FRM_SZ_CAP
        let hbfq := (value &&& k.MTL_EST_FRM_SZ_CAP_HBFQ_MASK txqcnt) >>>
          k.MTL_EST_FRM_SZ_CAP_HBFQ_SHIFT
        let hbfs := value &&& k.MTL_EST_FRM_SZ_CAP_HBFS_MASK
        let mmc_stat := stat_inc k mmc_stat EST_MMC_HLBF
        let st := writel feqn Reg.MTL_EST_FRM_SZ_ERR st
        let (allowed, st) := net_ratelimit st
        (mmc_stat, if allowed then netdev_log (Msg.est_hlb_size hbfq hbfs) st else st)
      else (mmc_stat, st)
    let (mmc_stat, st) :=
      if status &&& k.MTL_EST_STATUS_BTRE ≠ 0 then
        let mmc_stat :=
          if status &&& k.MTL_EST_STATUS_BTRL = k.MTL_EST_STATUS_BTRL_MAX then
            stat_inc k mmc_stat EST_MMC_BTRLM
          else stat_inc k mmc_stat EST_MMC_BTRE
        let btrl := (status &&& k.MTL_EST_STATUS_BTRL) >>> k.MTL_EST_STATUS_BTRL_SHIFT
        let (allowed, st) := net_ratelimit st
        let st := if allowed then netdev_log (Msg.est_btr_loop btrl) st else st
        (mmc_stat, writel k.MTL_EST_STATUS_BTRE Reg.MTL_EST_STATUS st)
      else (mmc_stat, st)
    let st :=
      if status &&& k.MTL_EST_STATUS_SWLC ≠ 0 then
        netdev_log Msg.est_swol_switched (writel k.MTL_EST_STATUS_SWLC Reg.MTL_EST_STATUS st)
      else st
    (int_of_u32 status, mmc_stat, st)

/-! ## FPE: MMC counters -/

/-- Source `dwmac5_fpe_mmc_irq_status`. It has no access to the statistics
vector. -/
def dwmac5_fpe_mmc_irq_status (k : Hdr) (st : Mmio) : Mmio :=
  let (tx_stat, st) := readl st Reg.MMC_FPE_TX_INTR
  let (rx_stat, st) := readl st Reg.MMC_FPE_RX_INTR
  let st :=
    if tx_stat &&& k.MMC_FPE_TX_INTR_MASK_DEFAULT ≠ 0 then
      let st :=
        if tx_stat &&& k.MMC_FPE_TX_INTR_MASK_HRCIM = k.MMC_FPE_TX_INTR_MASK_HRCIM then
          let (value, st) := readl st Reg.MMC_TX_HOLD_REQ
          netdev_log (Msg.fpe_irq_txhrc value) st
        else st
      if tx_stat &&& k.MMC_FPE_TX_INTR_MASK_FCIM = k.MMC_FPE_TX_INTR_MASK_FCIM then
        let (value, st) := readl st Reg.MMC_TX_FPE_FRAGMENT
        netdev_log (Msg.fpe_irq_txffc value) st
      else st
    else st
  if rx_stat &&& k.MMC_FPE_RX_INTR_MASK_DEFAULT ≠ 0 then
    let st :=
      if rx_stat &&& k.MMC_FPE_RX_INTR_MASK_PAECIM = k.MMC_FPE_RX_INTR_MASK_PAECIM then
        let (value, st) := readl st Reg.MMC_RX_PACKET_ASSEMBLY_ERR
        netdev_log (Msg.fpe_irq_paec value) st
      else st
    let st :=
      if rx_stat &&& k.MMC_FPE_RX_INTR_MASK_PSECIM = k.MMC_FPE_RX_INTR_MASK_PSECIM then
        let (value, st) := readl st Reg.MMC_RX_PACKET_SMD_ERR
        netdev_log (Msg.fpe_irq_psec value) st
      else st
    let st :=
      if rx_stat &&& k.MMC_FPE_RX_INTR_MASK_PAOCIM = k.MMC_FPE_RX_INTR_MASK_PAOCIM then
        let (value, st) := readl st Reg.MMC_RX_PACKET_ASSEMBLY_OK
        netdev_log (Msg.fpe_irq_paoc value) st
      else st
    if rx_stat &&& k.MMC_FPE_RX_INTR_MASK_FCIM = k.MMC_FPE_RX_INTR_MASK_FCIM then
      let (value, st) := readl st Reg.MMC_RX_FPE_FRAGMENT
      netdev_log (Msg.fpe_irq_rxffc value) st
    else st
  else st

/-- Source `dwmac5_fpe_update_mmc_stat`. The statistics vector is passed in and
returned first. -/
def dwmac5_fpe_update_mmc_stat (k : Hdr) (st : Mmio) (mmc_stat : Stat) : Stat × Mmio :=
  let (v, st) := readl st Reg.MMC_TX_HOLD_REQ
  let mmc_stat := stat_set k mmc_stat FPE_MMC_TXHRC v
  let (v, st) := readl st Reg.MMC_TX_FPE_FRAGMENT
  let mmc_stat := stat_set k mmc_stat FPE_MMC_TXFFC v
  let (v, st) := readl st Reg.MMC_RX_PACKET_ASSEMBLY_ERR
  let mmc_stat := stat_set k mmc_stat FPE_MMC_PAEC v
  let (v, st) := readl st Reg.MMC_RX_PACKET_SMD_ERR
  let mmc_stat := stat_set k mmc_stat FPE_MMC_PSEC v
  let (v, st) := readl st Reg.MMC_RX_PACKET_ASSEMBLY_OK
  let mmc_stat := stat_set k mmc_stat FPE_MMC_PAOC v
  let (v, st) := readl st Reg.MMC_RX_FPE_FRAGMENT
  let mmc_stat := stat_set k mmc_stat FPE_MMC_FFC v
  (mmc_stat, st)

/-! ## FPE and TBS: header constants -/

/-- The bit-mask, shift and enumeration constants of `dwmac5.h` /
`stmmac_tsn.h` used by the FPE and TBS functions; the headers are not in the
source tree, so they are parameters. -/
structure FpeTbsHdr where
  MTL_FPE_ADVANCE_HADV : Nat
  MTL_FPE_ADVANCE_RADV : Nat
  MTL_FPE_ADVANCE_RADV_SHIFT : Nat
  MAC_FPE_CTRL_STS_TRSP : Nat
  MAC_FPE_CTRL_STS_TVER : Nat
  MAC_FPE_CTRL_STS_RRSP : Nat
  MAC_FPE_CTRL_STS_RVER : Nat
  MAC_FPE_CTRL_STS_SRSP : Nat
  MAC_FPE_CTRL_STS_SVER : Nat
  FPE_EVENT_UNKNOWN : Nat
  FPE_EVENT_TRSP : Nat
  FPE_EVENT_TVER : Nat
  FPE_EVENT_RRSP : Nat
  FPE_EVENT_RVER : Nat
  MPACKET_VERIFY : Nat
  MTL_TBS_CTRL_ESTM : Nat
  MTL_TBS_CTRL_LEOV : Nat
  MTL_TBS_CTRL_LEOS : Nat
  MTL_TBS_CTRL_LEGOS : Nat
  MTL_TBS_CTRL_LEGOS_SHIFT : Nat
  DMA_TBS_CTRL_FTOV : Nat
  DMA_TBS_CTRL_FTOS : Nat
  DMA_TBS_CTRL_FTOS_SHIFT : Nat
  DMA_TBS_CTRL_FGOS : Nat
  DMA_TBS_CTRL_FGOS_SHIFT : Nat

/-! ## FPE: advance register, events and mPackets -/

/-- Source `dwmac5_fpe_set_hadv`. -/
def dwmac5_fpe_set_hadv (h : FpeTbsHdr) (st : Mmio) (hadv : Nat) : Mmio :=
  let (value, st) := readl st Reg.MTL_FPE_ADVANCE
  let value := value &&& not32 h.MTL_FPE_ADVANCE_HADV
  let value := value ||| hadv
  writel value Reg.MTL_FPE_ADVANCE st

/-- Source `dwmac5_fpe_set_radv`. -/
def dwmac5_fpe_set_radv (h : FpeTbsHdr) (st : Mmio) (radv : Nat) : Mmio :=
  let (value, st) := readl st Reg.MTL_FPE_ADVANCE
  let value := value &&& not32 h.MTL_FPE_ADVANCE_RADV
  let value := value ||| (h.MTL_FPE_ADVANCE_RADV &&& shl32 radv h.MTL_FPE_ADVANCE_RADV_SHIFT)
  let value := value ||| radv
  writel value Reg.MTL_FPE_ADVANCE st

/-- Source `dwmac5_fpe_irq_status`. The out-parameter `*event` is passed in
with its prior content and returned first. -/
def dwmac5_fpe_irq_status (h : FpeTbsHdr) (st : Mmio) (event : Nat) : Nat × Mmio :=
  let event := Function.const Nat h.FPE_EVENT_UNKNOWN event
  let (value, st) := readl st Reg.MAC_FPE_CTRL_STS
  let (event, st) :=
    if value &&& h.MAC_FPE_CTRL_STS_TRSP ≠ 0 then
      (event ||| h.FPE_EVENT_TRSP, netdev_log Msg.fpe_trsp st)
    else (event, st)
  let (event, st) :=
    if value &&& h.MAC_FPE_CTRL_STS_TVER ≠ 0 then
      (event ||| h.FPE_EVENT_TVER, netdev_log Msg.fpe_tver st)
    else (event, st)
  let (event, st) :=
    if value &&& h.MAC_FPE_CTRL_STS_RRSP ≠ 0 then
      (event ||| h.FPE_EVENT_RRSP, netdev_log Msg.fpe_rrsp st)
    else (event, st)
  let (event, st) :=
    if value &&& h.MAC_FPE_CTRL_STS_RVER ≠ 0 then
      (event ||| h.FPE_EVENT_RVER, netdev_log Msg.fpe_rver st)
    else (event, st)
  (event, st)

/-- Source `dwmac5_fpe_send_mpacket`; `type` is the value of the
`enum mpacket_type` argument. -/
def dwmac5_fpe_send_mpacket (h : FpeTbsHdr) (st : Mmio) (type : Nat) : Mmio :=
  let (value, st) := readl st Reg.MAC_FPE_CTRL_STS
  let value :=
    if type = h.MPACKET_VERIFY then
      (value &&& not32 h.MAC_FPE_CTRL_STS_SRSP) ||| h.MAC_FPE_CTRL_STS_SVER
    else
      (value &&& not32 h.MAC_FPE_CTRL_STS_SVER) ||| h.MAC_FPE_CTRL_STS_SRSP
  writel value Reg.MAC_FPE_CTRL_STS st

/-! ## TBS: launch and fetch time -/

/-- Source `dwmac5_tbs_set_estm`. -/
def dwmac5_tbs_set_estm (h : FpeTbsHdr) (st : Mmio) (estm : Nat) : Mmio :=
  let (value, st) := readl st Reg.MTL_TBS_CTRL
  let value :=
    if estm ≠ 0 then value ||| h.MTL_TBS_CTRL_ESTM
    else value &&& h.MTL_TBS_CTRL_ESTM
  writel value Reg.MTL_TBS_CTRL st

/-- Source `dwmac5_tbs_set_leos`. -/
def dwmac5_tbs_set_leos (h : FpeTbsHdr) (st : Mmio) (leos estm : Nat) : Mmio :=
  let (value, st) := readl st Reg.MTL_TBS_CTRL
  let value :=
    if leos ≠ 0 ∨ (estm ≠ 0 ∧ leos ≠ 0) then value ||| h.MTL_TBS_CTRL_LEOV
    else value &&& not32 h.MTL_TBS_CTRL_LEOV
  let value := value &&& not32 h.MTL_TBS_CTRL_LEOS
  let value := value ||| (leos &&& h.MTL_TBS_CTRL_LEOS)
  writel value Reg.MTL_TBS_CTRL st

/-- Source `dwmac5_tbs_set_legos`. -/
def dwmac5_tbs_set_legos (h : FpeTbsHdr) (st : Mmio) (legos leos : Nat) : Mmio :=
  let (value, st) := readl st Reg.MTL_TBS_CTRL
  let value :=
    if leos ≠ 0 ∨ legos ≠ 0 then value ||| h.MTL_TBS_CTRL_LEOV
    else value &&& not32 h.MTL_TBS_CTRL_LEOV
  let value := value &&& not32 h.MTL_TBS_CTRL_LEGOS
  let value := value ||| (h.MTL_TBS_CTRL_LEGOS &&& shl32 legos h.MTL_TBS_CTRL_LEGOS_SHIFT)
  writel value Reg.MTL_TBS_CTRL st

/-- Source `dwmac5_tbs_set_ftos`. -/
def dwmac5_tbs_set_ftos (h : FpeTbsHdr) (st : Mmio) (ftos estm fgos : Nat) : Mmio :=
  let (value, st) := readl st Reg.DMA_TBS_CTRL
  let value := value &&& not32 h.DMA_TBS_CTRL_FTOV
  let st := writel value Reg.DMA_TBS_CTRL st
  let value := value &&& not32 h.DMA_TBS_CTRL_FTOS
  let value := value ||| (h.DMA_TBS_CTRL_FTOS &&& shl32 ftos h.DMA_TBS_CTRL_FTOS_SHIFT)
  let value :=
    if ftos ≠ 0 ∨ (estm ≠ 0 ∧ fgos ≠ 0) then value ||| h.DMA_TBS_CTRL_FTOV else value
  writel value Reg.DMA_TBS_CTRL st

/-- Source `dwmac5_tbs_set_fgos`. -/
def dwmac5_tbs_set_fgos (h : FpeTbsHdr) (st : Mmio) (fgos ftos : Nat) : Mmio :=
  let (value, st) := readl st Reg.DMA_TBS_CTRL
  let value := value &&& not32 h.DMA_TBS_CTRL_FTOV
  let st := writel value Reg.DMA_TBS_CTRL st
  let value := value &&& not32 h.DMA_TBS_CTRL_FGOS
  let value := value ||| (h.DMA_TBS_CTRL_FGOS &&& shl32 fgos h.DMA_TBS_CTRL_FGOS_SHIFT)
  let value := if ftos ≠ 0 ∨ fgos ≠ 0 then value ||| h.DMA_TBS_CTRL_FTOV else value
  writel value Reg.DMA_TBS_CTRL st

/-! ## A concrete header and devices for evaluation -/

/-- One assignment of the header constants, following the register layout of
the DWC EQoS 5.10 databook (`BIT(n) = 2 ^ n`), with 64-bit counters. It is used
to evaluate the functions on concrete inputs. -/
def hdr510 : Hdr where
  GMAC_HW_FEAT_ESTDEP := 917504
  GMAC_HW_FEAT_ESTDEP_SHIFT := 17
  GMAC_HW_FEAT_ESTWID := 3145728
  GMAC_HW_FEAT_ESTWID_SHIFT := 20
  GMAC_HW_FEAT_TXQCNT := 960
  GMAC_HW_FEAT_RXQCNT := 15
  MTL_EST_CTRL_PTOV := 4278190080
  MTL_EST_CTRL_PTOV_SHIFT := 24
  MTL_EST_CTRL_CTOV := 16773120
  MTL_EST_CTRL_CTOV_SHIFT := 12
  MTL_EST_CTRL_TILS := 1792
  MTL_EST_CTRL_TILS_SHIFT := 8
  MTL_EST_CTRL_SSWL := 2
  MTL_EST_CTRL_EEST := 1
  MTL_EST_STATUS_BTRL := 3840
  MTL_EST_STATUS_BTRL_SHIFT := 8
  MTL_EST_STATUS_BTRL_MAX := 3840
  MTL_EST_STATUS_SWOL := 128
  MTL_EST_STATUS_SWOL_SHIFT := 7
  MTL_EST_STATUS_CGCE := 16
  MTL_EST_STATUS_HLBS := 8
  MTL_EST_STATUS_HLBF := 4
  MTL_EST_STATUS_BTRE := 2
  MTL_EST_STATUS_SWLC := 1
  MTL_EST_FRM_SZ_CAP_HBFS_MASK := 32767
  MTL_EST_FRM_SZ_CAP_HBFQ_SHIFT := 16
  MTL_EST_FRM_SZ_CAP_HBFQ_MASK := fun x =>
    if x > 4 then 458752 else if x > 2 then 196608 else if x > 1 then 65536 else 0
  MTL_EST_GCL_CTRL_DBGB1 := 32
  MTL_EST_GCL_CTRL_DBGM := 16
  MTL_EST_GCL_CTRL_GCRR := 4
  MTL_EST_GCL_CTRL_SRWO := 1
  GCL_OPS_R := 2
  GCL_OPS_W := 0
  MMC_FPE_TX_INTR_MASK_HRCIM := 2
  MMC_FPE_TX_INTR_MASK_FCIM := 1
  MMC_FPE_TX_INTR_MASK_DEFAULT := 3
  MMC_FPE_RX_INTR_MASK_FCIM := 8
  MMC_FPE_RX_INTR_MASK_PAOCIM := 4
  MMC_FPE_RX_INTR_MASK_PSECIM := 2
  MMC_FPE_RX_INTR_MASK_PAECIM := 1
  MMC_FPE_RX_INTR_MASK_DEFAULT := 15
  MMC_STAT_BITS := 64

/-- One assignment of the FPE and TBS header constants, following the register
layout of the DWC EQoS 5.10 databook and the enumerations of `stmmac_tsn.h`.
It is used to evaluate the functions on concrete inputs. -/
def fpetbs510 : FpeTbsHdr where
  MTL_FPE_ADVANCE_HADV := 65535
  MTL_FPE_ADVANCE_RADV := 4294901760
  MTL_FPE_ADVANCE_RADV_SHIFT := 16
  MAC_FPE_CTRL_STS_TRSP := 524288
  MAC_FPE_CTRL_STS_TVER := 262144
  MAC_FPE_CTRL_STS_RRSP := 131072
  MAC_FPE_CTRL_STS_RVER := 65536
  MAC_FPE_CTRL_STS_SRSP := 4
  MAC_FPE_CTRL_STS_SVER := 2
  FPE_EVENT_UNKNOWN := 0
  FPE_EVENT_TRSP := 1
  FPE_EVENT_TVER := 2
  FPE_EVENT_RRSP := 4
  FPE_EVENT_RVER := 8
  MPACKET_VERIFY := 0
  MTL_TBS_CTRL_ESTM := 1
  MTL_TBS_CTRL_LEOV := 2
  MTL_TBS_CTRL_LEOS := 4294967040
  MTL_TBS_CTRL_LEGOS := 112
  MTL_TBS_CTRL_LEGOS_SHIFT := 4
  DMA_TBS_CTRL_FTOV := 1
  DMA_TBS_CTRL_FTOS := 4294967040
  DMA_TBS_CTRL_FTOS_SHIFT := 8
  DMA_TBS_CTRL_FGOS := 112
  DMA_TBS_CTRL_FGOS_SHIFT := 4

/-- A device whose registers hold fixed values given by `regs` and never
change, with an always-permitting rate limiter and `retries` poll re-reads. -/
def const_dev (regs : Reg → Nat) (retries : Nat) : Mmio where
  dev := fun _ r => regs r
  net_ratelimit := fun _ => true
  poll_retries := fun _ => retries
  trace := []

/-- The register writes of a trace, in order. -/
def writes (t : List Event) : List (Reg × Nat) :=
  t.filterMap fun e => match e with
    | Event.wr r v => some (r, v)
    | _ => none

/-- The registers read in a trace, in order. -/
def reads (t : List Event) : List Reg :=
  t.filterMap fun e => match e with
    | Event.rd r _ => some r
    | _ => none

/-- A device that answers every read of `MTL_EST_GCL_DATA` with `data`, every
read of `GMAC_HW_FEATURE3` with `cap3`, and keeps `SRWO` (bit 0 of
`MTL_EST_GCL_CTRL`) set for the first `busy` polls after a request. -/
def gcl_dev (cap3 data busy retries : Nat) : Mmio where
  dev := fun t r =>
    match r with
    | Reg.GMAC_HW_FEATURE3 => cap3
    | Reg.MTL_EST_GCL_DATA => data
    | Reg.MTL_EST_GCL_CTRL =>
      if (reads t).count Reg.MTL_EST_GCL_CTRL < busy then 1 else 0
    | _ => 0
  net_ratelimit := fun _ => true
  poll_retries := fun _ => retries
  trace := []

/-- The address phase of `dwmac5_est_read_gcl_config`: the depth query followed
by `est_set_gcl_addr` with the read opcode. -/
def read_addr_phase (k : Hdr) (st : Mmio) (addr : Nat) (is_gcrr : Bool) (dbgb : Nat)
    (is_dbgm : Bool) : Int × Mmio :=
  est_set_gcl_addr k (dwmac5_est_get_gcl_depth k st).2 addr is_gcrr k.GCL_OPS_R
    (ilog2 (dwmac5_est_get_gcl_depth k st).1) dbgb is_dbgm

/-- The address-control word as the specification words it (4.3, step 2): the
row address reduced modulo the depth at the address position (bit 8), the
optional `GCRR`, debug-mode and debug-bank selectors, the operation code and
`SRWO`. It is compared with what `est_set_gcl_addr` writes. -/
def spec_gcl_ctrl_word (k : Hdr) (depth addr : Nat) (is_gcrr : Bool) (dbgb : Nat)
    (is_dbgm : Bool) (rwops : Nat) : Nat :=
  ((addr % depth) <<< 8)
    ||| (if is_gcrr then k.MTL_EST_GCL_CTRL_GCRR else 0)
    ||| (if is_dbgm then k.MTL_EST_GCL_CTRL_DBGM else 0)
    ||| (if is_dbgm ∧ dbgb ≠ 0 then k.MTL_EST_GCL_CTRL_DBGB1 else 0)
    ||| rwops ||| k.MTL_EST_GCL_CTRL_SRWO

/-- The relation the header gives the FPE MMC interrupt masks: each counter's
interrupt bit is non-zero and is part of the `DEFAULT` mask of its direction. -/
abbrev fpe_mmc_masks_ok (k : Hdr) : Prop :=
  (k.MMC_FPE_TX_INTR_MASK_HRCIM ≠ 0 ∧
    k.MMC_FPE_TX_INTR_MASK_DEFAULT &&& k.MMC_FPE_TX_INTR_MASK_HRCIM
      = k.MMC_FPE_TX_INTR_MASK_HRCIM) ∧
  (k.MMC_FPE_TX_INTR_MASK_FCIM ≠ 0 ∧
    k.MMC_FPE_TX_INTR_MASK_DEFAULT &&& k.MMC_FPE_TX_INTR_MASK_FCIM
      = k.MMC_FPE_TX_INTR_MASK_FCIM) ∧
  (k.MMC_FPE_RX_INTR_MASK_PAECIM ≠ 0 ∧
    k.MMC_FPE_RX_INTR_MASK_DEFAULT &&& k.MMC_FPE_RX_INTR_MASK_PAECIM
      = k.MMC_FPE_RX_INTR_MASK_PAECIM) ∧
  (k.MMC_FPE_RX_INTR_MASK_PSECIM ≠ 0 ∧
    k.MMC_FPE_RX_INTR_MASK_DEFAULT &&& k.MMC_FPE_RX_INTR_MASK_PSECIM
      = k.MMC_FPE_RX_INTR_MASK_PSECIM) ∧
  (k.MMC_FPE_RX_INTR_MASK_PAOCIM ≠ 0 ∧
    k.MMC_FPE_RX_INTR_MASK_DEFAULT &&& k.MMC_FPE_RX_INTR_MASK_PAOCIM
      = k.MMC_FPE_RX_INTR_MASK_PAOCIM) ∧
  (k.MMC_FPE_RX_INTR_MASK_FCIM ≠ 0 ∧
    k.MMC_FPE_RX_INTR_MASK_DEFAULT &&& k.MMC_FPE_RX_INTR_MASK_FCIM
      = k.MMC_FPE_RX_INTR_MASK_FCIM)

/-- A device for the FPE MMC interrupt decode: the Tx and Rx interrupt-status
registers hold `tx` and `rx`, every counter register holds 5. -/
def mmc_dev (tx rx : Nat) : Mmio where
  dev := fun _ r =>
    match r with
    | Reg.MMC_FPE_TX_INTR => tx
    | Reg.MMC_FPE_RX_INTR => rx
    | _ => 5
  net_ratelimit := fun _ => true
  poll_retries := fun _ => 0
  trace := []

/-- The relation the header gives the `enum fpe_event` values: `UNKNOWN` is the
empty event and the four flags are non-zero and pairwise disjoint. -/
abbrev fpe_events_ok (h : FpeTbsHdr) : Prop :=
  h.FPE_EVENT_UNKNOWN = 0 ∧
  (h.FPE_EVENT_TRSP ≠ 0 ∧ h.FPE_EVENT_TVER ≠ 0 ∧ h.FPE_EVENT_RRSP ≠ 0 ∧
    h.FPE_EVENT_RVER ≠ 0) ∧
  (h.FPE_EVENT_TVER &&& h.FPE_EVENT_TRSP = 0 ∧ h.FPE_EVENT_RRSP &&& h.FPE_EVENT_TRSP = 0 ∧
    h.FPE_EVENT_RVER &&& h.FPE_EVENT_TRSP = 0) ∧
  (h.FPE_EVENT_TRSP &&& h.FPE_EVENT_TVER = 0 ∧ h.FPE_EVENT_RRSP &&& h.FPE_EVENT_TVER = 0 ∧
    h.FPE_EVENT_RVER &&& h.FPE_EVENT_TVER = 0) ∧
  (h.FPE_EVENT_TRSP &&& h.FPE_EVENT_RRSP = 0 ∧ h.FPE_EVENT_TVER &&& h.FPE_EVENT_RRSP = 0 ∧
    h.FPE_EVENT_RVER &&& h.FPE_EVENT_RRSP = 0) ∧
  (h.FPE_EVENT_TRSP &&& h.FPE_EVENT_RVER = 0 ∧ h.FPE_EVENT_TVER &&& h.FPE_EVENT_RVER = 0 ∧
    h.FPE_EVENT_RRSP &&& h.FPE_EVENT_RVER = 0)

/-- The register accesses (reads and writes) of a trace, in order, without the
rate-limiter queries and log lines. -/
def accesses (t : List Event) : List Event :=
  t.filter fun e => match e with
    | Event.rd _ _ => true
    | Event.wr _ _ => true
    | _ => false

/-- The CGCE block of `dwmac5_est_irq_status`, as a function of the state. -/
def irq_cgce_step (k : Hdr) (status : Nat) (st : Mmio) : Mmio :=
  if status &&& k.MTL_EST_STATUS_CGCE ≠ 0 then
    writel k.MTL_EST_STATUS_CGCE Reg.MTL_EST_STATUS st
  else st

/-- The HLBS block of `dwmac5_est_irq_status`, as a function of the state. -/
def irq_hlbs_step (k : Hdr) (status txqcnt : Nat) (st : Mmio) : Mmio :=
  if status &&& k.MTL_EST_STATUS_HLBS ≠ 0 then
    let (value, st) := readl st Reg.MTL_EST_SCH_ERR
    let value := value &&& low_mask txqcnt
    let st := writel value Reg.MTL_EST_SCH_ERR st
    let (allowed, st) := net_ratelimit st
    if allowed then netdev_log (Msg.est_hlb_sched value) st else st
  else st

/-- The HLBF block of `dwmac5_est_irq_status`, as a function of the state. -/
def irq_hlbf_step (k : Hdr) (status txqcnt : Nat) (st : Mmio) : Mmio :=
  if status &&& k.MTL_EST_STATUS_HLBF ≠ 0 then
    let (value, st) := readl st Reg.MTL_EST_FRM_SZ_ERR
    let feqn := value &&& low_mask txqcnt
    let (value, st) := readl st Reg.MTL_EST_FRM_SZ_CAP
    let hbfq := (value &&& k.MTL_EST_FRM_SZ_CAP_HBFQ_MASK txqcnt) >>>
      k.MTL_EST_FRM_SZ_CAP_HBFQ_SHIFT
    let hbfs := value &&& k.MTL_EST_FRM_SZ_CAP_HBFS_MASK
    let st := writel feqn Reg.MTL_EST_FRM_SZ_ERR st
    let (allowed, st) := net_ratelimit st
    if allowed then netdev_log (Msg.est_hlb_size hbfq hbfs) st else st
  else st

/-- The BTRE block of `dwmac5_est_irq_status`, as a function of the state. -/
def irq_btre_step (k : Hdr) (status : Nat) (st : Mmio) : Mmio :=
  if status &&& k.MTL_EST_STATUS_BTRE ≠ 0 then
    let btrl := (status &&& k.MTL_EST_STATUS_BTRL) >>> k.MTL_EST_STATUS_BTRL_SHIFT
    let (allowed, st) := net_ratelimit st
    let st := if allowed then netdev_log (Msg.est_btr_loop btrl) st else st
    writel k.MTL_EST_STATUS_BTRE Reg.MTL_EST_STATUS st
  else st

/-- The SWLC block of `dwmac5_est_irq_status`, as a function of the state. -/
def irq_swlc_step (k : Hdr) (status : Nat) (st : Mmio) : Mmio :=
  if status &&& k.MTL_EST_STATUS_SWLC ≠ 0 then
    netdev_log Msg.est_swol_switched (writel k.MTL_EST_STATUS_SWLC Reg.MTL_EST_STATUS st)
  else st

/-- A device for the EST status decode: the status register holds `status`,
the scheduling-error register `sch`, the frame-size-error register `frm`, the
frame-size capture register `cap`; the rate limiter answers `allowed`. -/
def est_irq_dev (status sch frm cap : Nat) (allowed : Bool) : Mmio where
  dev := fun _ r =>
    match r with
    | Reg.MTL_EST_STATUS => status
    | Reg.MTL_EST_SCH_ERR => sch
    | Reg.MTL_EST_FRM_SZ_ERR => frm
    | Reg.MTL_EST_FRM_SZ_CAP => cap
    | _ => 0
  net_ratelimit := fun _ => allowed
  poll_retries := fun _ => 0
  trace := []

/-! ## Bit-level lemmas -/

theorem testBit_false_of_lt_of_le {x n i : Nat} (h : x < 2 ^ n) (hi : n ≤ i) :
    x.testBit i = false :=
  Nat.testBit_lt_two_pow (lt_of_lt_of_le h (Nat.pow_le_pow_right (by decide) hi))

theorem lt_of_testBit_true {x n i : Nat} (h : x < 2 ^ n) (hb : x.testBit i = true) : i < n := by
  by_contra hc
  rw [testBit_false_of_lt_of_le h (Nat.le_of_not_lt hc)] at hb
  exact Bool.noConfusion hb

theorem low_mask_eq {n : Nat} (h : n < 32) : low_mask n = 2 ^ n - 1 := by
  have h1 : 2 ^ n < 2 ^ 32 := Nat.pow_lt_pow_right (by decide) h
  have h2 : 0 < 2 ^ n := Nat.pos_pow_of_pos n (by decide)
  unfold low_mask sub32 shl32
  rw [Nat.shiftLeft_eq, Nat.one_mul]
  norm_num at h1 ⊢
  omega

theorem unpack_ti {w g t : Nat} (hw : w ≤ 32) (ht : t < 2 ^ w) :
    (((g <<< w) ||| t) % 4294967296) &&& (2 ^ w - 1) = t := by
  apply Nat.eq_of_testBit_eq
  intro i
  rw [Nat.testBit_and, Nat.testBit_two_pow_sub_one,
    show (4294967296 : Nat) = 2 ^ 32 by norm_num, Nat.testBit_mod_two_pow,
    Nat.testBit_or, Nat.testBit_shiftLeft]
  by_cases hi : i < w
  · have h32 : i < 32 := by omega
    have hge : ¬ i ≥ w := by omega
    simp [hi, h32, hge]
  · rw [testBit_false_of_lt_of_le ht (Nat.le_of_not_lt hi)]
    simp [hi]

theorem unpack_gates {w q g t : Nat} (ht : t < 2 ^ w) (hg : g < 2 ^ q)
    (hfit : g < 2 ^ (32 - w)) :
    ((((g <<< w) ||| t) % 4294967296) >>> w) &&& (2 ^ q - 1) = g := by
  apply Nat.eq_of_testBit_eq
  intro i
  rw [Nat.testBit_and, Nat.testBit_two_pow_sub_one, Nat.testBit_shiftRight,
    show (4294967296 : Nat) = 2 ^ 32 by norm_num, Nat.testBit_mod_two_pow,
    Nat.testBit_or, Nat.testBit_shiftLeft,
    testBit_false_of_lt_of_le ht (Nat.le_add_right w i)]
  rw [Nat.add_sub_cancel_left]
  cases hb : g.testBit i
  · simp
  · have h1 := lt_of_testBit_true hg hb
    have h2 := lt_of_testBit_true hfit hb
    have h3 : w + i < 32 := by omega
    simp [h1, h3]

/-! ## Trace and environment lemmas -/

@[simp] theorem readl_dev (st : Mmio) (r : Reg) : (readl st r).2.dev = st.dev := rfl

@[simp] theorem readl_poll_retries (st : Mmio) (r : Reg) :
    (readl st r).2.poll_retries = st.poll_retries := rfl

@[simp] theorem readl_trace (st : Mmio) (r : Reg) :
    (readl st r).2.trace = st.trace ++ [Event.rd r (readl st r).1] := rfl

@[simp] theorem writel_dev (v : Nat) (r : Reg) (st : Mmio) : (writel v r st).dev = st.dev := rfl

@[simp] theorem writel_trace (v : Nat) (r : Reg) (st : Mmio) :
    (writel v r st).trace = st.trace ++ [Event.wr r (v % 4294967296)] := rfl

theorem readl_lt (st : Mmio) (r : Reg) : (readl st r).1 < 4294967296 :=
  Nat.mod_lt _ (by decide)

@[simp] theorem writes_append (a b : List Event) : writes (a ++ b) = writes a ++ writes b := by
  simp [writes, List.filterMap_append]

@[simp] theorem reads_append (a b : List Event) : reads (a ++ b) = reads a ++ reads b := by
  simp [reads, List.filterMap_append]

theorem poll_loop_dev (r : Reg) (cond : Nat → Bool) (n : Nat) (st : Mmio) :
    (poll_loop r cond n st).2.2.dev = st.dev := by
  induction n generalizing st with
  | zero => rfl
  | succ n ih =>
    unfold poll_loop
    by_cases h : cond (readl st r).1 = true
    · simp [h]
    · simp [h, ih]

theorem poll_loop_ret (r : Reg) (cond : Nat → Bool) (n : Nat) (st : Mmio) :
    (poll_loop r cond n st).1 = 0 ∨ (poll_loop r cond n st).1 = -ETIMEDOUT := by
  induction n generalizing st with
  | zero =>
    unfold poll_loop
    by_cases h : cond (readl st r).1 = true <;> simp [h]
  | succ n ih =>
    unfold poll_loop
    by_cases h : cond (readl st r).1 = true
    · simp [h]
    · simp [h, ih]

theorem poll_loop_trace (r : Reg) (cond : Nat → Bool) (n : Nat) (st : Mmio) :
    ∃ l, (poll_loop r cond n st).2.2.trace = st.trace ++ l ∧
      writes l = [] ∧ ∀ e ∈ l, ∃ v, e = Event.rd r v := by
  induction n generalizing st with
  | zero =>
    refine ⟨[Event.rd r (readl st r).1], rfl, rfl, ?_⟩
    intro e he
    exact ⟨_, List.mem_singleton.mp he⟩
  | succ n ih =>
    unfold poll_loop
    by_cases h : cond (readl st r).1 = true
    · refine ⟨[Event.rd r (readl st r).1], by simp [h], rfl, ?_⟩
      intro e he
      exact ⟨_, List.mem_singleton.mp he⟩
    · obtain ⟨l, hl, hw, hr⟩ := ih (readl st r).2
      refine ⟨Event.rd r (readl st r).1 :: l, by simp [h, hl], ?_, ?_⟩
      · simpa [writes] using hw
      · intro e he
        rcases List.mem_cons.mp he with he | he
        · exact ⟨_, he⟩
        · exact hr e he

theorem est_set_gcl_addr_dev (k : Hdr) (st : Mmio) (addr : Nat) (is_gcrr : Bool)
    (rwops dep dbgb : Nat) (is_dbgm : Bool) :
    (est_set_gcl_addr k st addr is_gcrr rwops dep dbgb is_dbgm).2.dev = st.dev := by
  unfold est_set_gcl_addr readl_poll_timeout
  simp [poll_loop_dev]

theorem read_addr_phase_dev (k : Hdr) (st : Mmio) (addr : Nat) (is_gcrr : Bool) (dbgb : Nat)
    (is_dbgm : Bool) : (read_addr_phase k st addr is_gcrr dbgb is_dbgm).2.dev = st.dev := by
  unfold read_addr_phase
  rw [est_set_gcl_addr_dev]
  rfl

theorem est_read_gcl_config_eq (k : Hdr) (st : Mmio) (data addr : Nat)
    (is_gcrr : Bool) (dbgb : Nat) (is_dbgm : Bool) :
    dwmac5_est_read_gcl_config k st data addr is_gcrr dbgb is_dbgm =
      if (read_addr_phase k st addr is_gcrr dbgb is_dbgm).1 ≠ 0 then
        ((read_addr_phase k st addr is_gcrr dbgb is_dbgm).1, data,
         (read_addr_phase k st addr is_gcrr dbgb is_dbgm).2)
      else
        ((read_addr_phase k st addr is_gcrr dbgb is_dbgm).1,
         (readl (read_addr_phase k st addr is_gcrr dbgb is_dbgm).2 Reg.MTL_EST_GCL_DATA).1,
         (readl (read_addr_phase k st addr is_gcrr dbgb is_dbgm).2 Reg.MTL_EST_GCL_DATA).2) :=
  rfl

theorem est_read_gce_eq (k : Hdr) (st : Mmio)
    (row gates ti_nsec ti_wid txqcnt dbgb : Nat) (is_dbgm : Bool) (value : Nat) :
    dwmac5_est_read_gce k st row gates ti_nsec ti_wid txqcnt dbgb is_dbgm value =
      if (dwmac5_est_read_gcl_config k st value row false dbgb is_dbgm).1 ≠ 0 then
        ((dwmac5_est_read_gcl_config k st value row false dbgb is_dbgm).1, gates, ti_nsec,
         (dwmac5_est_read_gcl_config k st value row false dbgb is_dbgm).2.2)
      else
        ((dwmac5_est_read_gcl_config k st value row false dbgb is_dbgm).1,
         ((dwmac5_est_read_gcl_config k st value row false dbgb is_dbgm).2.1 >>> ti_wid)
            &&& low_mask txqcnt,
         (dwmac5_est_read_gcl_config k st value row false dbgb is_dbgm).2.1 &&& low_mask ti_wid,
         (dwmac5_est_read_gcl_config k st value row false dbgb is_dbgm).2.2) :=
  rfl

/-! ## C1: gate-control entry round trip -/

/-- C1, as stated, fails: with `ti_wid = 24` and `txqcnt = 16` the gate mask
`0x100` is below `2 ^ txqcnt`, but `0x100 << 24` does not fit the 32-bit DATA
word; `est_read_gce` succeeds and returns gates `0`, not `0x100`. -/
theorem est_read_gce_roundtrip_overflow :
    (24 = 16 ∨ 24 = 20 ∨ 24 = 24) ∧ (1 ≤ 16 ∧ 16 ≤ 16) ∧ 0 < 2 ^ 24 ∧ 256 < 2 ^ 16 ∧
    (dwmac5_est_read_gce hdr510
      (gcl_dev (3 <<< 17) (((256 <<< 24) ||| 0) % 4294967296) 0 12)
      0 7 9 24 16 0 false 0).1 = 0 ∧
    (dwmac5_est_read_gce hdr510
      (gcl_dev (3 <<< 17) (((256 <<< 24) ||| 0) % 4294967296) 0 12)
      0 7 9 24 16 0 false 0).2.1 = 0 ∧
    (dwmac5_est_read_gce hdr510
      (gcl_dev (3 <<< 17) (((256 <<< 24) ||| 0) % 4294967296) 0 12)
      0 7 9 24 16 0 false 0).2.1 ≠ 256 := by
  decide

/-- C1 (amended): for `ti_wid` in 16, 20, 24, `txqcnt` in 1..16,
`time_interval < 2 ^ ti_wid` and `gate_states < 2 ^ txqcnt` that also fits the
bits left above the interval, `gate_states < 2 ^ (32 - ti_wid)`: when the DATA
register holds the 32-bit word `(gate_states << ti_wid) | time_interval` and
`est_read_gce` succeeds, it yields exactly `(gate_states, time_interval)`. -/
theorem est_read_gce_roundtrip (k : Hdr) (st : Mmio)
    (row gates ti_nsec ti_wid txqcnt dbgb : Nat) (is_dbgm : Bool) (value : Nat)
    (gate_states time_interval : Nat)
    (hw : ti_wid = 16 ∨ ti_wid = 20 ∨ ti_wid = 24)
    (hq : 1 ≤ txqcnt ∧ txqcnt ≤ 16)
    (hti : time_interval < 2 ^ ti_wid)
    (hg : gate_states < 2 ^ txqcnt)
    (hfit : gate_states < 2 ^ (32 - ti_wid))
    (hdata : ∀ t, st.dev t Reg.MTL_EST_GCL_DATA =
      ((gate_states <<< ti_wid) ||| time_interval) % 4294967296)
    (hret : (dwmac5_est_read_gce k st row gates ti_nsec ti_wid txqcnt dbgb is_dbgm value).1 = 0) :
    (dwmac5_est_read_gce k st row gates ti_nsec ti_wid txqcnt dbgb is_dbgm value).2.1
        = gate_states ∧
    (dwmac5_est_read_gce k st row gates ti_nsec ti_wid txqcnt dbgb is_dbgm value).2.2.1
        = time_interval := by
  have hw32 : ti_wid < 32 := by omega
  have hq32 : txqcnt < 32 := by omega
  rw [est_read_gce_eq, est_read_gcl_config_eq] at hret ⊢
  by_cases h : (read_addr_phase k st row false dbgb is_dbgm).1 = 0
  · simp only [h, ne_eq, not_true_eq_false, if_false, readl, read_addr_phase_dev, hdata,
      Nat.mod_mod, low_mask_eq hw32, low_mask_eq hq32]
    exact ⟨unpack_gates hti hg hfit, unpack_ti (le_of_lt hw32) hti⟩
  · simp [h] at hret

/-- Witness for C1 (amended): gates `0b1010`, interval `1000`, `ti_wid = 20`,
`txqcnt = 4`, on a device that acknowledges after three polls. -/
theorem est_read_gce_roundtrip_witness :
    (dwmac5_est_read_gce hdr510
      (gcl_dev (3 <<< 17) (((10 <<< 20) ||| 1000) % 4294967296) 3 12)
      5 7 9 20 4 0 false 0).2.1 = 10 ∧
    (dwmac5_est_read_gce hdr510
      (gcl_dev (3 <<< 17) (((10 <<< 20) ||| 1000) % 4294967296) 3 12)
      5 7 9 20 4 0 false 0).2.2.1 = 1000 :=
  est_read_gce_roundtrip hdr510
    (gcl_dev (3 <<< 17) (((10 <<< 20) ||| 1000) % 4294967296) 3 12)
    5 7 9 20 4 0 false 0 10 1000
    (by decide) (by decide) (by decide) (by decide) (by decide) (fun _ => rfl) (by decide)

theorem GENMASK_eq_shiftLeft {h l : Nat} (hl : l ≤ h + 1) :
    GENMASK h l = (2 ^ (h + 1 - l) - 1) <<< l := by
  unfold GENMASK
  rw [Nat.shiftLeft_eq, Nat.sub_mul, Nat.one_mul, ← Nat.pow_add, Nat.sub_add_cancel hl]

theorem gcl_addr_field (addr dep : Nat) (h1 : 1 ≤ dep) (h2 : dep ≤ 24) :
    MTL_EST_GCL_CTRL_ADDR_VAL addr &&& MTL_EST_GCL_CTRL_ADDR dep = (addr % 2 ^ dep) <<< 8 := by
  have hs : sub32 (add32 8 dep) 1 = dep + 7 := by
    unfold sub32 add32
    omega
  unfold MTL_EST_GCL_CTRL_ADDR_VAL MTL_EST_GCL_CTRL_ADDR shl32
  rw [hs, GENMASK_eq_shiftLeft (by omega), show dep + 7 + 1 - 8 = dep by omega]
  apply Nat.eq_of_testBit_eq
  intro i
  rw [Nat.testBit_and, show (4294967296 : Nat) = 2 ^ 32 by norm_num, Nat.testBit_mod_two_pow,
    Nat.testBit_shiftLeft, Nat.testBit_shiftLeft, Nat.testBit_shiftLeft,
    Nat.testBit_two_pow_sub_one, Nat.testBit_mod_two_pow]
  by_cases h8 : i ≥ 8
  · by_cases hd : i - 8 < dep
    · have : i < 32 := by omega
      simp [h8, hd, this]
    · simp [h8, hd]
  · simp [h8]

theorem ilog2_depth (d : Nat) (h : d = 64 ∨ d = 128 ∨ d = 256 ∨ d = 512 ∨ d = 1024) :
    1 ≤ ilog2 d ∧ ilog2 d ≤ 24 ∧ 2 ^ ilog2 d = d := by
  rcases h with h | h | h | h | h <;> subst h <;> decide

theorem est_set_gcl_addr_eq (k : Hdr) (st : Mmio) (addr : Nat) (is_gcrr : Bool)
    (rwops dep dbgb : Nat) (is_dbgm : Bool) (h1 : 1 ≤ dep) (h2 : dep ≤ 24) :
    est_set_gcl_addr k st addr is_gcrr rwops dep dbgb is_dbgm =
      ((readl_poll_timeout
          (writel (spec_gcl_ctrl_word k (2 ^ dep) addr is_gcrr dbgb is_dbgm rwops)
            Reg.MTL_EST_GCL_CTRL st)
          Reg.MTL_EST_GCL_CTRL (fun v => v &&& k.MTL_EST_GCL_CTRL_SRWO = 0)).1,
       (readl_poll_timeout
          (writel (spec_gcl_ctrl_word k (2 ^ dep) addr is_gcrr dbgb is_dbgm rwops)
            Reg.MTL_EST_GCL_CTRL st)
          Reg.MTL_EST_GCL_CTRL (fun v => v &&& k.MTL_EST_GCL_CTRL_SRWO = 0)).2.2) := by
  unfold est_set_gcl_addr
  rw [gcl_addr_field addr dep h1 h2]
  have hv : (if is_gcrr then
        (if is_dbgm then
          (if dbgb ≠ 0 then (addr % 2 ^ dep) <<< 8 ||| k.MTL_EST_GCL_CTRL_DBGB1
            else (addr % 2 ^ dep) <<< 8) ||| k.MTL_EST_GCL_CTRL_DBGM
          else (addr % 2 ^ dep) <<< 8) ||| k.MTL_EST_GCL_CTRL_GCRR
        else
        (if is_dbgm then
          (if dbgb ≠ 0 then (addr % 2 ^ dep) <<< 8 ||| k.MTL_EST_GCL_CTRL_DBGB1
            else (addr % 2 ^ dep) <<< 8) ||| k.MTL_EST_GCL_CTRL_DBGM
          else (addr % 2 ^ dep) <<< 8)) ||| (rwops ||| k.MTL_EST_GCL_CTRL_SRWO) =
      spec_gcl_ctrl_word k (2 ^ dep) addr is_gcrr dbgb is_dbgm rwops := by
    unfold spec_gcl_ctrl_word
    cases is_gcrr <;> cases is_dbgm <;> by_cases hb : dbgb = 0 <;>
      simp [hb, Nat.or_assoc] <;> ac_rfl
  simp only [hv]

theorem readl_poll_timeout_writes (st : Mmio) (r : Reg) (cond : Nat → Bool) :
    writes (readl_poll_timeout st r cond).2.2.trace = writes st.trace := by
  unfold readl_poll_timeout
  obtain ⟨l, hl, hw, -⟩ := poll_loop_trace r cond (st.poll_retries st.trace) st
  rw [hl, writes_append, hw, List.append_nil]

/-! ## C2: GCL write sequence -/

/-- C2: for every reported depth in 64..1024 and all arguments,
`est_write_gcl_config` writes DATA with `data`, then GCL-CTRL with the
address-control word `((addr mod depth) << 8) | GCRR? | DBGM? | DBGB1? |
write-opcode | SRWO`, then polls `SRWO` and returns the result of that poll;
these two are its only register writes. -/
theorem est_write_gcl_config_sequence (k : Hdr) (st : Mmio) (data addr : Nat)
    (is_gcrr : Bool) (dbgb : Nat) (is_dbgm : Bool)
    (hdepth : (dwmac5_est_get_gcl_depth k st).1 = 64 ∨ (dwmac5_est_get_gcl_depth k st).1 = 128 ∨
      (dwmac5_est_get_gcl_depth k st).1 = 256 ∨ (dwmac5_est_get_gcl_depth k st).1 = 512 ∨
      (dwmac5_est_get_gcl_depth k st).1 = 1024) :
    dwmac5_est_write_gcl_config k st data addr is_gcrr dbgb is_dbgm =
      ((readl_poll_timeout
          (writel
            (spec_gcl_ctrl_word k (dwmac5_est_get_gcl_depth k st).1 addr is_gcrr dbgb is_dbgm
              k.GCL_OPS_W)
            Reg.MTL_EST_GCL_CTRL
            (writel data Reg.MTL_EST_GCL_DATA (readl st Reg.GMAC_HW_FEATURE3).2))
          Reg.MTL_EST_GCL_CTRL (fun v => v &&& k.MTL_EST_GCL_CTRL_SRWO = 0)).1,
       (readl_poll_timeout
          (writel
            (spec_gcl_ctrl_word k (dwmac5_est_get_gcl_depth k st).1 addr is_gcrr dbgb is_dbgm
              k.GCL_OPS_W)
            Reg.MTL_EST_GCL_CTRL
            (writel data Reg.MTL_EST_GCL_DATA (readl st Reg.GMAC_HW_FEATURE3).2))
          Reg.MTL_EST_GCL_CTRL (fun v => v &&& k.MTL_EST_GCL_CTRL_SRWO = 0)).2.2) ∧
    writes (dwmac5_est_write_gcl_config k st data addr is_gcrr dbgb is_dbgm).2.trace =
      writes st.trace ++
        [(Reg.MTL_EST_GCL_DATA, data % 4294967296),
         (Reg.MTL_EST_GCL_CTRL,
          spec_gcl_ctrl_word k (dwmac5_est_get_gcl_depth k st).1 addr is_gcrr dbgb is_dbgm
            k.GCL_OPS_W % 4294967296)] := by
  obtain ⟨h1, h2, h3⟩ := ilog2_depth _ hdepth
  have heq : dwmac5_est_write_gcl_config k st data addr is_gcrr dbgb is_dbgm =
      est_set_gcl_addr k (writel data Reg.MTL_EST_GCL_DATA (readl st Reg.GMAC_HW_FEATURE3).2)
        addr is_gcrr k.GCL_OPS_W (ilog2 (dwmac5_est_get_gcl_depth k st).1) dbgb is_dbgm := rfl
  rw [heq, est_set_gcl_addr_eq k _ addr is_gcrr _ _ dbgb is_dbgm h1 h2, h3]
  refine ⟨rfl, ?_⟩
  rw [readl_poll_timeout_writes]
  simp [writes]

/-- Witness for C2: depth 256 (capability field 3), row 5,
data `(0b1010 << 20) | 1000`, no flags: the writes are DATA `:= 10486760` and
GCL-CTRL `:= 1281 = (5 << 8) | write-opcode 0 | SRWO`. -/
theorem est_write_gcl_config_sequence_witness :
    writes (dwmac5_est_write_gcl_config hdr510 (gcl_dev (3 <<< 17) 0 0 12)
      ((10 <<< 20) ||| 1000) 5 false 0 false).2.trace =
      [(Reg.MTL_EST_GCL_DATA, (10 <<< 20) ||| 1000),
       (Reg.MTL_EST_GCL_CTRL, (5 <<< 8) ||| 0 ||| 1)] :=
  (est_write_gcl_config_sequence hdr510 (gcl_dev (3 <<< 17) 0 0 12)
    ((10 <<< 20) ||| 1000) 5 false 0 false (by decide)).2

theorem or_eq_zero_iff {a b : Nat} : a ||| b = 0 ↔ a = 0 ∧ b = 0 := by
  constructor
  · intro h
    have hb : ∀ i, (a.testBit i || b.testBit i) = false := by
      intro i
      rw [← Nat.testBit_or, h, Nat.zero_testBit]
    constructor <;> apply Nat.zero_of_testBit_eq_false <;> intro i <;>
      have := hb i <;> simp only [Bool.or_eq_false_iff] at this
    · exact this.1
    · exact this.2
  · rintro ⟨rfl, rfl⟩
    rfl

theorem and_or_eq_zero_iff {x a b : Nat} : x &&& (a ||| b) = 0 ↔ x &&& a = 0 ∧ x &&& b = 0 := by
  rw [Nat.and_or_distrib_left, or_eq_zero_iff]

theorem testBit_not32 (m i : Nat) :
    (not32 m).testBit i = (decide (i < 32) && !m.testBit i) := by
  have h : not32 m = 2 ^ 32 - (m % 2 ^ 32 + 1) := by
    unfold not32
    norm_num
    omega
  rw [h, Nat.testBit_two_pow_sub_succ (Nat.mod_lt _ (by decide)), Nat.testBit_mod_two_pow]
  by_cases hi : i < 32 <;> simp [hi]

theorem and_testBit_false {y s : Nat} (h : y &&& s = 0) (i : Nat) :
    (y.testBit i && s.testBit i) = false := by
  rw [← Nat.testBit_and, h, Nat.zero_testBit]

theorem clear_then_set_and (v s f y : Nat) (hy : y &&& s = 0) :
    (((v &&& not32 (s ||| f)) ||| y) % 4294967296) &&& s = 0 := by
  apply Nat.eq_of_testBit_eq
  intro i
  have hyi := and_testBit_false hy i
  rw [Nat.testBit_and, show (4294967296 : Nat) = 2 ^ 32 by norm_num, Nat.testBit_mod_two_pow,
    Nat.testBit_or, Nat.testBit_and, testBit_not32, Nat.testBit_or, Nat.zero_testBit]
  cases hs : s.testBit i
  · simp
  · rw [hs] at hyi
    simp at hyi
    simp [hyi]

theorem shl32_and_eq_zero (x sh s : Nat) (h : s < 2 ^ sh) : shl32 x sh &&& s = 0 := by
  apply Nat.eq_of_testBit_eq
  intro i
  unfold shl32
  rw [Nat.testBit_and, show (4294967296 : Nat) = 2 ^ 32 by norm_num, Nat.testBit_mod_two_pow,
    Nat.testBit_shiftLeft, Nat.zero_testBit]
  by_cases hi : i ≥ sh
  · rw [testBit_false_of_lt_of_le h hi]
    simp
  · simp [hi]

theorem est_set_tils_trace (k : Hdr) (st : Mmio) (tils : Nat) :
    (dwmac5_est_set_tils k st tils).trace =
      st.trace ++ [Event.rd Reg.MTL_EST_CTRL (readl st Reg.MTL_EST_CTRL).1,
        Event.wr Reg.MTL_EST_CTRL
          ((((readl st Reg.MTL_EST_CTRL).1 &&&
              not32 (k.MTL_EST_CTRL_SSWL ||| k.MTL_EST_CTRL_TILS)) |||
            shl32 tils k.MTL_EST_CTRL_TILS_SHIFT) % 4294967296)] := by
  show (st.trace ++ [_]) ++ [_] = _
  rw [List.append_assoc]
  rfl

theorem est_set_ptov_trace (k : Hdr) (st : Mmio) (ptov : Nat) :
    (dwmac5_est_set_ptov k st ptov).trace =
      st.trace ++ [Event.rd Reg.MTL_EST_CTRL (readl st Reg.MTL_EST_CTRL).1,
        Event.wr Reg.MTL_EST_CTRL
          ((((readl st Reg.MTL_EST_CTRL).1 &&&
              not32 (k.MTL_EST_CTRL_SSWL ||| k.MTL_EST_CTRL_PTOV)) |||
            shl32 ptov k.MTL_EST_CTRL_PTOV_SHIFT) % 4294967296)] := by
  show (st.trace ++ [_]) ++ [_] = _
  rw [List.append_assoc]
  rfl

theorem est_set_ctov_trace (k : Hdr) (st : Mmio) (ctov : Nat) :
    (dwmac5_est_set_ctov k st ctov).trace =
      st.trace ++ [Event.rd Reg.MTL_EST_CTRL (readl st Reg.MTL_EST_CTRL).1,
        Event.wr Reg.MTL_EST_CTRL
          ((((readl st Reg.MTL_EST_CTRL).1 &&&
              not32 (k.MTL_EST_CTRL_SSWL ||| k.MTL_EST_CTRL_CTOV)) |||
            shl32 ctov k.MTL_EST_CTRL_CTOV_SHIFT) % 4294967296)] := by
  show (st.trace ++ [_]) ++ [_] = _
  rw [List.append_assoc]
  rfl

theorem est_set_enable_trace (k : Hdr) (st : Mmio) (enable : Bool) :
    (dwmac5_est_set_enable k st enable).2.trace =
      st.trace ++ [Event.rd Reg.MTL_EST_CTRL (readl st Reg.MTL_EST_CTRL).1,
        Event.wr Reg.MTL_EST_CTRL
          ((((readl st Reg.MTL_EST_CTRL).1 &&&
              not32 (k.MTL_EST_CTRL_SSWL ||| k.MTL_EST_CTRL_EEST)) |||
            ((if enable then 1 else 0) &&& k.MTL_EST_CTRL_EEST)) % 4294967296)] := by
  show (st.trace ++ [_]) ++ [_] = _
  rw [List.append_assoc]
  rfl

/-! ## C3: the control setters clear the pending-swap bit -/

/-- C3: when the `SSWL` mask lies below the shift positions of the TILS, PTOV
and CTOV fields and is disjoint from the enable bit, each of `est_set_tils`,
`est_set_ptov`, `est_set_ctov`, `est_set_enable` reads the EST control
register once and writes it once, for every prior register value and every
argument, and the value written has `SSWL` clear. -/
theorem est_ctrl_setters_clear_sswl (k : Hdr) (st : Mmio) (tils ptov ctov : Nat)
    (enable : Bool)
    (hT : k.MTL_EST_CTRL_SSWL < 2 ^ k.MTL_EST_CTRL_TILS_SHIFT)
    (hP : k.MTL_EST_CTRL_SSWL < 2 ^ k.MTL_EST_CTRL_PTOV_SHIFT)
    (hC : k.MTL_EST_CTRL_SSWL < 2 ^ k.MTL_EST_CTRL_CTOV_SHIFT)
    (hE : k.MTL_EST_CTRL_EEST &&& k.MTL_EST_CTRL_SSWL = 0) :
    (∃ w, (dwmac5_est_set_tils k st tils).trace =
        st.trace ++ [Event.rd Reg.MTL_EST_CTRL (readl st Reg.MTL_EST_CTRL).1,
          Event.wr Reg.MTL_EST_CTRL w] ∧ w &&& k.MTL_EST_CTRL_SSWL = 0) ∧
    (∃ w, (dwmac5_est_set_ptov k st ptov).trace =
        st.trace ++ [Event.rd Reg.MTL_EST_CTRL (readl st Reg.MTL_EST_CTRL).1,
          Event.wr Reg.MTL_EST_CTRL w] ∧ w &&& k.MTL_EST_CTRL_SSWL = 0) ∧
    (∃ w, (dwmac5_est_set_ctov k st ctov).trace =
        st.trace ++ [Event.rd Reg.MTL_EST_CTRL (readl st Reg.MTL_EST_CTRL).1,
          Event.wr Reg.MTL_EST_CTRL w] ∧ w &&& k.MTL_EST_CTRL_SSWL = 0) ∧
    (∃ w, (dwmac5_est_set_enable k st enable).2.trace =
        st.trace ++ [Event.rd Reg.MTL_EST_CTRL (readl st Reg.MTL_EST_CTRL).1,
          Event.wr Reg.MTL_EST_CTRL w] ∧ w &&& k.MTL_EST_CTRL_SSWL = 0) := by
  have hen : (if enable then 1 else 0) &&& k.MTL_EST_CTRL_EEST &&& k.MTL_EST_CTRL_SSWL = 0 := by
    rw [Nat.and_assoc, hE]
    exact Nat.and_zero _
  exact ⟨⟨_, est_set_tils_trace k st tils,
      clear_then_set_and _ _ _ _ (shl32_and_eq_zero tils _ _ hT)⟩,
    ⟨_, est_set_ptov_trace k st ptov,
      clear_then_set_and _ _ _ _ (shl32_and_eq_zero ptov _ _ hP)⟩,
    ⟨_, est_set_ctov_trace k st ctov,
      clear_then_set_and _ _ _ _ (shl32_and_eq_zero ctov _ _ hC)⟩,
    ⟨_, est_set_enable_trace k st enable, clear_then_set_and _ _ _ _ hen⟩⟩

/-- Witness for C3: the control register holds `0xffffffff` (pending swap set)
and every argument is `0xffffffff`, out of range for its field. -/
theorem est_ctrl_setters_clear_sswl_witness :
    (∃ w, (dwmac5_est_set_tils hdr510 (const_dev (fun _ => 4294967295) 0) 4294967295).trace =
        [Event.rd Reg.MTL_EST_CTRL 4294967295, Event.wr Reg.MTL_EST_CTRL w] ∧ w &&& 2 = 0) ∧
    (∃ w, (dwmac5_est_set_ptov hdr510 (const_dev (fun _ => 4294967295) 0) 4294967295).trace =
        [Event.rd Reg.MTL_EST_CTRL 4294967295, Event.wr Reg.MTL_EST_CTRL w] ∧ w &&& 2 = 0) ∧
    (∃ w, (dwmac5_est_set_ctov hdr510 (const_dev (fun _ => 4294967295) 0) 4294967295).trace =
        [Event.rd Reg.MTL_EST_CTRL 4294967295, Event.wr Reg.MTL_EST_CTRL w] ∧ w &&& 2 = 0) ∧
    (∃ w, (dwmac5_est_set_enable hdr510 (const_dev (fun _ => 4294967295) 0) true).2.trace =
        [Event.rd Reg.MTL_EST_CTRL 4294967295, Event.wr Reg.MTL_EST_CTRL w] ∧ w &&& 2 = 0) :=
  est_ctrl_setters_clear_sswl hdr510 (const_dev (fun _ => 4294967295) 0)
    4294967295 4294967295 4294967295 true (by decide) (by decide) (by decide) (by decide)

theorem est_irq_status_fast (k : Hdr) (st : Mmio) (mmc_stat : Stat) (txqcnt : Nat)
    (h : (readl st Reg.MTL_EST_STATUS).1 &&&
      (k.MTL_EST_STATUS_CGCE ||| k.MTL_EST_STATUS_HLBS ||| k.MTL_EST_STATUS_HLBF |||
        k.MTL_EST_STATUS_BTRE ||| k.MTL_EST_STATUS_SWLC) = 0) :
    dwmac5_est_irq_status k st mmc_stat txqcnt = (0, mmc_stat, (readl st Reg.MTL_EST_STATUS).2) := by
  unfold dwmac5_est_irq_status
  simp only [h, if_true]

theorem est_irq_status_stat (k : Hdr) (st : Mmio) (mmc_stat : Stat) (txqcnt : Nat)
    (h : (readl st Reg.MTL_EST_STATUS).1 &&&
      (k.MTL_EST_STATUS_CGCE ||| k.MTL_EST_STATUS_HLBS ||| k.MTL_EST_STATUS_HLBF |||
        k.MTL_EST_STATUS_BTRE ||| k.MTL_EST_STATUS_SWLC) ≠ 0) :
    (dwmac5_est_irq_status k st mmc_stat txqcnt).1 = int_of_u32 (readl st Reg.MTL_EST_STATUS).1 ∧
    (dwmac5_est_irq_status k st mmc_stat txqcnt).2.1 =
      (fun c : Stat =>
        if (readl st Reg.MTL_EST_STATUS).1 &&& k.MTL_EST_STATUS_BTRE ≠ 0 then
          (if (readl st Reg.MTL_EST_STATUS).1 &&& k.MTL_EST_STATUS_BTRL =
              k.MTL_EST_STATUS_BTRL_MAX then
            stat_inc k c EST_MMC_BTRLM else stat_inc k c EST_MMC_BTRE)
        else c)
      ((fun c : Stat =>
        if (readl st Reg.MTL_EST_STATUS).1 &&& k.MTL_EST_STATUS_HLBF ≠ 0 then
          stat_inc k c EST_MMC_HLBF else c)
      ((fun c : Stat =>
        if (readl st Reg.MTL_EST_STATUS).1 &&& k.MTL_EST_STATUS_HLBS ≠ 0 then
          stat_inc k c EST_MMC_HLBS else c)
      (if (readl st Reg.MTL_EST_STATUS).1 &&& k.MTL_EST_STATUS_CGCE ≠ 0 then
          stat_inc k mmc_stat EST_MMC_CGCE else mmc_stat))) := by
  unfold dwmac5_est_irq_status
  simp only [h, if_false]
  refine ⟨trivial, ?_⟩
  by_cases h1 : (readl st Reg.MTL_EST_STATUS).1 &&& k.MTL_EST_STATUS_CGCE = 0 <;>
  by_cases h2 : (readl st Reg.MTL_EST_STATUS).1 &&& k.MTL_EST_STATUS_HLBS = 0 <;>
  by_cases h3 : (readl st Reg.MTL_EST_STATUS).1 &&& k.MTL_EST_STATUS_HLBF = 0 <;>
  by_cases h4 : (readl st Reg.MTL_EST_STATUS).1 &&& k.MTL_EST_STATUS_BTRE = 0 <;>
  simp only [h1, h2, h3, h4, ne_eq, not_true_eq_false, not_false_eq_true, if_true, if_false]

theorem est_status_any_of_bit (k : Hdr) (status : Nat)
    (h : status &&& k.MTL_EST_STATUS_CGCE ≠ 0 ∨ status &&& k.MTL_EST_STATUS_HLBS ≠ 0 ∨
      status &&& k.MTL_EST_STATUS_HLBF ≠ 0 ∨ status &&& k.MTL_EST_STATUS_BTRE ≠ 0 ∨
      status &&& k.MTL_EST_STATUS_SWLC ≠ 0) :
    status &&& (k.MTL_EST_STATUS_CGCE ||| k.MTL_EST_STATUS_HLBS ||| k.MTL_EST_STATUS_HLBF |||
      k.MTL_EST_STATUS_BTRE ||| k.MTL_EST_STATUS_SWLC) ≠ 0 := by
  intro h0
  simp only [and_or_eq_zero_iff] at h0
  obtain ⟨⟨⟨⟨a, b⟩, c⟩, d⟩, e⟩ := h0
  rcases h with h | h | h | h | h
  · exact h a
  · exact h b
  · exact h c
  · exact h d
  · exact h e

/-! ## C4: the fast path of the EST status decode -/

/-- C4: when none of the CGCE, HLBS, HLBF, BTRE, SWLC bits is set in the value
read from the status register, `est_irq_status` returns 0, leaves all 16
counters unchanged, and its only register access is that one read of the
status register (no write, no other read, no log line). -/
theorem est_irq_status_fast_path (k : Hdr) (st : Mmio) (mmc_stat : Stat) (txqcnt : Nat)
    (hcgce : (readl st Reg.MTL_EST_STATUS).1 &&& k.MTL_EST_STATUS_CGCE = 0)
    (hhlbs : (readl st Reg.MTL_EST_STATUS).1 &&& k.MTL_EST_STATUS_HLBS = 0)
    (hhlbf : (readl st Reg.MTL_EST_STATUS).1 &&& k.MTL_EST_STATUS_HLBF = 0)
    (hbtre : (readl st Reg.MTL_EST_STATUS).1 &&& k.MTL_EST_STATUS_BTRE = 0)
    (hswlc : (readl st Reg.MTL_EST_STATUS).1 &&& k.MTL_EST_STATUS_SWLC = 0) :
    (dwmac5_est_irq_status k st mmc_stat txqcnt).1 = 0 ∧
    (dwmac5_est_irq_status k st mmc_stat txqcnt).2.1 = mmc_stat ∧
    (dwmac5_est_irq_status k st mmc_stat txqcnt).2.2.trace =
      st.trace ++ [Event.rd Reg.MTL_EST_STATUS (readl st Reg.MTL_EST_STATUS).1] := by
  have h : (readl st Reg.MTL_EST_STATUS).1 &&&
      (k.MTL_EST_STATUS_CGCE ||| k.MTL_EST_STATUS_HLBS ||| k.MTL_EST_STATUS_HLBF |||
        k.MTL_EST_STATUS_BTRE ||| k.MTL_EST_STATUS_SWLC) = 0 := by
    simp only [and_or_eq_zero_iff]
    exact ⟨⟨⟨⟨hcgce, hhlbs⟩, hhlbf⟩, hbtre⟩, hswlc⟩
  rw [est_irq_status_fast k st mmc_stat txqcnt h]
  exact ⟨rfl, rfl, rfl⟩

/-- Witness for C4: status `0xf80` (SWOL set, loop count 15, no event bit). -/
theorem est_irq_status_fast_path_witness :
    (dwmac5_est_irq_status hdr510 (const_dev (fun _ => 3968) 0) (fun _ => 7) 4).1 = 0 ∧
    (dwmac5_est_irq_status hdr510 (const_dev (fun _ => 3968) 0) (fun _ => 7) 4).2.1
      = (fun _ => 7) ∧
    (dwmac5_est_irq_status hdr510 (const_dev (fun _ => 3968) 0) (fun _ => 7) 4).2.2.trace =
      [Event.rd Reg.MTL_EST_STATUS 3968] :=
  est_irq_status_fast_path hdr510 (const_dev (fun _ => 3968) 0) (fun _ => 7) 4
    (by decide) (by decide) (by decide) (by decide) (by decide)

/-! ## C5: BTRE classification -/

/-- C5: with the BTRE bit set in the status (and `BTRL_MAX` the all-ones value
of the BTRL field), `est_irq_status` increments exactly one of the counters
BTRLM and BTRE by one (in the counter's unsigned arithmetic) and leaves the
other unchanged: BTRLM when the loop-count field is all ones, BTRE otherwise. -/
theorem est_irq_status_btre_classification (k : Hdr) (st : Mmio) (mmc_stat : Stat)
    (txqcnt : Nat)
    (hbtre : (readl st Reg.MTL_EST_STATUS).1 &&& k.MTL_EST_STATUS_BTRE ≠ 0)
    (hmax : k.MTL_EST_STATUS_BTRL_MAX = k.MTL_EST_STATUS_BTRL) :
    ((readl st Reg.MTL_EST_STATUS).1 &&& k.MTL_EST_STATUS_BTRL = k.MTL_EST_STATUS_BTRL →
      (dwmac5_est_irq_status k st mmc_stat txqcnt).2.1 EST_MMC_BTRLM =
        (mmc_stat EST_MMC_BTRLM + 1) % 2 ^ k.MMC_STAT_BITS ∧
      (dwmac5_est_irq_status k st mmc_stat txqcnt).2.1 EST_MMC_BTRE = mmc_stat EST_MMC_BTRE) ∧
    ((readl st Reg.MTL_EST_STATUS).1 &&& k.MTL_EST_STATUS_BTRL ≠ k.MTL_EST_STATUS_BTRL →
      (dwmac5_est_irq_status k st mmc_stat txqcnt).2.1 EST_MMC_BTRE =
        (mmc_stat EST_MMC_BTRE + 1) % 2 ^ k.MMC_STAT_BITS ∧
      (dwmac5_est_irq_status k st mmc_stat txqcnt).2.1 EST_MMC_BTRLM =
        mmc_stat EST_MMC_BTRLM) := by
  have hany := est_status_any_of_bit k _ (Or.inr (Or.inr (Or.inr (Or.inl hbtre))))
  rw [(est_irq_status_stat k st mmc_stat txqcnt hany).2, hmax]
  constructor
  · intro hl
    simp only [hbtre, hl, ne_eq, not_false_eq_true, if_true]
    constructor <;> split_ifs <;>
      simp [stat_inc, Function.update_apply, EST_MMC_BTRE, EST_MMC_BTRLM, EST_MMC_HLBF,
        EST_MMC_HLBS, EST_MMC_CGCE]
  · intro hl
    simp only [hbtre, hl, ne_eq, not_false_eq_true, if_true, if_false]
    constructor <;> split_ifs <;>
      simp [stat_inc, Function.update_apply, EST_MMC_BTRE, EST_MMC_BTRLM, EST_MMC_HLBF,
        EST_MMC_HLBS, EST_MMC_CGCE]

/-- Witness for C5: loop count 15 (status `0xf02`) bumps BTRLM only; loop
count 3 (status `0x302`) bumps BTRE only. -/
theorem est_irq_status_btre_classification_witness :
    ((dwmac5_est_irq_status hdr510 (const_dev (fun _ => 3842) 0) (fun _ => 7) 4).2.1
        EST_MMC_BTRLM = 8 ∧
      (dwmac5_est_irq_status hdr510 (const_dev (fun _ => 3842) 0) (fun _ => 7) 4).2.1
        EST_MMC_BTRE = 7) ∧
    ((dwmac5_est_irq_status hdr510 (const_dev (fun _ => 770) 0) (fun _ => 7) 4).2.1
        EST_MMC_BTRE = 8 ∧
      (dwmac5_est_irq_status hdr510 (const_dev (fun _ => 770) 0) (fun _ => 7) 4).2.1
        EST_MMC_BTRLM = 7) :=
  ⟨(est_irq_status_btre_classification hdr510 (const_dev (fun _ => 3842) 0) (fun _ => 7) 4
      (by decide) rfl).1 (by decide),
   (est_irq_status_btre_classification hdr510 (const_dev (fun _ => 770) 0) (fun _ => 7) 4
      (by decide) rfl).2 (by decide)⟩

theorem est_irq_status_stat_values (k : Hdr) (st : Mmio) (mmc_stat : Stat) (txqcnt : Nat)
    (hany : (readl st Reg.MTL_EST_STATUS).1 &&&
      (k.MTL_EST_STATUS_CGCE ||| k.MTL_EST_STATUS_HLBS ||| k.MTL_EST_STATUS_HLBF |||
        k.MTL_EST_STATUS_BTRE ||| k.MTL_EST_STATUS_SWLC) ≠ 0) :
    (dwmac5_est_irq_status k st mmc_stat txqcnt).2.1 EST_MMC_CGCE =
      (if (readl st Reg.MTL_EST_STATUS).1 &&& k.MTL_EST_STATUS_CGCE ≠ 0
        then (mmc_stat EST_MMC_CGCE + 1) % 2 ^ k.MMC_STAT_BITS else mmc_stat EST_MMC_CGCE) ∧
    (dwmac5_est_irq_status k st mmc_stat txqcnt).2.1 EST_MMC_HLBS =
      (if (readl st Reg.MTL_EST_STATUS).1 &&& k.MTL_EST_STATUS_HLBS ≠ 0
        then (mmc_stat EST_MMC_HLBS + 1) % 2 ^ k.MMC_STAT_BITS else mmc_stat EST_MMC_HLBS) ∧
    (dwmac5_est_irq_status k st mmc_stat txqcnt).2.1 EST_MMC_HLBF =
      (if (readl st Reg.MTL_EST_STATUS).1 &&& k.MTL_EST_STATUS_HLBF ≠ 0
        then (mmc_stat EST_MMC_HLBF + 1) % 2 ^ k.MMC_STAT_BITS else mmc_stat EST_MMC_HLBF) ∧
    (if (readl st Reg.MTL_EST_STATUS).1 &&& k.MTL_EST_STATUS_BTRE ≠ 0 then
      ((dwmac5_est_irq_status k st mmc_stat txqcnt).2.1 EST_MMC_BTRE =
          (mmc_stat EST_MMC_BTRE + 1) % 2 ^ k.MMC_STAT_BITS ∧
        (dwmac5_est_irq_status k st mmc_stat txqcnt).2.1 EST_MMC_BTRLM =
          mmc_stat EST_MMC_BTRLM) ∨
      ((dwmac5_est_irq_status k st mmc_stat txqcnt).2.1 EST_MMC_BTRLM =
          (mmc_stat EST_MMC_BTRLM + 1) % 2 ^ k.MMC_STAT_BITS ∧
        (dwmac5_est_irq_status k st mmc_stat txqcnt).2.1 EST_MMC_BTRE =
          mmc_stat EST_MMC_BTRE)
     else
      (dwmac5_est_irq_status k st mmc_stat txqcnt).2.1 EST_MMC_BTRE = mmc_stat EST_MMC_BTRE ∧
      (dwmac5_est_irq_status k st mmc_stat txqcnt).2.1 EST_MMC_BTRLM =
        mmc_stat EST_MMC_BTRLM) ∧
    (∀ i : Fin 16, 5 ≤ i.val →
      (dwmac5_est_irq_status k st mmc_stat txqcnt).2.1 i = mmc_stat i) := by
  rw [(est_irq_status_stat k st mmc_stat txqcnt hany).2]
  refine ⟨?_, ?_, ?_, ?_, ?_⟩
  · split_ifs <;>
      simp [stat_inc, Function.update_apply, EST_MMC_BTRE, EST_MMC_BTRLM, EST_MMC_HLBF,
        EST_MMC_HLBS, EST_MMC_CGCE]
  · split_ifs <;>
      simp [stat_inc, Function.update_apply, EST_MMC_BTRE, EST_MMC_BTRLM, EST_MMC_HLBF,
        EST_MMC_HLBS, EST_MMC_CGCE]
  · split_ifs <;>
      simp [stat_inc, Function.update_apply, EST_MMC_BTRE, EST_MMC_BTRLM, EST_MMC_HLBF,
        EST_MMC_HLBS, EST_MMC_CGCE]
  · split_ifs <;>
      simp [stat_inc, Function.update_apply, EST_MMC_BTRE, EST_MMC_BTRLM, EST_MMC_HLBF,
        EST_MMC_HLBS, EST_MMC_CGCE]
  · intro i hi
    have h0 : i ≠ 0 := by intro e; rw [e] at hi; exact absurd hi (by decide)
    have h1 : i ≠ 1 := by intro e; rw [e] at hi; exact absurd hi (by decide)
    have h2 : i ≠ 2 := by intro e; rw [e] at hi; exact absurd hi (by decide)
    have h3 : i ≠ 3 := by intro e; rw [e] at hi; exact absurd hi (by decide)
    have h4 : i ≠ 4 := by intro e; rw [e] at hi; exact absurd hi (by decide)
    split_ifs <;>
      simp [stat_inc, Function.update_apply, EST_MMC_BTRE, EST_MMC_BTRLM, EST_MMC_HLBF,
        EST_MMC_HLBS, EST_MMC_CGCE, h0, h1, h2, h3, h4]

/-! ## C6: every event is counted exactly once -/

/-- C6: when at least one of CGCE, HLBS, HLBF, BTRE, SWLC is set in the status,
then for every prior counter vector and every rate limiter `est_irq_status`
returns the raw status (converted to `int`) and changes the counters by
exactly: CGCE, HLBS, HLBF incremented by one iff their bit is set; one of
BTRE and BTRLM incremented by one iff the BTRE bit is set; counters 5..15
unchanged. The increment is the counter's unsigned increment. SWLC and the
rate limiter do not enter any counter. -/
theorem est_irq_status_counts_once (k : Hdr) (st : Mmio) (mmc_stat : Stat) (txqcnt : Nat)
    (hany : (readl st Reg.MTL_EST_STATUS).1 &&& k.MTL_EST_STATUS_CGCE ≠ 0 ∨
      (readl st Reg.MTL_EST_STATUS).1 &&& k.MTL_EST_STATUS_HLBS ≠ 0 ∨
      (readl st Reg.MTL_EST_STATUS).1 &&& k.MTL_EST_STATUS_HLBF ≠ 0 ∨
      (readl st Reg.MTL_EST_STATUS).1 &&& k.MTL_EST_STATUS_BTRE ≠ 0 ∨
      (readl st Reg.MTL_EST_STATUS).1 &&& k.MTL_EST_STATUS_SWLC ≠ 0) :
    (dwmac5_est_irq_status k st mmc_stat txqcnt).1 =
      int_of_u32 (readl st Reg.MTL_EST_STATUS).1 ∧
    (dwmac5_est_irq_status k st mmc_stat txqcnt).2.1 EST_MMC_CGCE =
      (if (readl st Reg.MTL_EST_STATUS).1 &&& k.MTL_EST_STATUS_CGCE ≠ 0
        then (mmc_stat EST_MMC_CGCE + 1) % 2 ^ k.MMC_STAT_BITS else mmc_stat EST_MMC_CGCE) ∧
    (dwmac5_est_irq_status k st mmc_stat txqcnt).2.1 EST_MMC_HLBS =
      (if (readl st Reg.MTL_EST_STATUS).1 &&& k.MTL_EST_STATUS_HLBS ≠ 0
        then (mmc_stat EST_MMC_HLBS + 1) % 2 ^ k.MMC_STAT_BITS else mmc_stat EST_MMC_HLBS) ∧
    (dwmac5_est_irq_status k st mmc_stat txqcnt).2.1 EST_MMC_HLBF =
      (if (readl st Reg.MTL_EST_STATUS).1 &&& k.MTL_EST_STATUS_HLBF ≠ 0
        then (mmc_stat EST_MMC_HLBF + 1) % 2 ^ k.MMC_STAT_BITS else mmc_stat EST_MMC_HLBF) ∧
    (if (readl st Reg.MTL_EST_STATUS).1 &&& k.MTL_EST_STATUS_BTRE ≠ 0 then
      ((dwmac5_est_irq_status k st mmc_stat txqcnt).2.1 EST_MMC_BTRE =
          (mmc_stat EST_MMC_BTRE + 1) % 2 ^ k.MMC_STAT_BITS ∧
        (dwmac5_est_irq_status k st mmc_stat txqcnt).2.1 EST_MMC_BTRLM =
          mmc_stat EST_MMC_BTRLM) ∨
      ((dwmac5_est_irq_status k st mmc_stat txqcnt).2.1 EST_MMC_BTRLM =
          (mmc_stat EST_MMC_BTRLM + 1) % 2 ^ k.MMC_STAT_BITS ∧
        (dwmac5_est_irq_status k st mmc_stat txqcnt).2.1 EST_MMC_BTRE =
          mmc_stat EST_MMC_BTRE)
     else
      (dwmac5_est_irq_status k st mmc_stat txqcnt).2.1 EST_MMC_BTRE = mmc_stat EST_MMC_BTRE ∧
      (dwmac5_est_irq_status k st mmc_stat txqcnt).2.1 EST_MMC_BTRLM =
        mmc_stat EST_MMC_BTRLM) ∧
    (∀ i : Fin 16, 5 ≤ i.val →
      (dwmac5_est_irq_status k st mmc_stat txqcnt).2.1 i = mmc_stat i) := by
  exact ⟨(est_irq_status_stat k st mmc_stat txqcnt (est_status_any_of_bit k _ hany)).1,
    est_irq_status_stat_values k st mmc_stat txqcnt (est_status_any_of_bit k _ hany)⟩

/-- Witness for C6: status `0x1f` (all five event bits, loop count 0) with the
rate limiter permitting: CGCE, HLBS, HLBF and BTRE each go from 7 to 8, BTRLM
and counter 5 stay at 7, and the raw status 31 is returned. -/
theorem est_irq_status_counts_once_witness :
    (dwmac5_est_irq_status hdr510 (const_dev (fun _ => 31) 0) (fun _ => 7) 4).1 = 31 ∧
    (dwmac5_est_irq_status hdr510 (const_dev (fun _ => 31) 0) (fun _ => 7) 4).2.1
      EST_MMC_CGCE = 8 ∧
    (dwmac5_est_irq_status hdr510 (const_dev (fun _ => 31) 0) (fun _ => 7) 4).2.1
      EST_MMC_BTRLM = 7 ∧
    (dwmac5_est_irq_status hdr510 (const_dev (fun _ => 31) 0) (fun _ => 7) 4).2.1 5 = 7 :=
  ⟨(est_irq_status_counts_once hdr510 (const_dev (fun _ => 31) 0) (fun _ => 7) 4
      (Or.inl (by decide))).1,
   (est_irq_status_counts_once hdr510 (const_dev (fun _ => 31) 0) (fun _ => 7) 4
      (Or.inl (by decide))).2.1,
   by decide,
   (est_irq_status_counts_once hdr510 (const_dev (fun _ => 31) 0) (fun _ => 7) 4
      (Or.inl (by decide))).2.2.2.2.2 5 (by decide)⟩

theorem est_set_gcl_addr_ret (k : Hdr) (st : Mmio) (addr : Nat) (is_gcrr : Bool)
    (rwops dep dbgb : Nat) (is_dbgm : Bool) :
    (est_set_gcl_addr k st addr is_gcrr rwops dep dbgb is_dbgm).1 = 0 ∨
    (est_set_gcl_addr k st addr is_gcrr rwops dep dbgb is_dbgm).1 = -ETIMEDOUT := by
  unfold est_set_gcl_addr readl_poll_timeout
  exact poll_loop_ret _ _ _ _

theorem poll_after_write_trace (st : Mmio) (r : Reg) (v : Nat) (cond : Nat → Bool) :
    ∃ polls, (readl_poll_timeout (writel v r st) r cond).2.2.trace =
        st.trace ++ Event.wr r (v % 4294967296) :: polls ∧
      ∀ e ∈ polls, ∃ x, e = Event.rd r x := by
  unfold readl_poll_timeout
  obtain ⟨l, hl, -, hr⟩ := poll_loop_trace r cond
    ((writel v r st).poll_retries (writel v r st).trace) (writel v r st)
  refine ⟨l, ?_, hr⟩
  rw [hl, writel_trace, List.append_assoc, List.singleton_append]

theorem est_set_gcl_addr_trace (k : Hdr) (st : Mmio) (addr : Nat) (is_gcrr : Bool)
    (rwops dep dbgb : Nat) (is_dbgm : Bool) :
    ∃ ctrl polls, (est_set_gcl_addr k st addr is_gcrr rwops dep dbgb is_dbgm).2.trace =
        st.trace ++ Event.wr Reg.MTL_EST_GCL_CTRL ctrl :: polls ∧
      ∀ e ∈ polls, ∃ v, e = Event.rd Reg.MTL_EST_GCL_CTRL v :=
  ⟨_, poll_after_write_trace st Reg.MTL_EST_GCL_CTRL _ _⟩

theorem ETIMEDOUT_ne_zero : -ETIMEDOUT ≠ 0 := by decide

/-! ## C7: a GCL read timeout is propagated -/

/-- C7: the address phase of a GCL read (depth query, one GCL-CTRL write, the
SRWO poll) ends with 0 or with `-ETIMEDOUT`. When it times out,
`est_read_gcl_config` returns `-ETIMEDOUT`, leaves `*data` unchanged, and its
register accesses are the capability read, exactly one GCL-CTRL write and
polls of GCL-CTRL only (no retry, no DATA read); `est_read_gce` then returns
`-ETIMEDOUT` too and leaves `*gates` and `*ti_nsec` unchanged. When it
succeeds, `est_read_gcl_config` returns 0 and `*data` is the value then read
from the DATA register. -/
theorem est_read_gcl_timeout_propagates (k : Hdr) (st : Mmio) (data addr : Nat)
    (is_gcrr : Bool) (dbgb : Nat) (is_dbgm : Bool)
    (gates ti_nsec ti_wid txqcnt value : Nat) :
    ((read_addr_phase k st addr is_gcrr dbgb is_dbgm).1 ≠ 0 →
      (dwmac5_est_read_gcl_config k st data addr is_gcrr dbgb is_dbgm).1 = -ETIMEDOUT ∧
      (dwmac5_est_read_gcl_config k st data addr is_gcrr dbgb is_dbgm).1 ≠ 0 ∧
      (dwmac5_est_read_gcl_config k st data addr is_gcrr dbgb is_dbgm).2.1 = data ∧
      ∃ ctrl polls,
        (dwmac5_est_read_gcl_config k st data addr is_gcrr dbgb is_dbgm).2.2.trace =
          st.trace ++ Event.rd Reg.GMAC_HW_FEATURE3 (readl st Reg.GMAC_HW_FEATURE3).1 ::
            Event.wr Reg.MTL_EST_GCL_CTRL ctrl :: polls ∧
        ∀ e ∈ polls, ∃ v, e = Event.rd Reg.MTL_EST_GCL_CTRL v) ∧
    ((read_addr_phase k st addr false dbgb is_dbgm).1 ≠ 0 →
      (dwmac5_est_read_gce k st addr gates ti_nsec ti_wid txqcnt dbgb is_dbgm value).1
        = -ETIMEDOUT ∧
      (dwmac5_est_read_gce k st addr gates ti_nsec ti_wid txqcnt dbgb is_dbgm value).2.1
        = gates ∧
      (dwmac5_est_read_gce k st addr gates ti_nsec ti_wid txqcnt dbgb is_dbgm value).2.2.1
        = ti_nsec) ∧
    ((read_addr_phase k st addr is_gcrr dbgb is_dbgm).1 = 0 →
      (dwmac5_est_read_gcl_config k st data addr is_gcrr dbgb is_dbgm).1 = 0 ∧
      (dwmac5_est_read_gcl_config k st data addr is_gcrr dbgb is_dbgm).2.1 =
        (readl (read_addr_phase k st addr is_gcrr dbgb is_dbgm).2 Reg.MTL_EST_GCL_DATA).1 ∧
      (dwmac5_est_read_gcl_config k st data addr is_gcrr dbgb is_dbgm).2.2.trace =
        (read_addr_phase k st addr is_gcrr dbgb is_dbgm).2.trace ++
          [Event.rd Reg.MTL_EST_GCL_DATA
            (dwmac5_est_read_gcl_config k st data addr is_gcrr dbgb is_dbgm).2.1]) := by
  refine ⟨?_, ?_, ?_⟩
  · intro h
    have hr : (read_addr_phase k st addr is_gcrr dbgb is_dbgm).1 = -ETIMEDOUT := by
      rcases est_set_gcl_addr_ret k (dwmac5_est_get_gcl_depth k st).2 addr is_gcrr k.GCL_OPS_R
        (ilog2 (dwmac5_est_get_gcl_depth k st).1) dbgb is_dbgm with h0 | h1
      · exact absurd h0 h
      · exact h1
    rw [est_read_gcl_config_eq, if_pos h]
    refine ⟨hr, ?_, rfl, ?_⟩
    · rw [hr]; exact ETIMEDOUT_ne_zero
    · obtain ⟨ctrl, polls, ht, hp⟩ := est_set_gcl_addr_trace k (dwmac5_est_get_gcl_depth k st).2
        addr is_gcrr k.GCL_OPS_R (ilog2 (dwmac5_est_get_gcl_depth k st).1) dbgb is_dbgm
      refine ⟨ctrl, polls, ?_, hp⟩
      show (read_addr_phase k st addr is_gcrr dbgb is_dbgm).2.trace = _
      unfold read_addr_phase
      rw [ht]
      show (st.trace ++ [_]) ++ _ = _
      rw [List.append_assoc]
      rfl
  · intro h
    have hr : (read_addr_phase k st addr false dbgb is_dbgm).1 = -ETIMEDOUT := by
      rcases est_set_gcl_addr_ret k (dwmac5_est_get_gcl_depth k st).2 addr false k.GCL_OPS_R
        (ilog2 (dwmac5_est_get_gcl_depth k st).1) dbgb is_dbgm with h0 | h1
      · exact absurd h0 h
      · exact h1
    rw [est_read_gce_eq, est_read_gcl_config_eq, if_pos h, if_pos h]
    exact ⟨hr, rfl, rfl⟩
  · intro h
    rw [est_read_gcl_config_eq, if_neg (not_not.mpr h)]
    exact ⟨h, rfl, rfl⟩

/-- Witness for C7: a device that keeps SRWO set for 30 polls against a budget
of 12 re-reads (timeout: the prior contents 77, 7, 9 survive), and one that
acknowledges after 3 polls (the DATA value 10486760 is returned). -/
theorem est_read_gcl_timeout_propagates_witness :
    ((dwmac5_est_read_gcl_config hdr510 (gcl_dev (3 <<< 17) 10486760 30 12) 77 5 false 0
        false).1 = -ETIMEDOUT ∧
      (dwmac5_est_read_gcl_config hdr510 (gcl_dev (3 <<< 17) 10486760 30 12) 77 5 false 0
        false).2.1 = 77) ∧
    ((dwmac5_est_read_gce hdr510 (gcl_dev (3 <<< 17) 10486760 30 12) 5 7 9 20 4 0 false
        0).1 = -ETIMEDOUT ∧
      (dwmac5_est_read_gce hdr510 (gcl_dev (3 <<< 17) 10486760 30 12) 5 7 9 20 4 0 false
        0).2.1 = 7 ∧
      (dwmac5_est_read_gce hdr510 (gcl_dev (3 <<< 17) 10486760 30 12) 5 7 9 20 4 0 false
        0).2.2.1 = 9) ∧
    ((dwmac5_est_read_gcl_config hdr510 (gcl_dev (3 <<< 17) 10486760 3 12) 77 5 false 0
        false).1 = 0 ∧
      (dwmac5_est_read_gcl_config hdr510 (gcl_dev (3 <<< 17) 10486760 3 12) 77 5 false 0
        false).2.1 = 10486760) :=
  ⟨⟨((est_read_gcl_timeout_propagates hdr510 (gcl_dev (3 <<< 17) 10486760 30 12) 77 5 false 0
        false 7 9 20 4 0).1 (by decide)).1,
     ((est_read_gcl_timeout_propagates hdr510 (gcl_dev (3 <<< 17) 10486760 30 12) 77 5 false 0
        false 7 9 20 4 0).1 (by decide)).2.2.1⟩,
   (est_read_gcl_timeout_propagates hdr510 (gcl_dev (3 <<< 17) 10486760 30 12) 77 5 false 0
      false 7 9 20 4 0).2.1 (by decide),
   ⟨((est_read_gcl_timeout_propagates hdr510 (gcl_dev (3 <<< 17) 10486760 3 12) 77 5 false 0
        false 7 9 20 4 0).2.2 (by decide)).1,
    by decide⟩⟩

theorem field3_eq (cap sh : Nat) : (cap &&& (7 <<< sh)) >>> sh = (cap >>> sh) % 8 := by
  apply Nat.eq_of_testBit_eq
  intro i
  rw [Nat.testBit_shiftRight, Nat.testBit_and, Nat.testBit_shiftLeft,
    show (8 : Nat) = 2 ^ 3 by norm_num, Nat.testBit_mod_two_pow, Nat.testBit_shiftRight,
    Nat.add_sub_cancel_left, show (7 : Nat) = 2 ^ 3 - 1 by norm_num,
    Nat.testBit_two_pow_sub_one]
  by_cases hi : i < 3 <;> simp [hi]

/-! ## C8: the depth decode is total -/

/-- C8: with `ESTDEP` the 3-bit field at `ESTDEP_SHIFT`, `est_get_gcl_depth`
only reads the capability register and, for every value of it, returns 64,
128, 256, 512, 1024 for field values 1..5 and 0 for field values 0, 6, 7;
two register values with the same field give the same depth. -/
theorem est_get_gcl_depth_total (k : Hdr) (st st2 : Mmio)
    (hmask : k.GMAC_HW_FEAT_ESTDEP = 7 <<< k.GMAC_HW_FEAT_ESTDEP_SHIFT) :
    (dwmac5_est_get_gcl_depth k st).2 = (readl st Reg.GMAC_HW_FEATURE3).2 ∧
    (((readl st Reg.GMAC_HW_FEATURE3).1 >>> k.GMAC_HW_FEAT_ESTDEP_SHIFT) % 8 = 1 →
      (dwmac5_est_get_gcl_depth k st).1 = 64) ∧
    (((readl st Reg.GMAC_HW_FEATURE3).1 >>> k.GMAC_HW_FEAT_ESTDEP_SHIFT) % 8 = 2 →
      (dwmac5_est_get_gcl_depth k st).1 = 128) ∧
    (((readl st Reg.GMAC_HW_FEATURE3).1 >>> k.GMAC_HW_FEAT_ESTDEP_SHIFT) % 8 = 3 →
      (dwmac5_est_get_gcl_depth k st).1 = 256) ∧
    (((readl st Reg.GMAC_HW_FEATURE3).1 >>> k.GMAC_HW_FEAT_ESTDEP_SHIFT) % 8 = 4 →
      (dwmac5_est_get_gcl_depth k st).1 = 512) ∧
    (((readl st Reg.GMAC_HW_FEATURE3).1 >>> k.GMAC_HW_FEAT_ESTDEP_SHIFT) % 8 = 5 →
      (dwmac5_est_get_gcl_depth k st).1 = 1024) ∧
    (((readl st Reg.GMAC_HW_FEATURE3).1 >>> k.GMAC_HW_FEAT_ESTDEP_SHIFT) % 8 = 0 ∨
     ((readl st Reg.GMAC_HW_FEATURE3).1 >>> k.GMAC_HW_FEAT_ESTDEP_SHIFT) % 8 = 6 ∨
     ((readl st Reg.GMAC_HW_FEATURE3).1 >>> k.GMAC_HW_FEAT_ESTDEP_SHIFT) % 8 = 7 →
      (dwmac5_est_get_gcl_depth k st).1 = 0) ∧
    (((readl st Reg.GMAC_HW_FEATURE3).1 >>> k.GMAC_HW_FEAT_ESTDEP_SHIFT) % 8 =
      ((readl st2 Reg.GMAC_HW_FEATURE3).1 >>> k.GMAC_HW_FEAT_ESTDEP_SHIFT) % 8 →
      (dwmac5_est_get_gcl_depth k st).1 = (dwmac5_est_get_gcl_depth k st2).1) := by
  have hd : ∀ s : Mmio, (dwmac5_est_get_gcl_depth k s).1 =
      if ((readl s Reg.GMAC_HW_FEATURE3).1 >>> k.GMAC_HW_FEAT_ESTDEP_SHIFT) % 8 = 1 then 64
      else if ((readl s Reg.GMAC_HW_FEATURE3).1 >>> k.GMAC_HW_FEAT_ESTDEP_SHIFT) % 8 = 2 then 128
      else if ((readl s Reg.GMAC_HW_FEATURE3).1 >>> k.GMAC_HW_FEAT_ESTDEP_SHIFT) % 8 = 3 then 256
      else if ((readl s Reg.GMAC_HW_FEATURE3).1 >>> k.GMAC_HW_FEAT_ESTDEP_SHIFT) % 8 = 4 then 512
      else if ((readl s Reg.GMAC_HW_FEATURE3).1 >>> k.GMAC_HW_FEAT_ESTDEP_SHIFT) % 8 = 5 then 1024
      else 0 := by
    intro s
    rw [← field3_eq, ← hmask]
    rfl
  refine ⟨rfl, ?_, ?_, ?_, ?_, ?_, ?_, ?_⟩
  · intro h; rw [hd, h]; rfl
  · intro h; rw [hd, h]; rfl
  · intro h; rw [hd, h]; rfl
  · intro h; rw [hd, h]; rfl
  · intro h; rw [hd, h]; rfl
  · intro h
    rw [hd]
    rcases h with h | h | h <;> rw [h] <;> rfl
  · intro h
    rw [hd, hd, h]

/-- Witness for C8: capability value `0xffffffff` with the field forced to 3
(`0xfff7ffff`) decodes to 256, and so does the bare field value `3 << 17`. -/
theorem est_get_gcl_depth_total_witness :
    (dwmac5_est_get_gcl_depth hdr510 (const_dev (fun _ => 4294443007) 0)).1 = 256 ∧
    (dwmac5_est_get_gcl_depth hdr510 (const_dev (fun _ => 4294443007) 0)).1 =
      (dwmac5_est_get_gcl_depth hdr510 (const_dev (fun _ => 393216) 0)).1 :=
  ⟨(est_get_gcl_depth_total hdr510 (const_dev (fun _ => 4294443007) 0)
      (const_dev (fun _ => 393216) 0) (by decide)).2.2.2.1 (by decide),
   (est_get_gcl_depth_total hdr510 (const_dev (fun _ => 4294443007) 0)
      (const_dev (fun _ => 393216) 0) (by decide)).2.2.2.2.2.2.2 (by decide)⟩

theorem and_default_ne_zero {x d m : Nat} (hm : m ≠ 0) (hd : d &&& m = m) (hx : x &&& m = m) :
    x &&& d ≠ 0 := by
  intro h0
  apply hm
  rw [← hx, ← hd, ← Nat.and_assoc, h0, Nat.zero_and]

@[simp] theorem netdev_log_trace (m : Msg) (st : Mmio) :
    (netdev_log m st).trace = st.trace ++ [Event.msg m] := rfl

@[simp] theorem netdev_log_dev (m : Msg) (st : Mmio) : (netdev_log m st).dev = st.dev := rfl

theorem reads_read_log_step (c : Prop) [Decidable c] (st : Mmio) (r : Reg) (m : Msg) :
    reads (if c then netdev_log m (readl st r).2 else st).trace =
      reads st.trace ++ (if c then [r] else []) := by
  split_ifs <;> simp [reads]

theorem writes_read_log_step (c : Prop) [Decidable c] (st : Mmio) (r : Reg) (m : Msg) :
    writes (if c then netdev_log m (readl st r).2 else st).trace = writes st.trace := by
  split_ifs <;> simp [writes]

theorem reads_readl (st : Mmio) (r : Reg) : reads (readl st r).2.trace = reads st.trace ++ [r] := by
  simp [reads]

theorem writes_readl (st : Mmio) (r : Reg) : writes (readl st r).2.trace = writes st.trace := by
  simp [writes]

/-! ## C9: the FPE MMC interrupt decode reads exactly the flagged counters -/

/-- C9: for every pair of Tx/Rx MMC interrupt-status values,
`fpe_mmc_irq_status` reads the two interrupt-status registers and then
exactly those counter registers (TXHRC, TXFFC, PAEC, PSEC, PAOC, FFC, in this
order) whose interrupt bit is set, and writes no register. It takes no
statistics vector, so it modifies no counter. -/
theorem fpe_mmc_irq_status_reads (k : Hdr) (st : Mmio) (hk : fpe_mmc_masks_ok k) :
    reads (dwmac5_fpe_mmc_irq_status k st).trace =
      reads st.trace ++ [Reg.MMC_FPE_TX_INTR, Reg.MMC_FPE_RX_INTR] ++
        (if (readl st Reg.MMC_FPE_TX_INTR).1 &&& k.MMC_FPE_TX_INTR_MASK_HRCIM =
            k.MMC_FPE_TX_INTR_MASK_HRCIM then [Reg.MMC_TX_HOLD_REQ] else []) ++
        (if (readl st Reg.MMC_FPE_TX_INTR).1 &&& k.MMC_FPE_TX_INTR_MASK_FCIM =
            k.MMC_FPE_TX_INTR_MASK_FCIM then [Reg.MMC_TX_FPE_FRAGMENT] else []) ++
        (if (readl (readl st Reg.MMC_FPE_TX_INTR).2 Reg.MMC_FPE_RX_INTR).1 &&&
            k.MMC_FPE_RX_INTR_MASK_PAECIM = k.MMC_FPE_RX_INTR_MASK_PAECIM
          then [Reg.MMC_RX_PACKET_ASSEMBLY_ERR] else []) ++
        (if (readl (readl st Reg.MMC_FPE_TX_INTR).2 Reg.MMC_FPE_RX_INTR).1 &&&
            k.MMC_FPE_RX_INTR_MASK_PSECIM = k.MMC_FPE_RX_INTR_MASK_PSECIM
          then [Reg.MMC_RX_PACKET_SMD_ERR] else []) ++
        (if (readl (readl st Reg.MMC_FPE_TX_INTR).2 Reg.MMC_FPE_RX_INTR).1 &&&
            k.MMC_FPE_RX_INTR_MASK_PAOCIM = k.MMC_FPE_RX_INTR_MASK_PAOCIM
          then [Reg.MMC_RX_PACKET_ASSEMBLY_OK] else []) ++
        (if (readl (readl st Reg.MMC_FPE_TX_INTR).2 Reg.MMC_FPE_RX_INTR).1 &&&
            k.MMC_FPE_RX_INTR_MASK_FCIM = k.MMC_FPE_RX_INTR_MASK_FCIM
          then [Reg.MMC_RX_FPE_FRAGMENT] else []) ∧
    writes (dwmac5_fpe_mmc_irq_status k st).trace = writes st.trace := by
  obtain ⟨⟨a0, a1⟩, ⟨b0, b1⟩, ⟨c0, c1⟩, ⟨d0, d1⟩, ⟨e0, e1⟩, ⟨f0, f1⟩⟩ := hk
  unfold dwmac5_fpe_mmc_irq_status
  by_cases hdt : (readl st Reg.MMC_FPE_TX_INTR).1 &&& k.MMC_FPE_TX_INTR_MASK_DEFAULT = 0
  · have ha : ¬ ((readl st Reg.MMC_FPE_TX_INTR).1 &&& k.MMC_FPE_TX_INTR_MASK_HRCIM =
        k.MMC_FPE_TX_INTR_MASK_HRCIM) := fun h => and_default_ne_zero a0 a1 h hdt
    have hb : ¬ ((readl st Reg.MMC_FPE_TX_INTR).1 &&& k.MMC_FPE_TX_INTR_MASK_FCIM =
        k.MMC_FPE_TX_INTR_MASK_FCIM) := fun h => and_default_ne_zero b0 b1 h hdt
    by_cases hdr : (readl (readl st Reg.MMC_FPE_TX_INTR).2 Reg.MMC_FPE_RX_INTR).1 &&&
        k.MMC_FPE_RX_INTR_MASK_DEFAULT = 0
    · have hc : ¬ ((readl (readl st Reg.MMC_FPE_TX_INTR).2 Reg.MMC_FPE_RX_INTR).1 &&&
          k.MMC_FPE_RX_INTR_MASK_PAECIM = k.MMC_FPE_RX_INTR_MASK_PAECIM) :=
        fun h => and_default_ne_zero c0 c1 h hdr
      have hd : ¬ ((readl (readl st Reg.MMC_FPE_TX_INTR).2 Reg.MMC_FPE_RX_INTR).1 &&&
          k.MMC_FPE_RX_INTR_MASK_PSECIM = k.MMC_FPE_RX_INTR_MASK_PSECIM) :=
        fun h => and_default_ne_zero d0 d1 h hdr
      have he : ¬ ((readl (readl st Reg.MMC_FPE_TX_INTR).2 Reg.MMC_FPE_RX_INTR).1 &&&
          k.MMC_FPE_RX_INTR_MASK_PAOCIM = k.MMC_FPE_RX_INTR_MASK_PAOCIM) :=
        fun h => and_default_ne_zero e0 e1 h hdr
      have hf : ¬ ((readl (readl st Reg.MMC_FPE_TX_INTR).2 Reg.MMC_FPE_RX_INTR).1 &&&
          k.MMC_FPE_RX_INTR_MASK_FCIM = k.MMC_FPE_RX_INTR_MASK_FCIM) :=
        fun h => and_default_ne_zero f0 f1 h hdr
      simp only [hdt, hdr, ha, hb, hc, hd, he, hf, ne_eq, not_true_eq_false, if_false,
        reads_readl, writes_readl, List.append_nil, List.append_assoc, List.singleton_append,
        and_self]
    · simp only [hdt, hdr, ha, hb, ne_eq, not_true_eq_false, not_false_eq_true, if_false,
        if_true, reads_read_log_step, writes_read_log_step, reads_readl, writes_readl,
        List.append_nil, List.append_assoc, List.singleton_append, and_self]
  · by_cases hdr : (readl (readl st Reg.MMC_FPE_TX_INTR).2 Reg.MMC_FPE_RX_INTR).1 &&&
        k.MMC_FPE_RX_INTR_MASK_DEFAULT = 0
    · have hc : ¬ ((readl (readl st Reg.MMC_FPE_TX_INTR).2 Reg.MMC_FPE_RX_INTR).1 &&&
          k.MMC_FPE_RX_INTR_MASK_PAECIM = k.MMC_FPE_RX_INTR_MASK_PAECIM) :=
        fun h => and_default_ne_zero c0 c1 h hdr
      have hd : ¬ ((readl (readl st Reg.MMC_FPE_TX_INTR).2 Reg.MMC_FPE_RX_INTR).1 &&&
          k.MMC_FPE_RX_INTR_MASK_PSECIM = k.MMC_FPE_RX_INTR_MASK_PSECIM) :=
        fun h => and_default_ne_zero d0 d1 h hdr
      have he : ¬ ((readl (readl st Reg.MMC_FPE_TX_INTR).2 Reg.MMC_FPE_RX_INTR).1 &&&
          k.MMC_FPE_RX_INTR_MASK_PAOCIM = k.MMC_FPE_RX_INTR_MASK_PAOCIM) :=
        fun h => and_default_ne_zero e0 e1 h hdr
      have hf : ¬ ((readl (readl st Reg.MMC_FPE_TX_INTR).2 Reg.MMC_FPE_RX_INTR).1 &&&
          k.MMC_FPE_RX_INTR_MASK_FCIM = k.MMC_FPE_RX_INTR_MASK_FCIM) :=
        fun h => and_default_ne_zero f0 f1 h hdr
      simp only [hdt, hdr, hc, hd, he, hf, ne_eq, not_true_eq_false, not_false_eq_true,
        if_false, if_true, reads_read_log_step, writes_read_log_step, reads_readl,
        writes_readl, List.append_nil, List.append_assoc, List.singleton_append, and_self]
    · simp only [hdt, hdr, ne_eq, not_true_eq_false, not_false_eq_true, if_false,
        if_true, reads_read_log_step, writes_read_log_step, reads_readl, writes_readl,
        List.append_nil, List.append_assoc, List.singleton_append, and_self]

/-- Witness for C9: with only the PAEC bit set (Rx status 1, Tx status 0) the
decode reads the two status registers and the PAEC counter register
`MMC_RX_PACKET_ASSEMBLY_ERR`, and none of PSEC, PAOC, FFC, TXHRC, TXFFC. -/
theorem fpe_mmc_irq_status_reads_witness :
    reads (dwmac5_fpe_mmc_irq_status hdr510 (mmc_dev 0 1)).trace =
      [Reg.MMC_FPE_TX_INTR, Reg.MMC_FPE_RX_INTR, Reg.MMC_RX_PACKET_ASSEMBLY_ERR] :=
  (fpe_mmc_irq_status_reads hdr510 (mmc_dev 0 1) (by decide)).1

theorem est_irq_status_stat_cases (k : Hdr) (st : Mmio) (mmc_stat : Stat) (txqcnt : Nat)
    (i : Fin 16) :
    ((dwmac5_est_irq_status k st mmc_stat txqcnt).2.1 i = mmc_stat i ∨
      (dwmac5_est_irq_status k st mmc_stat txqcnt).2.1 i =
        (mmc_stat i + 1) % 2 ^ k.MMC_STAT_BITS) ∧
    (5 ≤ i.val → (dwmac5_est_irq_status k st mmc_stat txqcnt).2.1 i = mmc_stat i) := by
  by_cases hany : (readl st Reg.MTL_EST_STATUS).1 &&&
      (k.MTL_EST_STATUS_CGCE ||| k.MTL_EST_STATUS_HLBS ||| k.MTL_EST_STATUS_HLBF |||
        k.MTL_EST_STATUS_BTRE ||| k.MTL_EST_STATUS_SWLC) = 0
  · rw [est_irq_status_fast k st mmc_stat txqcnt hany]
    exact ⟨Or.inl rfl, fun _ => rfl⟩
  · obtain ⟨hc, hs, hf, hb, hrest⟩ := est_irq_status_stat_values k st mmc_stat txqcnt hany
    by_cases h5 : 5 ≤ i.val
    · exact ⟨Or.inl (hrest i h5), fun _ => hrest i h5⟩
    · refine ⟨?_, fun h => absurd h h5⟩
      obtain ⟨v, hv⟩ := i
      simp only [not_le] at h5
      interval_cases v
      · show (dwmac5_est_irq_status k st mmc_stat txqcnt).2.1 EST_MMC_BTRE =
            mmc_stat EST_MMC_BTRE ∨ _ = (mmc_stat EST_MMC_BTRE + 1) % _
        split_ifs at hb with hbit
        · rcases hb with hb | hb
          · exact Or.inr hb.1
          · exact Or.inl hb.2
        · exact Or.inl hb.1
      · show (dwmac5_est_irq_status k st mmc_stat txqcnt).2.1 EST_MMC_BTRLM =
            mmc_stat EST_MMC_BTRLM ∨ _ = (mmc_stat EST_MMC_BTRLM + 1) % _
        split_ifs at hb with hbit
        · rcases hb with hb | hb
          · exact Or.inl hb.2
          · exact Or.inr hb.1
        · exact Or.inl hb.2
      · split_ifs at hf
        · exact Or.inr hf
        · exact Or.inl hf
      · split_ifs at hs
        · exact Or.inr hs
        · exact Or.inl hs
      · split_ifs at hc
        · exact Or.inr hc
        · exact Or.inl hc

theorem fpe_update_mmc_stat_trace (k : Hdr) (st : Mmio) (mmc_stat : Stat) :
    ∃ v1 v2 v3 v4 v5 v6 : Nat,
      (dwmac5_fpe_update_mmc_stat k st mmc_stat).2.trace = st.trace ++
        [Event.rd Reg.MMC_TX_HOLD_REQ v1, Event.rd Reg.MMC_TX_FPE_FRAGMENT v2,
         Event.rd Reg.MMC_RX_PACKET_ASSEMBLY_ERR v3, Event.rd Reg.MMC_RX_PACKET_SMD_ERR v4,
         Event.rd Reg.MMC_RX_PACKET_ASSEMBLY_OK v5, Event.rd Reg.MMC_RX_FPE_FRAGMENT v6] ∧
      (dwmac5_fpe_update_mmc_stat k st mmc_stat).1 FPE_MMC_TXHRC = v1 % 2 ^ k.MMC_STAT_BITS ∧
      (dwmac5_fpe_update_mmc_stat k st mmc_stat).1 FPE_MMC_TXFFC = v2 % 2 ^ k.MMC_STAT_BITS ∧
      (dwmac5_fpe_update_mmc_stat k st mmc_stat).1 FPE_MMC_PAEC = v3 % 2 ^ k.MMC_STAT_BITS ∧
      (dwmac5_fpe_update_mmc_stat k st mmc_stat).1 FPE_MMC_PSEC = v4 % 2 ^ k.MMC_STAT_BITS ∧
      (dwmac5_fpe_update_mmc_stat k st mmc_stat).1 FPE_MMC_PAOC = v5 % 2 ^ k.MMC_STAT_BITS ∧
      (dwmac5_fpe_update_mmc_stat k st mmc_stat).1 FPE_MMC_FFC = v6 % 2 ^ k.MMC_STAT_BITS := by
  refine ⟨(readl st Reg.MMC_TX_HOLD_REQ).1,
    (readl (readl st Reg.MMC_TX_HOLD_REQ).2 Reg.MMC_TX_FPE_FRAGMENT).1,
    (readl (readl (readl st Reg.MMC_TX_HOLD_REQ).2 Reg.MMC_TX_FPE_FRAGMENT).2
      Reg.MMC_RX_PACKET_ASSEMBLY_ERR).1,
    (readl (readl (readl (readl st Reg.MMC_TX_HOLD_REQ).2 Reg.MMC_TX_FPE_FRAGMENT).2
      Reg.MMC_RX_PACKET_ASSEMBLY_ERR).2 Reg.MMC_RX_PACKET_SMD_ERR).1,
    (readl (readl (readl (readl (readl st Reg.MMC_TX_HOLD_REQ).2 Reg.MMC_TX_FPE_FRAGMENT).2
      Reg.MMC_RX_PACKET_ASSEMBLY_ERR).2 Reg.MMC_RX_PACKET_SMD_ERR).2
      Reg.MMC_RX_PACKET_ASSEMBLY_OK).1,
    (readl (readl (readl (readl (readl (readl st Reg.MMC_TX_HOLD_REQ).2
      Reg.MMC_TX_FPE_FRAGMENT).2 Reg.MMC_RX_PACKET_ASSEMBLY_ERR).2 Reg.MMC_RX_PACKET_SMD_ERR).2
      Reg.MMC_RX_PACKET_ASSEMBLY_OK).2 Reg.MMC_RX_FPE_FRAGMENT).1, ?_, ?_, ?_, ?_, ?_, ?_, ?_⟩
  · simp only [dwmac5_fpe_update_mmc_stat, readl_trace, List.append_assoc,
      List.singleton_append, List.cons_append, List.nil_append]
  all_goals
    simp [dwmac5_fpe_update_mmc_stat, stat_set, Function.update_apply, FPE_MMC_TXFFC,
      FPE_MMC_TXHRC, FPE_MMC_PAEC, FPE_MMC_PSEC, FPE_MMC_PAOC, FPE_MMC_FFC]

theorem fpe_update_mmc_stat_frame (k : Hdr) (st : Mmio) (mmc_stat : Stat) (i : Fin 16)
    (hi : i.val < 5 ∨ 10 < i.val) :
    (dwmac5_fpe_update_mmc_stat k st mmc_stat).1 i = mmc_stat i := by
  fin_cases i <;> first
    | (exfalso; revert hi; decide)
    | simp [dwmac5_fpe_update_mmc_stat, stat_set, Function.update_apply, FPE_MMC_TXFFC,
        FPE_MMC_TXHRC, FPE_MMC_PAEC, FPE_MMC_PSEC, FPE_MMC_PAOC, FPE_MMC_FFC]

/-! ## C10: how the statistics counters change -/

/-- C10, as stated, fails: `fpe_update_mmc_stat` stores what it reads. With
every counter at 5 and the MMC registers reading 3, counter TXHRC is 3 after
the call, so the counters are not all greater than or equal to their prior
values, and the change happens outside any interrupt-status decode. -/
theorem fpe_update_mmc_stat_decreases :
    (dwmac5_fpe_update_mmc_stat hdr510 (const_dev (fun _ => 3) 0) (fun _ => 5)).1
      FPE_MMC_TXHRC = 3 ∧
    ¬ (∀ i : Fin 16, (fun _ => 5 : Stat) i ≤
      (dwmac5_fpe_update_mmc_stat hdr510 (const_dev (fun _ => 3) 0) (fun _ => 5)).1 i) := by
  decide

/-- C10 (amended): `est_irq_status` leaves each counter unchanged or increments
it by one (unsigned increment), touches only counters 0..4, and so never
lowers a counter that is below the maximum of its type;
`fpe_update_mmc_stat` reads the six MMC counter registers in the order TXHRC,
TXFFC, PAEC, PSEC, PAOC, FFC, overwrites FPE counters 5..10 with the values
read, and leaves counters 0..4 and 11..15 unchanged. -/
theorem mmc_stat_update_discipline (k : Hdr) (st : Mmio) (mmc_stat : Stat) (txqcnt : Nat) :
    (∀ i : Fin 16, (dwmac5_est_irq_status k st mmc_stat txqcnt).2.1 i = mmc_stat i ∨
      (dwmac5_est_irq_status k st mmc_stat txqcnt).2.1 i =
        (mmc_stat i + 1) % 2 ^ k.MMC_STAT_BITS) ∧
    (∀ i : Fin 16, 5 ≤ i.val →
      (dwmac5_est_irq_status k st mmc_stat txqcnt).2.1 i = mmc_stat i) ∧
    (∀ i : Fin 16, mmc_stat i + 1 < 2 ^ k.MMC_STAT_BITS →
      mmc_stat i ≤ (dwmac5_est_irq_status k st mmc_stat txqcnt).2.1 i) ∧
    (∃ v1 v2 v3 v4 v5 v6 : Nat,
      (dwmac5_fpe_update_mmc_stat k st mmc_stat).2.trace = st.trace ++
        [Event.rd Reg.MMC_TX_HOLD_REQ v1, Event.rd Reg.MMC_TX_FPE_FRAGMENT v2,
         Event.rd Reg.MMC_RX_PACKET_ASSEMBLY_ERR v3, Event.rd Reg.MMC_RX_PACKET_SMD_ERR v4,
         Event.rd Reg.MMC_RX_PACKET_ASSEMBLY_OK v5, Event.rd Reg.MMC_RX_FPE_FRAGMENT v6] ∧
      (dwmac5_fpe_update_mmc_stat k st mmc_stat).1 FPE_MMC_TXHRC = v1 % 2 ^ k.MMC_STAT_BITS ∧
      (dwmac5_fpe_update_mmc_stat k st mmc_stat).1 FPE_MMC_TXFFC = v2 % 2 ^ k.MMC_STAT_BITS ∧
      (dwmac5_fpe_update_mmc_stat k st mmc_stat).1 FPE_MMC_PAEC = v3 % 2 ^ k.MMC_STAT_BITS ∧
      (dwmac5_fpe_update_mmc_stat k st mmc_stat).1 FPE_MMC_PSEC = v4 % 2 ^ k.MMC_STAT_BITS ∧
      (dwmac5_fpe_update_mmc_stat k st mmc_stat).1 FPE_MMC_PAOC = v5 % 2 ^ k.MMC_STAT_BITS ∧
      (dwmac5_fpe_update_mmc_stat k st mmc_stat).1 FPE_MMC_FFC = v6 % 2 ^ k.MMC_STAT_BITS) ∧
    (∀ i : Fin 16, i.val < 5 ∨ 10 < i.val →
      (dwmac5_fpe_update_mmc_stat k st mmc_stat).1 i = mmc_stat i) := by
  refine ⟨fun i => (est_irq_status_stat_cases k st mmc_stat txqcnt i).1,
    fun i => (est_irq_status_stat_cases k st mmc_stat txqcnt i).2, ?_,
    fpe_update_mmc_stat_trace k st mmc_stat,
    fun i hi => fpe_update_mmc_stat_frame k st mmc_stat i hi⟩
  intro i hlt
  rcases (est_irq_status_stat_cases k st mmc_stat txqcnt i).1 with h | h
  · rw [h]
  · rw [h, Nat.mod_eq_of_lt hlt]
    exact Nat.le_succ _

/-! ## Read-modify-write lemmas -/

theorem testBit_mod32 (x i : Nat) :
    (x % 4294967296).testBit i = (decide (i < 32) && x.testBit i) := by
  rw [show (4294967296 : Nat) = 2 ^ 32 by norm_num, Nat.testBit_mod_two_pow]

theorem testBit_shl32 (x s i : Nat) :
    (shl32 x s).testBit i = (decide (i < 32) && (decide (i ≥ s) && x.testBit (i - s))) := by
  unfold shl32
  rw [testBit_mod32, Nat.testBit_shiftLeft]

theorem testBit_lt32 {v i : Nat} (hv : v < 4294967296) (hb : v.testBit i = true) : i < 32 :=
  lt_of_testBit_true (show v < 2 ^ 32 by norm_num; exact hv) hb

theorem subset_testBit {y m : Nat} (h : y &&& m = y) (i : Nat) (hy : y.testBit i = true) :
    m.testBit i = true := by
  rw [← h, Nat.testBit_and] at hy
  simp only [Bool.and_eq_true] at hy
  exact hy.2

theorem testBit_rmw (v c y i : Nat) :
    (((v &&& not32 c) ||| y) % 4294967296).testBit i =
      (decide (i < 32) && ((v.testBit i && !c.testBit i) || y.testBit i)) := by
  rw [testBit_mod32, Nat.testBit_or, Nat.testBit_and, testBit_not32]
  by_cases hi : i < 32 <;> simp [hi]

theorem rmw_field (v c y m : Nat) (hmc : m &&& c = m) (hym : y &&& m = y)
    (hy : y < 4294967296) :
    (((v &&& not32 c) ||| y) % 4294967296) &&& m = y := by
  apply Nat.eq_of_testBit_eq
  intro i
  rw [Nat.testBit_and, testBit_rmw]
  cases hyi : y.testBit i
  · cases hmi : m.testBit i
    · simp
    · simp [subset_testBit hmc i hmi]
  · simp [subset_testBit hym i hyi, testBit_lt32 hy hyi]

theorem rmw_outside (v c y : Nat) (hv : v < 4294967296) (hyc : y &&& c = y) :
    (((v &&& not32 c) ||| y) % 4294967296) &&& not32 c = v &&& not32 c := by
  apply Nat.eq_of_testBit_eq
  intro i
  rw [Nat.testBit_and, testBit_rmw, Nat.testBit_and, testBit_not32]
  cases hci : c.testBit i
  · cases hyi : y.testBit i
    · cases hvi : v.testBit i
      · simp
      · simp [testBit_lt32 hv hvi]
    · rw [subset_testBit hyc i hyi] at hci
      exact Bool.noConfusion hci
  · simp

theorem rmw_cleared (v c y m : Nat) (hmc : m &&& c = m) (hym : y &&& m = 0) :
    (((v &&& not32 c) ||| y) % 4294967296) &&& m = 0 := by
  apply Nat.eq_of_testBit_eq
  intro i
  have hd := and_testBit_false hym i
  rw [Nat.testBit_and, testBit_rmw, Nat.zero_testBit]
  cases hmi : m.testBit i
  · simp
  · rw [hmi] at hd
    simp only [Bool.and_true] at hd
    simp [subset_testBit hmc i hmi, hd]

theorem rmw_untouched (v c y m : Nat) (hv : v < 4294967296) (hmc : m &&& c = 0)
    (hym : y &&& m = 0) :
    (((v &&& not32 c) ||| y) % 4294967296) &&& m = v &&& m := by
  apply Nat.eq_of_testBit_eq
  intro i
  have hd := and_testBit_false hym i
  have hc := and_testBit_false hmc i
  rw [Nat.testBit_and, testBit_rmw, Nat.testBit_and]
  cases hmi : m.testBit i
  · simp
  · rw [hmi] at hd hc
    simp only [Bool.and_true, Bool.true_and] at hd hc
    cases hvi : v.testBit i
    · simp [hd]
    · simp [hd, hc, testBit_lt32 hv hvi]

theorem and_or_self_right (s f : Nat) : f &&& (s ||| f) = f := by
  apply Nat.eq_of_testBit_eq
  intro i
  rw [Nat.testBit_and, Nat.testBit_or]
  cases f.testBit i <;> simp

theorem and_or_self_left (s f : Nat) : s &&& (s ||| f) = s := by
  apply Nat.eq_of_testBit_eq
  intro i
  rw [Nat.testBit_and, Nat.testBit_or]
  cases s.testBit i <;> simp

theorem field_fits {x s w : Nat} (hx : x < 2 ^ w) (hw : s + w ≤ 32) :
    shl32 x s = x <<< s ∧ shl32 x s < 4294967296 ∧
    shl32 x s &&& ((2 ^ w - 1) <<< s) = shl32 x s ∧ shl32 x s >>> s = x := by
  have hlt : x <<< s < 4294967296 := by
    rw [Nat.shiftLeft_eq]
    calc x * 2 ^ s < 2 ^ w * 2 ^ s :=
          Nat.mul_lt_mul_of_pos_right hx (Nat.pos_pow_of_pos s (by decide))
      _ = 2 ^ (s + w) := by rw [← Nat.pow_add, Nat.add_comm]
      _ ≤ 2 ^ 32 := Nat.pow_le_pow_right (by decide) hw
      _ = 4294967296 := by norm_num
  have he : shl32 x s = x <<< s := by
    unfold shl32
    exact Nat.mod_eq_of_lt hlt
  refine ⟨he, by rw [he]; exact hlt, ?_, ?_⟩
  · rw [he]
    apply Nat.eq_of_testBit_eq
    intro i
    rw [Nat.testBit_and, Nat.testBit_shiftLeft, Nat.testBit_shiftLeft,
      Nat.testBit_two_pow_sub_one]
    by_cases hi : i ≥ s
    · cases hb : x.testBit (i - s)
      · simp
      · simp [hi, lt_of_testBit_true hx hb]
    · simp [hi]
  · rw [he, Nat.shiftLeft_eq, Nat.shiftRight_eq_div_pow,
      Nat.mul_div_cancel _ (Nat.pos_pow_of_pos s (by decide))]

theorem est_field_setter (v S F s x w : Nat) (hv : v < 4294967296)
    (hF : F = (2 ^ w - 1) <<< s) (hw : s + w ≤ 32) (hx : x < 2 ^ w) (hS : S &&& F = 0) :
    ((((v &&& not32 (S ||| F)) ||| shl32 x s) % 4294967296) &&& F) >>> s = x ∧
    (((v &&& not32 (S ||| F)) ||| shl32 x s) % 4294967296) &&& S = 0 ∧
    (((v &&& not32 (S ||| F)) ||| shl32 x s) % 4294967296) &&& not32 (S ||| F) =
      v &&& not32 (S ||| F) := by
  obtain ⟨-, hlt, hsub, hshr⟩ := field_fits hx hw
  rw [← hF] at hsub
  have hyS : shl32 x s &&& S = 0 := by
    rw [← hsub, Nat.and_assoc, Nat.and_comm F S, hS]
    exact Nat.and_zero _
  have hyc : shl32 x s &&& (S ||| F) = shl32 x s := by
    conv_lhs => rw [← hsub]
    rw [Nat.and_assoc, and_or_self_right, hsub]
  refine ⟨?_, rmw_cleared _ _ _ _ (and_or_self_left S F) hyS, rmw_outside _ _ _ hv hyc⟩
  rw [rmw_field _ _ _ _ (and_or_self_right S F) hsub hlt, hshr]

/-! ## C14: the EST field setters change only their own field -/

/-- C14: when TILS, PTOV and CTOV are contiguous fields at their shift
positions, none containing the pending-swap bit, and the argument fits its
field, each of `est_set_tils`, `est_set_ptov`, `est_set_ctov` reads the EST
control register once and writes it once; the value written has the field
equal to the argument, the pending-swap bit clear, and every bit outside the
field and the pending-swap bit equal to its prior value. -/
theorem est_field_setters_frame (k : Hdr) (st : Mmio) (tils ptov ctov wt wp wc : Nat)
    (hTm : k.MTL_EST_CTRL_TILS = (2 ^ wt - 1) <<< k.MTL_EST_CTRL_TILS_SHIFT)
    (hTw : k.MTL_EST_CTRL_TILS_SHIFT + wt ≤ 32) (hTa : tils < 2 ^ wt)
    (hTs : k.MTL_EST_CTRL_SSWL &&& k.MTL_EST_CTRL_TILS = 0)
    (hPm : k.MTL_EST_CTRL_PTOV = (2 ^ wp - 1) <<< k.MTL_EST_CTRL_PTOV_SHIFT)
    (hPw : k.MTL_EST_CTRL_PTOV_SHIFT + wp ≤ 32) (hPa : ptov < 2 ^ wp)
    (hPs : k.MTL_EST_CTRL_SSWL &&& k.MTL_EST_CTRL_PTOV = 0)
    (hCm : k.MTL_EST_CTRL_CTOV = (2 ^ wc - 1) <<< k.MTL_EST_CTRL_CTOV_SHIFT)
    (hCw : k.MTL_EST_CTRL_CTOV_SHIFT + wc ≤ 32) (hCa : ctov < 2 ^ wc)
    (hCs : k.MTL_EST_CTRL_SSWL &&& k.MTL_EST_CTRL_CTOV = 0) :
    (∃ w, (dwmac5_est_set_tils k st tils).trace =
        st.trace ++ [Event.rd Reg.MTL_EST_CTRL (readl st Reg.MTL_EST_CTRL).1,
          Event.wr Reg.MTL_EST_CTRL w] ∧
      (w &&& k.MTL_EST_CTRL_TILS) >>> k.MTL_EST_CTRL_TILS_SHIFT = tils ∧
      w &&& k.MTL_EST_CTRL_SSWL = 0 ∧
      w &&& not32 (k.MTL_EST_CTRL_SSWL ||| k.MTL_EST_CTRL_TILS) =
        (readl st Reg.MTL_EST_CTRL).1 &&& not32 (k.MTL_EST_CTRL_SSWL ||| k.MTL_EST_CTRL_TILS)) ∧
    (∃ w, (dwmac5_est_set_ptov k st ptov).trace =
        st.trace ++ [Event.rd Reg.MTL_EST_CTRL (readl st Reg.MTL_EST_CTRL).1,
          Event.wr Reg.MTL_EST_CTRL w] ∧
      (w &&& k.MTL_EST_CTRL_PTOV) >>> k.MTL_EST_CTRL_PTOV_SHIFT = ptov ∧
      w &&& k.MTL_EST_CTRL_SSWL = 0 ∧
      w &&& not32 (k.MTL_EST_CTRL_SSWL ||| k.MTL_EST_CTRL_PTOV) =
        (readl st Reg.MTL_EST_CTRL).1 &&& not32 (k.MTL_EST_CTRL_SSWL ||| k.MTL_EST_CTRL_PTOV)) ∧
    (∃ w, (dwmac5_est_set_ctov k st ctov).trace =
        st.trace ++ [Event.rd Reg.MTL_EST_CTRL (readl st Reg.MTL_EST_CTRL).1,
          Event.wr Reg.MTL_EST_CTRL w] ∧
      (w &&& k.MTL_EST_CTRL_CTOV) >>> k.MTL_EST_CTRL_CTOV_SHIFT = ctov ∧
      w &&& k.MTL_EST_CTRL_SSWL = 0 ∧
      w &&& not32 (k.MTL_EST_CTRL_SSWL ||| k.MTL_EST_CTRL_CTOV) =
        (readl st Reg.MTL_EST_CTRL).1 &&& not32 (k.MTL_EST_CTRL_SSWL ||| k.MTL_EST_CTRL_CTOV)) :=
  ⟨⟨_, est_set_tils_trace k st tils,
      est_field_setter _ _ _ _ _ wt (readl_lt st _) hTm hTw hTa hTs⟩,
    ⟨_, est_set_ptov_trace k st ptov,
      est_field_setter _ _ _ _ _ wp (readl_lt st _) hPm hPw hPa hPs⟩,
    ⟨_, est_set_ctov_trace k st ctov,
      est_field_setter _ _ _ _ _ wc (readl_lt st _) hCm hCw hCa hCs⟩⟩

/-- Witness for C14: prior register value `0xffffffff` (pending swap and
enable set), TILS := 5, PTOV := 0xa5, CTOV := 0x123. -/
theorem est_field_setters_frame_witness :
    (∃ w, (dwmac5_est_set_tils hdr510 (const_dev (fun _ => 4294967295) 0) 5).trace =
        [Event.rd Reg.MTL_EST_CTRL 4294967295, Event.wr Reg.MTL_EST_CTRL w] ∧
      (w &&& 1792) >>> 8 = 5 ∧ w &&& 2 = 0 ∧
      w &&& not32 (2 ||| 1792) = 4294967295 &&& not32 (2 ||| 1792)) ∧
    (∃ w, (dwmac5_est_set_ptov hdr510 (const_dev (fun _ => 4294967295) 0) 165).trace =
        [Event.rd Reg.MTL_EST_CTRL 4294967295, Event.wr Reg.MTL_EST_CTRL w] ∧
      (w &&& 4278190080) >>> 24 = 165 ∧ w &&& 2 = 0 ∧
      w &&& not32 (2 ||| 4278190080) = 4294967295 &&& not32 (2 ||| 4278190080)) ∧
    (∃ w, (dwmac5_est_set_ctov hdr510 (const_dev (fun _ => 4294967295) 0) 291).trace =
        [Event.rd Reg.MTL_EST_CTRL 4294967295, Event.wr Reg.MTL_EST_CTRL w] ∧
      (w &&& 16773120) >>> 12 = 291 ∧ w &&& 2 = 0 ∧
      w &&& not32 (2 ||| 16773120) = 4294967295 &&& not32 (2 ||| 16773120)) :=
  est_field_setters_frame hdr510 (const_dev (fun _ => 4294967295) 0) 5 165 291 3 8 12
    (by decide) (by decide) (by decide) (by decide) (by decide) (by decide) (by decide)
    (by decide) (by decide) (by decide) (by decide) (by decide)

theorem single_bit_field (v s : Nat) : (v &&& 2 ^ s) >>> s = (v >>> s) % 2 := by
  apply Nat.eq_of_testBit_eq
  intro i
  rw [Nat.testBit_shiftRight, Nat.testBit_and, Nat.testBit_two_pow,
    show (2 : Nat) = 2 ^ 1 by norm_num, Nat.testBit_mod_two_pow, Nat.testBit_shiftRight]
  by_cases hi : i = 0
  · subst hi
    simp
  · have h1 : ¬ i < 1 := by omega
    have h2 : ¬ s = s + i := by omega
    simp [h1, h2]

theorem est_get_bank_eq (k : Hdr) (st : Mmio) (is_own : Bool)
    (hS : k.MTL_EST_STATUS_SWOL = 2 ^ k.MTL_EST_STATUS_SWOL_SHIFT) :
    dwmac5_est_get_bank k st is_own =
      (if is_own then ((readl st Reg.MTL_EST_STATUS).1 >>> k.MTL_EST_STATUS_SWOL_SHIFT) % 2
        else 1 - ((readl st Reg.MTL_EST_STATUS).1 >>> k.MTL_EST_STATUS_SWOL_SHIFT) % 2,
       (readl st Reg.MTL_EST_STATUS).2) := by
  have hn0 : not32 0 &&& 1 = 1 - 0 := by decide
  have hn1 : not32 1 &&& 1 = 1 - 1 := by decide
  have h2 : ((readl st Reg.MTL_EST_STATUS).1 >>> k.MTL_EST_STATUS_SWOL_SHIFT) % 2 < 2 :=
    Nat.mod_lt _ (by decide)
  have hc : not32 (((readl st Reg.MTL_EST_STATUS).1 >>> k.MTL_EST_STATUS_SWOL_SHIFT) % 2) &&& 1 =
      1 - ((readl st Reg.MTL_EST_STATUS).1 >>> k.MTL_EST_STATUS_SWOL_SHIFT) % 2 := by
    rcases Nat.lt_succ_iff_lt_or_eq.mp h2 with h | h
    · have h0 : ((readl st Reg.MTL_EST_STATUS).1 >>> k.MTL_EST_STATUS_SWOL_SHIFT) % 2 = 0 := by
        omega
      rw [h0]
      exact hn0
    · rw [h]
      exact hn1
  unfold dwmac5_est_get_bank
  simp only [hS, single_bit_field, hc]
  cases is_own <;> rfl

/-! ## C17: bank query -/

/-- C17: with `SWOL` the single bit at `SWOL_SHIFT`, for every value of the EST
status register `est_get_bank(true)` returns that bit as 0 or 1 and
`est_get_bank(false)` returns its complement, so both lie in 0..1 and they sum
to 1; each call only reads the status register. -/
theorem est_get_bank_complement (k : Hdr) (st : Mmio)
    (hS : k.MTL_EST_STATUS_SWOL = 2 ^ k.MTL_EST_STATUS_SWOL_SHIFT) :
    (dwmac5_est_get_bank k st true).1 =
      ((readl st Reg.MTL_EST_STATUS).1 >>> k.MTL_EST_STATUS_SWOL_SHIFT) % 2 ∧
    (dwmac5_est_get_bank k st false).1 =
      1 - ((readl st Reg.MTL_EST_STATUS).1 >>> k.MTL_EST_STATUS_SWOL_SHIFT) % 2 ∧
    (dwmac5_est_get_bank k st true).1 ≤ 1 ∧
    (dwmac5_est_get_bank k st false).1 ≤ 1 ∧
    (dwmac5_est_get_bank k st true).1 + (dwmac5_est_get_bank k st false).1 = 1 ∧
    (dwmac5_est_get_bank k st true).2.trace =
      st.trace ++ [Event.rd Reg.MTL_EST_STATUS (readl st Reg.MTL_EST_STATUS).1] ∧
    (dwmac5_est_get_bank k st false).2.trace =
      st.trace ++ [Event.rd Reg.MTL_EST_STATUS (readl st Reg.MTL_EST_STATUS).1] := by
  rw [est_get_bank_eq k st true hS, est_get_bank_eq k st false hS]
  have h2 : ((readl st Reg.MTL_EST_STATUS).1 >>> k.MTL_EST_STATUS_SWOL_SHIFT) % 2 < 2 :=
    Nat.mod_lt _ (by decide)
  refine ⟨rfl, rfl, ?_, ?_, ?_, rfl, rfl⟩
  · show ((readl st Reg.MTL_EST_STATUS).1 >>> k.MTL_EST_STATUS_SWOL_SHIFT) % 2 ≤ 1
    omega
  · show 1 - ((readl st Reg.MTL_EST_STATUS).1 >>> k.MTL_EST_STATUS_SWOL_SHIFT) % 2 ≤ 1
    omega
  · show ((readl st Reg.MTL_EST_STATUS).1 >>> k.MTL_EST_STATUS_SWOL_SHIFT) % 2 +
      (1 - ((readl st Reg.MTL_EST_STATUS).1 >>> k.MTL_EST_STATUS_SWOL_SHIFT) % 2) = 1
    omega

/-- Witness for C17: status `0x80` (SWOL set): own bank 1, other bank 0. -/
theorem est_get_bank_complement_witness :
    (dwmac5_est_get_bank hdr510 (const_dev (fun _ => 128) 0) true).1 = 1 ∧
    (dwmac5_est_get_bank hdr510 (const_dev (fun _ => 128) 0) false).1 = 0 :=
  ⟨(est_get_bank_complement hdr510 (const_dev (fun _ => 128) 0) (by decide)).1,
   (est_get_bank_complement hdr510 (const_dev (fun _ => 128) 0) (by decide)).2.1⟩

theorem or_mask_set (v m : Nat) (hm : m < 4294967296) :
    ((v ||| m) % 4294967296) &&& m = m := by
  apply Nat.eq_of_testBit_eq
  intro i
  rw [Nat.testBit_and, testBit_mod32, Nat.testBit_or]
  cases hmi : m.testBit i
  · simp
  · simp [testBit_lt32 hm hmi]

theorem or_mask_outside (v m : Nat) (hv : v < 4294967296) :
    ((v ||| m) % 4294967296) &&& not32 m = v &&& not32 m := by
  apply Nat.eq_of_testBit_eq
  intro i
  rw [Nat.testBit_and, testBit_mod32, Nat.testBit_or, Nat.testBit_and, testBit_not32]
  cases hmi : m.testBit i
  · cases hvi : v.testBit i
    · simp
    · simp [testBit_lt32 hv hvi]
  · simp

/-! ## C18: bank-switch request -/

/-- C18: for every prior value of the EST control register `est_switch_swol`
reads it once and writes it once, touching no other register; the value
written has `SSWL` set and every other bit equal to its prior value. -/
theorem est_switch_swol_sets_only_sswl (k : Hdr) (st : Mmio)
    (hS : k.MTL_EST_CTRL_SSWL < 4294967296) :
    ∃ w, (dwmac5_est_switch_swol k st).trace =
        st.trace ++ [Event.rd Reg.MTL_EST_CTRL (readl st Reg.MTL_EST_CTRL).1,
          Event.wr Reg.MTL_EST_CTRL w] ∧
      w &&& k.MTL_EST_CTRL_SSWL = k.MTL_EST_CTRL_SSWL ∧
      w &&& not32 k.MTL_EST_CTRL_SSWL =
        (readl st Reg.MTL_EST_CTRL).1 &&& not32 k.MTL_EST_CTRL_SSWL := by
  refine ⟨((readl st Reg.MTL_EST_CTRL).1 ||| k.MTL_EST_CTRL_SSWL) % 4294967296, ?_,
    or_mask_set _ _ hS, or_mask_outside _ _ (readl_lt st _)⟩
  show (st.trace ++ [_]) ++ [_] = _
  rw [List.append_assoc]
  rfl

/-- Witness for C18: prior value `0xa5000701` becomes `0xa5000703`. -/
theorem est_switch_swol_sets_only_sswl_witness :
    ∃ w, (dwmac5_est_switch_swol hdr510 (const_dev (fun _ => 2768242433) 0)).trace =
        [Event.rd Reg.MTL_EST_CTRL 2768242433, Event.wr Reg.MTL_EST_CTRL w] ∧
      w &&& 2 = 2 ∧ w &&& not32 2 = 2768242433 &&& not32 2 :=
  est_switch_swol_sets_only_sswl hdr510 (const_dev (fun _ => 2768242433) 0) (by decide)

/-! ## C19: enable set/get round trip -/

/-- C19: with the enable bit at bit 0 and distinct from the pending-swap bit,
for every prior value of the EST control register and every `enable`,
`est_set_enable` returns 0 and writes once; the value written has the enable
bit equal to `enable`, the pending-swap bit clear and every other bit equal
to its prior value, and `est_get_enable` on a register holding that value
returns `enable`. -/
theorem est_enable_roundtrip (k : Hdr) (st st2 : Mmio) (enable : Bool)
    (hE : k.MTL_EST_CTRL_EEST = 1)
    (hS : k.MTL_EST_CTRL_SSWL &&& k.MTL_EST_CTRL_EEST = 0) :
    (dwmac5_est_set_enable k st enable).1 = 0 ∧
    ∃ w, (dwmac5_est_set_enable k st enable).2.trace =
        st.trace ++ [Event.rd Reg.MTL_EST_CTRL (readl st Reg.MTL_EST_CTRL).1,
          Event.wr Reg.MTL_EST_CTRL w] ∧
      w &&& k.MTL_EST_CTRL_EEST = (if enable then k.MTL_EST_CTRL_EEST else 0) ∧
      w &&& k.MTL_EST_CTRL_SSWL = 0 ∧
      w &&& not32 (k.MTL_EST_CTRL_SSWL ||| k.MTL_EST_CTRL_EEST) =
        (readl st Reg.MTL_EST_CTRL).1 &&&
          not32 (k.MTL_EST_CTRL_SSWL ||| k.MTL_EST_CTRL_EEST) ∧
      ((readl st2 Reg.MTL_EST_CTRL).1 = w → (dwmac5_est_get_enable k st2).1 = enable) := by
  have hy : (if enable then 1 else 0) &&& k.MTL_EST_CTRL_EEST = if enable then 1 else 0 := by
    rw [hE]
    cases enable <;> decide
  have hylt : (if enable then 1 else 0) &&& k.MTL_EST_CTRL_EEST < 4294967296 := by
    rw [hy]
    cases enable <;> decide
  have hyE : ((if enable then 1 else 0) &&& k.MTL_EST_CTRL_EEST) &&& k.MTL_EST_CTRL_EEST =
      (if enable then 1 else 0) &&& k.MTL_EST_CTRL_EEST := by
    rw [Nat.and_assoc, Nat.and_self]
  have hyS : ((if enable then 1 else 0) &&& k.MTL_EST_CTRL_EEST) &&& k.MTL_EST_CTRL_SSWL = 0 := by
    rw [Nat.and_assoc, Nat.and_comm k.MTL_EST_CTRL_EEST, hS]
    exact Nat.and_zero _
  have hyc : ((if enable then 1 else 0) &&& k.MTL_EST_CTRL_EEST) &&&
      (k.MTL_EST_CTRL_SSWL ||| k.MTL_EST_CTRL_EEST) =
      (if enable then 1 else 0) &&& k.MTL_EST_CTRL_EEST := by
    rw [Nat.and_assoc, and_or_self_right]
  have hf := rmw_field (readl st Reg.MTL_EST_CTRL).1
    (k.MTL_EST_CTRL_SSWL ||| k.MTL_EST_CTRL_EEST)
    ((if enable then 1 else 0) &&& k.MTL_EST_CTRL_EEST) k.MTL_EST_CTRL_EEST
    (and_or_self_right _ _) hyE hylt
  refine ⟨rfl, _, est_set_enable_trace k st enable, ?_,
    rmw_cleared _ _ _ _ (and_or_self_left _ _) hyS, rmw_outside _ _ _ (readl_lt st _) hyc, ?_⟩
  · rw [hf, hy, hE]
  · intro h2
    show decide ((readl st2 Reg.MTL_EST_CTRL).1 &&& k.MTL_EST_CTRL_EEST ≠ 0) = enable
    rw [h2, hf, hy]
    cases enable <;> decide

/-- Witness for C19: prior value `0xffffffff`, disabling: `0xfffffffc` is
written and reads back as disabled. -/
theorem est_enable_roundtrip_witness :
    (dwmac5_est_set_enable hdr510 (const_dev (fun _ => 4294967295) 0) false).1 = 0 ∧
    ∃ w, (dwmac5_est_set_enable hdr510 (const_dev (fun _ => 4294967295) 0) false).2.trace =
        [Event.rd Reg.MTL_EST_CTRL 4294967295, Event.wr Reg.MTL_EST_CTRL w] ∧
      w &&& 1 = 0 ∧ w &&& 2 = 0 ∧
      w &&& not32 (2 ||| 1) = 4294967295 &&& not32 (2 ||| 1) ∧
      ((readl (const_dev (fun _ => 4294967292) 0) Reg.MTL_EST_CTRL).1 = w →
        (dwmac5_est_get_enable hdr510 (const_dev (fun _ => 4294967292) 0)).1 = false) :=
  est_enable_roundtrip hdr510 (const_dev (fun _ => 4294967295) 0)
    (const_dev (fun _ => 4294967292) 0) false rfl (by decide)

/-! ## C11: release-advance setter -/

/-- C11 fails on the code: `fpe_set_radv` ORs the raw, unshifted `radv` into the
value after the masked and shifted field. With the advance register at 0 and
`radv = 1` (within the 16-bit maximum) it writes `0x00010001`: the RADV field
is 1, but the hold-advance field, bits 0..15, changes from 0 to 1. -/
theorem fpe_set_radv_clobbers_hadv :
    (dwmac5_fpe_set_radv fpetbs510 (const_dev (fun _ => 0) 0) 1).trace =
      [Event.rd Reg.MTL_FPE_ADVANCE 0, Event.wr Reg.MTL_FPE_ADVANCE 65537] ∧
    (65537 &&& fpetbs510.MTL_FPE_ADVANCE_RADV) >>> fpetbs510.MTL_FPE_ADVANCE_RADV_SHIFT = 1 ∧
    65537 &&& fpetbs510.MTL_FPE_ADVANCE_HADV = 1 ∧
    0 &&& fpetbs510.MTL_FPE_ADVANCE_HADV = 0 ∧
    65537 &&& not32 fpetbs510.MTL_FPE_ADVANCE_RADV ≠
      0 &&& not32 fpetbs510.MTL_FPE_ADVANCE_RADV := by
  decide

theorem and_and_self_left (a z : Nat) : (a &&& z) &&& a = a &&& z := by
  rw [Nat.and_comm, ← Nat.and_assoc, Nat.and_self]

theorem and_shl32_lt (a x s : Nat) : a &&& shl32 x s < 4294967296 :=
  lt_of_le_of_lt Nat.and_le_right (Nat.mod_lt _ (by decide))

theorem and_not32_eq (p m : Nat) (hp : p < 4294967296) :
    (p &&& not32 m) % 4294967296 = p &&& not32 m :=
  Nat.mod_eq_of_lt (lt_of_le_of_lt Nat.and_le_left hp)

theorem or_ite_zero (c : Prop) [Decidable c] (x b : Nat) :
    (if c then x ||| b else x) = x ||| (if c then b else 0) := by
  split_ifs
  · rfl
  · exact (Nat.or_zero x).symm

theorem ite_mask_sub (c : Prop) [Decidable c] (b : Nat) :
    (if c then b else 0) &&& b = (if c then b else 0) := by
  split_ifs
  · exact Nat.and_self b
  · exact Nat.zero_and b

theorem ite_mask_lt (c : Prop) [Decidable c] (b : Nat) (hb : b < 4294967296) :
    (if c then b else 0) < 4294967296 := by
  split_ifs
  · exact hb
  · decide

theorem tbs_set_ftos_trace (h : FpeTbsHdr) (st : Mmio) (ftos estm fgos : Nat) :
    (dwmac5_tbs_set_ftos h st ftos estm fgos).trace =
      st.trace ++ [Event.rd Reg.DMA_TBS_CTRL (readl st Reg.DMA_TBS_CTRL).1,
        Event.wr Reg.DMA_TBS_CTRL
          ((readl st Reg.DMA_TBS_CTRL).1 &&& not32 h.DMA_TBS_CTRL_FTOV),
        Event.wr Reg.DMA_TBS_CTRL
          ((((((readl st Reg.DMA_TBS_CTRL).1 &&& not32 h.DMA_TBS_CTRL_FTOV) &&&
              not32 h.DMA_TBS_CTRL_FTOS) |||
            (h.DMA_TBS_CTRL_FTOS &&& shl32 ftos h.DMA_TBS_CTRL_FTOS_SHIFT)) |||
            (if ftos ≠ 0 ∨ (estm ≠ 0 ∧ fgos ≠ 0) then h.DMA_TBS_CTRL_FTOV else 0))
            % 4294967296)] := by
  have hraw : (dwmac5_tbs_set_ftos h st ftos estm fgos).trace =
      st.trace ++ [Event.rd Reg.DMA_TBS_CTRL (readl st Reg.DMA_TBS_CTRL).1,
        Event.wr Reg.DMA_TBS_CTRL
          (((readl st Reg.DMA_TBS_CTRL).1 &&& not32 h.DMA_TBS_CTRL_FTOV) % 4294967296),
        Event.wr Reg.DMA_TBS_CTRL
          ((if ftos ≠ 0 ∨ (estm ≠ 0 ∧ fgos ≠ 0) then
              ((((readl st Reg.DMA_TBS_CTRL).1 &&& not32 h.DMA_TBS_CTRL_FTOV) &&&
                not32 h.DMA_TBS_CTRL_FTOS) |||
              (h.DMA_TBS_CTRL_FTOS &&& shl32 ftos h.DMA_TBS_CTRL_FTOS_SHIFT)) |||
              h.DMA_TBS_CTRL_FTOV
            else
              (((readl st Reg.DMA_TBS_CTRL).1 &&& not32 h.DMA_TBS_CTRL_FTOV) &&&
                not32 h.DMA_TBS_CTRL_FTOS) |||
              (h.DMA_TBS_CTRL_FTOS &&& shl32 ftos h.DMA_TBS_CTRL_FTOS_SHIFT)) % 4294967296)] := by
    show ((st.trace ++ [_]) ++ [_]) ++ [_] = _
    rw [List.append_assoc, List.append_assoc]
    rfl
  rw [hraw, and_not32_eq _ _ (readl_lt st Reg.DMA_TBS_CTRL), or_ite_zero]

theorem tbs_set_fgos_trace (h : FpeTbsHdr) (st : Mmio) (fgos ftos : Nat) :
    (dwmac5_tbs_set_fgos h st fgos ftos).trace =
      st.trace ++ [Event.rd Reg.DMA_TBS_CTRL (readl st Reg.DMA_TBS_CTRL).1,
        Event.wr Reg.DMA_TBS_CTRL
          ((readl st Reg.DMA_TBS_CTRL).1 &&& not32 h.DMA_TBS_CTRL_FTOV),
        Event.wr Reg.DMA_TBS_CTRL
          ((((((readl st Reg.DMA_TBS_CTRL).1 &&& not32 h.DMA_TBS_CTRL_FTOV) &&&
              not32 h.DMA_TBS_CTRL_FGOS) |||
            (h.DMA_TBS_CTRL_FGOS &&& shl32 fgos h.DMA_TBS_CTRL_FGOS_SHIFT)) |||
            (if ftos ≠ 0 ∨ fgos ≠ 0 then h.DMA_TBS_CTRL_FTOV else 0))
            % 4294967296)] := by
  have hraw : (dwmac5_tbs_set_fgos h st fgos ftos).trace =
      st.trace ++ [Event.rd Reg.DMA_TBS_CTRL (readl st Reg.DMA_TBS_CTRL).1,
        Event.wr Reg.DMA_TBS_CTRL
          (((readl st Reg.DMA_TBS_CTRL).1 &&& not32 h.DMA_TBS_CTRL_FTOV) % 4294967296),
        Event.wr Reg.DMA_TBS_CTRL
          ((if ftos ≠ 0 ∨ fgos ≠ 0 then
              ((((readl st Reg.DMA_TBS_CTRL).1 &&& not32 h.DMA_TBS_CTRL_FTOV) &&&
                not32 h.DMA_TBS_CTRL_FGOS) |||
              (h.DMA_TBS_CTRL_FGOS &&& shl32 fgos h.DMA_TBS_CTRL_FGOS_SHIFT)) |||
              h.DMA_TBS_CTRL_FTOV
            else
              (((readl st Reg.DMA_TBS_CTRL).1 &&& not32 h.DMA_TBS_CTRL_FTOV) &&&
                not32 h.DMA_TBS_CTRL_FGOS) |||
              (h.DMA_TBS_CTRL_FGOS &&& shl32 fgos h.DMA_TBS_CTRL_FGOS_SHIFT)) % 4294967296)] := by
    show ((st.trace ++ [_]) ++ [_]) ++ [_] = _
    rw [List.append_assoc, List.append_assoc]
    rfl
  rw [hraw, and_not32_eq _ _ (readl_lt st Reg.DMA_TBS_CTRL), or_ite_zero]

theorem two_step_props (p A B m ya yb : Nat) (hp : p < 4294967296)
    (hAB : A &&& B = 0) (hya : ya &&& A = ya) (hyb : yb &&& B = yb)
    (hya32 : ya < 4294967296) (hyb32 : yb < 4294967296)
    (hmA : m &&& A = 0) (hmB : m &&& B = 0) :
    (((((p &&& not32 B) &&& not32 A) ||| ya) ||| yb) % 4294967296) &&& A = ya ∧
    (((((p &&& not32 B) &&& not32 A) ||| ya) ||| yb) % 4294967296) &&& B = yb ∧
    (((((p &&& not32 B) &&& not32 A) ||| ya) ||| yb) % 4294967296) &&& m = p &&& m := by
  refine ⟨?_, ?_, ?_⟩ <;> apply Nat.eq_of_testBit_eq <;> intro i <;>
    have h1 := and_testBit_false hAB i <;>
    have h2 := and_testBit_false hmA i <;>
    have h3 := and_testBit_false hmB i <;>
    have h4 : ya.testBit i = true → A.testBit i = true := subset_testBit hya i <;>
    have h5 : yb.testBit i = true → B.testBit i = true := subset_testBit hyb i <;>
    have h6 : ya.testBit i = true → i < 32 := testBit_lt32 hya32 <;>
    have h7 : yb.testBit i = true → i < 32 := testBit_lt32 hyb32 <;>
    have h8 : p.testBit i = true → i < 32 := testBit_lt32 hp <;>
    simp only [Nat.testBit_and, Nat.testBit_or, testBit_mod32, testBit_not32] <;>
    cases hA : A.testBit i <;> cases hB : B.testBit i <;> cases hm : m.testBit i <;>
    cases hpi : p.testBit i <;> cases hyai : ya.testBit i <;> cases hybi : yb.testBit i <;>
    simp_all


/-! ## C12: two-phase update of the fetch-time fields -/

/-- C12: with FTOV, FTOS and FGOS pairwise disjoint masks, each of
`tbs_set_ftos` and `tbs_set_fgos` reads the DMA TBS control register once and
writes it exactly twice. The first write is the prior value with FTOV
cleared. The second has its own field equal to the shifted argument masked to
the field, the other offset field equal to its prior value, and FTOV set
exactly under the condition the code tests, so FTOV is set only if the fetch
offset or the fetch granularity passed to the call is nonzero. -/
theorem tbs_fetch_two_phase (h : FpeTbsHdr) (st : Mmio) (ftos estm fgos : Nat)
    (hTV : h.DMA_TBS_CTRL_FTOS &&& h.DMA_TBS_CTRL_FTOV = 0)
    (hGV : h.DMA_TBS_CTRL_FGOS &&& h.DMA_TBS_CTRL_FTOV = 0)
    (hTG : h.DMA_TBS_CTRL_FTOS &&& h.DMA_TBS_CTRL_FGOS = 0)
    (hV : h.DMA_TBS_CTRL_FTOV < 4294967296) :
    (∃ w1 w2, (dwmac5_tbs_set_ftos h st ftos estm fgos).trace =
        st.trace ++ [Event.rd Reg.DMA_TBS_CTRL (readl st Reg.DMA_TBS_CTRL).1,
          Event.wr Reg.DMA_TBS_CTRL w1, Event.wr Reg.DMA_TBS_CTRL w2] ∧
      w1 = (readl st Reg.DMA_TBS_CTRL).1 &&& not32 h.DMA_TBS_CTRL_FTOV ∧
      w2 &&& h.DMA_TBS_CTRL_FTOS =
        h.DMA_TBS_CTRL_FTOS &&& shl32 ftos h.DMA_TBS_CTRL_FTOS_SHIFT ∧
      w2 &&& h.DMA_TBS_CTRL_FGOS = (readl st Reg.DMA_TBS_CTRL).1 &&& h.DMA_TBS_CTRL_FGOS ∧
      w2 &&& h.DMA_TBS_CTRL_FTOV =
        (if ftos ≠ 0 ∨ (estm ≠ 0 ∧ fgos ≠ 0) then h.DMA_TBS_CTRL_FTOV else 0) ∧
      (w2 &&& h.DMA_TBS_CTRL_FTOV ≠ 0 → ftos ≠ 0 ∨ fgos ≠ 0)) ∧
    (∃ w1 w2, (dwmac5_tbs_set_fgos h st fgos ftos).trace =
        st.trace ++ [Event.rd Reg.DMA_TBS_CTRL (readl st Reg.DMA_TBS_CTRL).1,
          Event.wr Reg.DMA_TBS_CTRL w1, Event.wr Reg.DMA_TBS_CTRL w2] ∧
      w1 = (readl st Reg.DMA_TBS_CTRL).1 &&& not32 h.DMA_TBS_CTRL_FTOV ∧
      w2 &&& h.DMA_TBS_CTRL_FGOS =
        h.DMA_TBS_CTRL_FGOS &&& shl32 fgos h.DMA_TBS_CTRL_FGOS_SHIFT ∧
      w2 &&& h.DMA_TBS_CTRL_FTOS = (readl st Reg.DMA_TBS_CTRL).1 &&& h.DMA_TBS_CTRL_FTOS ∧
      w2 &&& h.DMA_TBS_CTRL_FTOV =
        (if ftos ≠ 0 ∨ fgos ≠ 0 then h.DMA_TBS_CTRL_FTOV else 0) ∧
      (w2 &&& h.DMA_TBS_CTRL_FTOV ≠ 0 → ftos ≠ 0 ∨ fgos ≠ 0)) := by
  have hGT : h.DMA_TBS_CTRL_FGOS &&& h.DMA_TBS_CTRL_FTOS = 0 := by rw [Nat.and_comm]; exact hTG
  obtain ⟨a1, a2, a3⟩ := two_step_props (readl st Reg.DMA_TBS_CTRL).1 h.DMA_TBS_CTRL_FTOS
    h.DMA_TBS_CTRL_FTOV h.DMA_TBS_CTRL_FGOS
    (h.DMA_TBS_CTRL_FTOS &&& shl32 ftos h.DMA_TBS_CTRL_FTOS_SHIFT)
    (if ftos ≠ 0 ∨ (estm ≠ 0 ∧ fgos ≠ 0) then h.DMA_TBS_CTRL_FTOV else 0)
    (readl_lt st _) hTV (and_and_self_left _ _) (ite_mask_sub _ _) (and_shl32_lt _ _ _)
    (ite_mask_lt _ _ hV) hGT hGV
  obtain ⟨b1, b2, b3⟩ := two_step_props (readl st Reg.DMA_TBS_CTRL).1 h.DMA_TBS_CTRL_FGOS
    h.DMA_TBS_CTRL_FTOV h.DMA_TBS_CTRL_FTOS
    (h.DMA_TBS_CTRL_FGOS &&& shl32 fgos h.DMA_TBS_CTRL_FGOS_SHIFT)
    (if ftos ≠ 0 ∨ fgos ≠ 0 then h.DMA_TBS_CTRL_FTOV else 0)
    (readl_lt st _) hGV (and_and_self_left _ _) (ite_mask_sub _ _) (and_shl32_lt _ _ _)
    (ite_mask_lt _ _ hV) hTG hTV
  refine ⟨⟨_, _, tbs_set_ftos_trace h st ftos estm fgos, rfl, a1, a3, a2, ?_⟩,
    ⟨_, _, tbs_set_fgos_trace h st fgos ftos, rfl, b1, b3, b2, ?_⟩⟩
  · rw [a2]
    intro hne
    by_cases hc : ftos ≠ 0 ∨ (estm ≠ 0 ∧ fgos ≠ 0)
    · rcases hc with hc | hc
      · exact Or.inl hc
      · exact Or.inr hc.2
    · rw [if_neg hc] at hne
      exact absurd rfl hne
  · rw [b2]
    intro hne
    by_cases hc : ftos ≠ 0 ∨ fgos ≠ 0
    · exact hc
    · rw [if_neg hc] at hne
      exact absurd rfl hne

/-- Witness for C12: prior value `0xffffffff`. `tbs_set_ftos(5, 0, 0)` writes
`0xfffffffe` then `0x5ff`; `tbs_set_fgos(0, 5)` writes `0xfffffffe` then
clears the granularity field and sets FTOV again. -/
theorem tbs_fetch_two_phase_witness :
    (∃ w1 w2, (dwmac5_tbs_set_ftos fpetbs510 (const_dev (fun _ => 4294967295) 0) 5 0 0).trace =
        [Event.rd Reg.DMA_TBS_CTRL 4294967295,
          Event.wr Reg.DMA_TBS_CTRL w1, Event.wr Reg.DMA_TBS_CTRL w2] ∧
      w1 = 4294967295 &&& not32 1 ∧
      w2 &&& 4294967040 = 4294967040 &&& shl32 5 8 ∧
      w2 &&& 112 = 4294967295 &&& 112 ∧
      w2 &&& 1 = (if (5 : Nat) ≠ 0 ∨ ((0 : Nat) ≠ 0 ∧ (0 : Nat) ≠ 0) then 1 else 0) ∧
      (w2 &&& 1 ≠ 0 → (5 : Nat) ≠ 0 ∨ (0 : Nat) ≠ 0)) ∧
    (∃ w1 w2, (dwmac5_tbs_set_fgos fpetbs510 (const_dev (fun _ => 4294967295) 0) 0 5).trace =
        [Event.rd Reg.DMA_TBS_CTRL 4294967295,
          Event.wr Reg.DMA_TBS_CTRL w1, Event.wr Reg.DMA_TBS_CTRL w2] ∧
      w1 = 4294967295 &&& not32 1 ∧
      w2 &&& 112 = 112 &&& shl32 0 4 ∧
      w2 &&& 4294967040 = 4294967295 &&& 4294967040 ∧
      w2 &&& 1 = (if (5 : Nat) ≠ 0 ∨ (0 : Nat) ≠ 0 then 1 else 0) ∧
      (w2 &&& 1 ≠ 0 → (5 : Nat) ≠ 0 ∨ (0 : Nat) ≠ 0)) :=
  tbs_fetch_two_phase fpetbs510 (const_dev (fun _ => 4294967295) 0) 5 0 0
    (by decide) (by decide) (by decide) (by decide)



theorem set_step_props (p A B m ya : Nat) (hp : p < 4294967296)
    (hAB : A &&& B = 0) (hya : ya &&& A = ya)
    (hya32 : ya < 4294967296) (hB32 : B < 4294967296)
    (hmA : m &&& A = 0) (hmB : m &&& B = 0) :
    ((((p ||| B) &&& not32 A) ||| ya) % 4294967296) &&& A = ya ∧
    ((((p ||| B) &&& not32 A) ||| ya) % 4294967296) &&& B = B ∧
    ((((p ||| B) &&& not32 A) ||| ya) % 4294967296) &&& m = p &&& m := by
  refine ⟨?_, ?_, ?_⟩ <;> apply Nat.eq_of_testBit_eq <;> intro i <;>
    have h1 := and_testBit_false hAB i <;>
    have h2 := and_testBit_false hmA i <;>
    have h3 := and_testBit_false hmB i <;>
    have h4 : ya.testBit i = true → A.testBit i = true := subset_testBit hya i <;>
    have h6 : ya.testBit i = true → i < 32 := testBit_lt32 hya32 <;>
    have h7 : B.testBit i = true → i < 32 := testBit_lt32 hB32 <;>
    have h8 : p.testBit i = true → i < 32 := testBit_lt32 hp <;>
    simp only [Nat.testBit_and, Nat.testBit_or, testBit_mod32, testBit_not32] <;>
    cases hA : A.testBit i <;> cases hB : B.testBit i <;> cases hm : m.testBit i <;>
    cases hpi : p.testBit i <;> cases hyai : ya.testBit i <;>
    simp_all

theorem swap_step_props (p R S : Nat) (hp : p < 4294967296) (hRS : R &&& S = 0)
    (hS32 : S < 4294967296) :
    (((p &&& not32 R) ||| S) % 4294967296) &&& S = S ∧
    (((p &&& not32 R) ||| S) % 4294967296) &&& R = 0 ∧
    (((p &&& not32 R) ||| S) % 4294967296) &&& not32 (S ||| R) = p &&& not32 (S ||| R) := by
  refine ⟨?_, ?_, ?_⟩ <;> apply Nat.eq_of_testBit_eq <;> intro i <;>
    have h1 := and_testBit_false hRS i <;>
    have h7 : S.testBit i = true → i < 32 := testBit_lt32 hS32 <;>
    have h8 : p.testBit i = true → i < 32 := testBit_lt32 hp <;>
    simp only [Nat.testBit_and, Nat.testBit_or, testBit_mod32, testBit_not32,
      Nat.zero_testBit] <;>
    cases hR : R.testBit i <;> cases hS : S.testBit i <;> cases hpi : p.testBit i <;>
    simp_all

theorem tbs_set_leos_trace (h : FpeTbsHdr) (st : Mmio) (leos estm : Nat) :
    (dwmac5_tbs_set_leos h st leos estm).trace =
      st.trace ++ [Event.rd Reg.MTL_TBS_CTRL (readl st Reg.MTL_TBS_CTRL).1,
        Event.wr Reg.MTL_TBS_CTRL
          ((((if leos ≠ 0 ∨ (estm ≠ 0 ∧ leos ≠ 0) then
                (readl st Reg.MTL_TBS_CTRL).1 ||| h.MTL_TBS_CTRL_LEOV
              else (readl st Reg.MTL_TBS_CTRL).1 &&& not32 h.MTL_TBS_CTRL_LEOV) &&&
              not32 h.MTL_TBS_CTRL_LEOS) |||
            (leos &&& h.MTL_TBS_CTRL_LEOS)) % 4294967296)] := by
  show (st.trace ++ [_]) ++ [_] = _
  rw [List.append_assoc]
  rfl

/-! ## C13: launch-expiry offset validity -/

/-- C13: with LEOV, LEOS, ESTM and LEGOS pairwise disjoint 32-bit masks,
`tbs_set_leos` reads the MTL TBS control register once and writes it once; the
value written has LEOV set if and only if `leos != 0 || (estm != 0 && leos !=
0)` (and clear otherwise), the LEOS field equal to `leos` masked to that
field, and the ESTM bit and the LEGOS field equal to their prior values. -/
theorem tbs_set_leos_validity (h : FpeTbsHdr) (st : Mmio) (leos estm : Nat)
    (hSV : h.MTL_TBS_CTRL_LEOS &&& h.MTL_TBS_CTRL_LEOV = 0)
    (hES : h.MTL_TBS_CTRL_ESTM &&& h.MTL_TBS_CTRL_LEOS = 0)
    (hEV : h.MTL_TBS_CTRL_ESTM &&& h.MTL_TBS_CTRL_LEOV = 0)
    (hGS : h.MTL_TBS_CTRL_LEGOS &&& h.MTL_TBS_CTRL_LEOS = 0)
    (hGV : h.MTL_TBS_CTRL_LEGOS &&& h.MTL_TBS_CTRL_LEOV = 0)
    (hV0 : h.MTL_TBS_CTRL_LEOV ≠ 0)
    (hV : h.MTL_TBS_CTRL_LEOV < 4294967296)
    (hS : h.MTL_TBS_CTRL_LEOS < 4294967296) :
    ∃ w, (dwmac5_tbs_set_leos h st leos estm).trace =
        st.trace ++ [Event.rd Reg.MTL_TBS_CTRL (readl st Reg.MTL_TBS_CTRL).1,
          Event.wr Reg.MTL_TBS_CTRL w] ∧
      (w &&& h.MTL_TBS_CTRL_LEOV = h.MTL_TBS_CTRL_LEOV ↔
        (leos ≠ 0 ∨ (estm ≠ 0 ∧ leos ≠ 0))) ∧
      (¬ (leos ≠ 0 ∨ (estm ≠ 0 ∧ leos ≠ 0)) → w &&& h.MTL_TBS_CTRL_LEOV = 0) ∧
      w &&& h.MTL_TBS_CTRL_LEOS = leos &&& h.MTL_TBS_CTRL_LEOS ∧
      w &&& h.MTL_TBS_CTRL_ESTM = (readl st Reg.MTL_TBS_CTRL).1 &&& h.MTL_TBS_CTRL_ESTM ∧
      w &&& h.MTL_TBS_CTRL_LEGOS = (readl st Reg.MTL_TBS_CTRL).1 &&& h.MTL_TBS_CTRL_LEGOS := by
  have hya : (leos &&& h.MTL_TBS_CTRL_LEOS) &&& h.MTL_TBS_CTRL_LEOS =
      leos &&& h.MTL_TBS_CTRL_LEOS := by rw [Nat.and_assoc, Nat.and_self]
  have hya32 : leos &&& h.MTL_TBS_CTRL_LEOS < 4294967296 :=
    lt_of_le_of_lt Nat.and_le_right hS
  refine ⟨_, tbs_set_leos_trace h st leos estm, ?_⟩
  by_cases hc : leos ≠ 0 ∨ (estm ≠ 0 ∧ leos ≠ 0)
  · rw [if_pos hc]
    obtain ⟨a1, a2, a3⟩ := set_step_props (readl st Reg.MTL_TBS_CTRL).1 h.MTL_TBS_CTRL_LEOS
      h.MTL_TBS_CTRL_LEOV h.MTL_TBS_CTRL_ESTM (leos &&& h.MTL_TBS_CTRL_LEOS)
      (readl_lt st _) hSV hya hya32 hV hES hEV
    obtain ⟨-, -, a4⟩ := set_step_props (readl st Reg.MTL_TBS_CTRL).1 h.MTL_TBS_CTRL_LEOS
      h.MTL_TBS_CTRL_LEOV h.MTL_TBS_CTRL_LEGOS (leos &&& h.MTL_TBS_CTRL_LEOS)
      (readl_lt st _) hSV hya hya32 hV hGS hGV
    exact ⟨⟨fun _ => hc, fun _ => a2⟩, fun hn => absurd hc hn, a1, a3, a4⟩
  · rw [if_neg hc]
    obtain ⟨a1, a2, a3⟩ := two_step_props (readl st Reg.MTL_TBS_CTRL).1 h.MTL_TBS_CTRL_LEOS
      h.MTL_TBS_CTRL_LEOV h.MTL_TBS_CTRL_ESTM (leos &&& h.MTL_TBS_CTRL_LEOS) 0
      (readl_lt st _) hSV hya (Nat.zero_and _) hya32 (by decide) hES hEV
    obtain ⟨-, -, a4⟩ := two_step_props (readl st Reg.MTL_TBS_CTRL).1 h.MTL_TBS_CTRL_LEOS
      h.MTL_TBS_CTRL_LEOV h.MTL_TBS_CTRL_LEGOS (leos &&& h.MTL_TBS_CTRL_LEOS) 0
      (readl_lt st _) hSV hya (Nat.zero_and _) hya32 (by decide) hGS hGV
    rw [Nat.or_zero] at a1 a2 a3 a4
    refine ⟨⟨fun hw => ?_, fun hcc => absurd hcc hc⟩, fun _ => a2, a1, a3, a4⟩
    rw [a2] at hw
    exact absurd hw.symm hV0

/-- Witness for C13: prior value `0xffffffff`, `leos = 0x100`, `estm = 0`: LEOV
stays set, LEOS becomes `0x100`, ESTM and LEGOS keep their values. -/
theorem tbs_set_leos_validity_witness :
    ∃ w, (dwmac5_tbs_set_leos fpetbs510 (const_dev (fun _ => 4294967295) 0) 256 0).trace =
        [Event.rd Reg.MTL_TBS_CTRL 4294967295, Event.wr Reg.MTL_TBS_CTRL w] ∧
      (w &&& 2 = 2 ↔ ((256 : Nat) ≠ 0 ∨ ((0 : Nat) ≠ 0 ∧ (256 : Nat) ≠ 0))) ∧
      (¬ ((256 : Nat) ≠ 0 ∨ ((0 : Nat) ≠ 0 ∧ (256 : Nat) ≠ 0)) → w &&& 2 = 0) ∧
      w &&& 4294967040 = 256 &&& 4294967040 ∧
      w &&& 1 = 4294967295 &&& 1 ∧
      w &&& 112 = 4294967295 &&& 112 :=
  tbs_set_leos_validity fpetbs510 (const_dev (fun _ => 4294967295) 0) 256 0
    (by decide) (by decide) (by decide) (by decide) (by decide) (by decide) (by decide)
    (by decide)

theorem fpe_send_mpacket_trace (h : FpeTbsHdr) (st : Mmio) (type : Nat) :
    (dwmac5_fpe_send_mpacket h st type).trace =
      st.trace ++ [Event.rd Reg.MAC_FPE_CTRL_STS (readl st Reg.MAC_FPE_CTRL_STS).1,
        Event.wr Reg.MAC_FPE_CTRL_STS
          ((if type = h.MPACKET_VERIFY then
              ((readl st Reg.MAC_FPE_CTRL_STS).1 &&& not32 h.MAC_FPE_CTRL_STS_SRSP) |||
                h.MAC_FPE_CTRL_STS_SVER
            else
              ((readl st Reg.MAC_FPE_CTRL_STS).1 &&& not32 h.MAC_FPE_CTRL_STS_SVER) |||
                h.MAC_FPE_CTRL_STS_SRSP) % 4294967296)] := by
  show (st.trace ++ [_]) ++ [_] = _
  rw [List.append_assoc]
  rfl

/-! ## C15: mPacket request bits -/

/-- C15: with SVER and SRSP disjoint, non-zero 32-bit masks, for every prior
value of the MAC FPE control/status register and every mPacket type
`fpe_send_mpacket` reads the register once and writes it once; the value
written has SVER set and SRSP clear when the type is VERIFY, SRSP set and SVER
clear otherwise, and every other bit equal to its prior value. -/
theorem fpe_send_mpacket_exclusive (h : FpeTbsHdr) (st : Mmio) (type : Nat)
    (hD : h.MAC_FPE_CTRL_STS_SRSP &&& h.MAC_FPE_CTRL_STS_SVER = 0)
    (hV0 : h.MAC_FPE_CTRL_STS_SVER ≠ 0) (hR0 : h.MAC_FPE_CTRL_STS_SRSP ≠ 0)
    (hV : h.MAC_FPE_CTRL_STS_SVER < 4294967296)
    (hR : h.MAC_FPE_CTRL_STS_SRSP < 4294967296) :
    ∃ w, (dwmac5_fpe_send_mpacket h st type).trace =
        st.trace ++ [Event.rd Reg.MAC_FPE_CTRL_STS (readl st Reg.MAC_FPE_CTRL_STS).1,
          Event.wr Reg.MAC_FPE_CTRL_STS w] ∧
      (type = h.MPACKET_VERIFY →
        w &&& h.MAC_FPE_CTRL_STS_SVER = h.MAC_FPE_CTRL_STS_SVER ∧
        w &&& h.MAC_FPE_CTRL_STS_SVER ≠ 0 ∧ w &&& h.MAC_FPE_CTRL_STS_SRSP = 0) ∧
      (type ≠ h.MPACKET_VERIFY →
        w &&& h.MAC_FPE_CTRL_STS_SRSP = h.MAC_FPE_CTRL_STS_SRSP ∧
        w &&& h.MAC_FPE_CTRL_STS_SRSP ≠ 0 ∧ w &&& h.MAC_FPE_CTRL_STS_SVER = 0) ∧
      w &&& not32 (h.MAC_FPE_CTRL_STS_SVER ||| h.MAC_FPE_CTRL_STS_SRSP) =
        (readl st Reg.MAC_FPE_CTRL_STS).1 &&&
          not32 (h.MAC_FPE_CTRL_STS_SVER ||| h.MAC_FPE_CTRL_STS_SRSP) := by
  have hD2 : h.MAC_FPE_CTRL_STS_SVER &&& h.MAC_FPE_CTRL_STS_SRSP = 0 := by
    rw [Nat.and_comm]; exact hD
  refine ⟨_, fpe_send_mpacket_trace h st type, ?_⟩
  by_cases hc : type = h.MPACKET_VERIFY
  · rw [if_pos hc]
    obtain ⟨a1, a2, a3⟩ := swap_step_props (readl st Reg.MAC_FPE_CTRL_STS).1
      h.MAC_FPE_CTRL_STS_SRSP h.MAC_FPE_CTRL_STS_SVER (readl_lt st _) hD hV
    exact ⟨fun _ => ⟨a1, by rw [a1]; exact hV0, a2⟩, fun hn => absurd hc hn, a3⟩
  · rw [if_neg hc]
    obtain ⟨a1, a2, a3⟩ := swap_step_props (readl st Reg.MAC_FPE_CTRL_STS).1
      h.MAC_FPE_CTRL_STS_SVER h.MAC_FPE_CTRL_STS_SRSP (readl_lt st _) hD2 hR
    rw [Nat.or_comm h.MAC_FPE_CTRL_STS_SRSP] at a3
    exact ⟨fun hy => absurd hy hc, fun _ => ⟨a1, by rw [a1]; exact hR0, a2⟩, a3⟩

/-- Witness for C15: prior value `0xffffffff` (both request bits set) and type
VERIFY: `0xfffffffb` is written, SVER set and SRSP clear. -/
theorem fpe_send_mpacket_exclusive_witness :
    ∃ w, (dwmac5_fpe_send_mpacket fpetbs510 (const_dev (fun _ => 4294967295) 0) 0).trace =
        [Event.rd Reg.MAC_FPE_CTRL_STS 4294967295, Event.wr Reg.MAC_FPE_CTRL_STS w] ∧
      ((0 : Nat) = 0 → w &&& 2 = 2 ∧ w &&& 2 ≠ 0 ∧ w &&& 4 = 0) ∧
      ((0 : Nat) ≠ 0 → w &&& 4 = 4 ∧ w &&& 4 ≠ 0 ∧ w &&& 2 = 0) ∧
      w &&& not32 (2 ||| 4) = 4294967295 &&& not32 (2 ||| 4) :=
  fpe_send_mpacket_exclusive fpetbs510 (const_dev (fun _ => 4294967295) 0) 0
    (by decide) (by decide) (by decide) (by decide) (by decide)

theorem or_and_of_disjoint_right (x y m : Nat) (hy : y &&& m = 0) :
    (x ||| y) &&& m = x &&& m := by
  apply Nat.eq_of_testBit_eq
  intro i
  have h := and_testBit_false hy i
  rw [Nat.testBit_and, Nat.testBit_or, Nat.testBit_and]
  cases hm : m.testBit i <;> cases hyi : y.testBit i <;> simp_all

theorem or_and_of_disjoint_left (x y m : Nat) (hx : x &&& m = 0) :
    (x ||| y) &&& m = y &&& m := by
  rw [Nat.or_comm]
  exact or_and_of_disjoint_right y x m hx

theorem ite_and_disjoint (c : Prop) [Decidable c] (f m : Nat) (hf : f &&& m = 0) :
    (if c then f else 0) &&& m = 0 := by
  split_ifs
  · exact hf
  · exact Nat.zero_and m

theorem ite_flag_iff (c : Prop) [Decidable c] (f : Nat) (hf : f ≠ 0) :
    (if c then f else 0) = f ↔ c := by
  split_ifs with h
  · exact ⟨fun _ => h, fun _ => rfl⟩
  · exact ⟨fun e => absurd e.symm hf, fun hc => absurd hc h⟩

theorem fpe_irq_status_event (h : FpeTbsHdr) (st : Mmio) (event : Nat) :
    (dwmac5_fpe_irq_status h st event).1 =
      (((h.FPE_EVENT_UNKNOWN |||
        (if (readl st Reg.MAC_FPE_CTRL_STS).1 &&& h.MAC_FPE_CTRL_STS_TRSP ≠ 0
          then h.FPE_EVENT_TRSP else 0)) |||
        (if (readl st Reg.MAC_FPE_CTRL_STS).1 &&& h.MAC_FPE_CTRL_STS_TVER ≠ 0
          then h.FPE_EVENT_TVER else 0)) |||
        (if (readl st Reg.MAC_FPE_CTRL_STS).1 &&& h.MAC_FPE_CTRL_STS_RRSP ≠ 0
          then h.FPE_EVENT_RRSP else 0)) |||
        (if (readl st Reg.MAC_FPE_CTRL_STS).1 &&& h.MAC_FPE_CTRL_STS_RVER ≠ 0
          then h.FPE_EVENT_RVER else 0) := by
  unfold dwmac5_fpe_irq_status
  by_cases h1 : (readl st Reg.MAC_FPE_CTRL_STS).1 &&& h.MAC_FPE_CTRL_STS_TRSP = 0 <;>
  by_cases h2 : (readl st Reg.MAC_FPE_CTRL_STS).1 &&& h.MAC_FPE_CTRL_STS_TVER = 0 <;>
  by_cases h3 : (readl st Reg.MAC_FPE_CTRL_STS).1 &&& h.MAC_FPE_CTRL_STS_RRSP = 0 <;>
  by_cases h4 : (readl st Reg.MAC_FPE_CTRL_STS).1 &&& h.MAC_FPE_CTRL_STS_RVER = 0 <;>
  simp only [h1, h2, h3, h4, ne_eq, not_true_eq_false, not_false_eq_true, if_true, if_false,
    Nat.or_zero, Function.const]

theorem fpe_irq_status_io (h : FpeTbsHdr) (st : Mmio) (event : Nat) :
    writes (dwmac5_fpe_irq_status h st event).2.trace = writes st.trace ∧
    reads (dwmac5_fpe_irq_status h st event).2.trace =
      reads st.trace ++ [Reg.MAC_FPE_CTRL_STS] := by
  unfold dwmac5_fpe_irq_status
  by_cases h1 : (readl st Reg.MAC_FPE_CTRL_STS).1 &&& h.MAC_FPE_CTRL_STS_TRSP = 0 <;>
  by_cases h2 : (readl st Reg.MAC_FPE_CTRL_STS).1 &&& h.MAC_FPE_CTRL_STS_TVER = 0 <;>
  by_cases h3 : (readl st Reg.MAC_FPE_CTRL_STS).1 &&& h.MAC_FPE_CTRL_STS_RRSP = 0 <;>
  by_cases h4 : (readl st Reg.MAC_FPE_CTRL_STS).1 &&& h.MAC_FPE_CTRL_STS_RVER = 0 <;>
  simp [h1, h2, h3, h4, writes, reads]

/-! ## C16: FPE event decode -/

/-- C16: with `FPE_EVENT_UNKNOWN` the empty event and the four event flags
non-zero and pairwise disjoint, for every value of the MAC FPE control/status
register and whatever the prior content of `*event`, after `fpe_irq_status`
the event contains the respond-sent, verify-sent, respond-received,
verify-received flag if and only if TRSP, TVER, RRSP, RVER respectively is
set in the register; it is the empty event when none is set; the call reads
the register once and writes no register. -/
theorem fpe_irq_status_decodes_sticky_bits (h : FpeTbsHdr) (st : Mmio) (event : Nat)
    (hk : fpe_events_ok h) :
    ((dwmac5_fpe_irq_status h st event).1 &&& h.FPE_EVENT_TRSP = h.FPE_EVENT_TRSP ↔
      (readl st Reg.MAC_FPE_CTRL_STS).1 &&& h.MAC_FPE_CTRL_STS_TRSP ≠ 0) ∧
    ((dwmac5_fpe_irq_status h st event).1 &&& h.FPE_EVENT_TVER = h.FPE_EVENT_TVER ↔
      (readl st Reg.MAC_FPE_CTRL_STS).1 &&& h.MAC_FPE_CTRL_STS_TVER ≠ 0) ∧
    ((dwmac5_fpe_irq_status h st event).1 &&& h.FPE_EVENT_RRSP = h.FPE_EVENT_RRSP ↔
      (readl st Reg.MAC_FPE_CTRL_STS).1 &&& h.MAC_FPE_CTRL_STS_RRSP ≠ 0) ∧
    ((dwmac5_fpe_irq_status h st event).1 &&& h.FPE_EVENT_RVER = h.FPE_EVENT_RVER ↔
      (readl st Reg.MAC_FPE_CTRL_STS).1 &&& h.MAC_FPE_CTRL_STS_RVER ≠ 0) ∧
    ((readl st Reg.MAC_FPE_CTRL_STS).1 &&& h.MAC_FPE_CTRL_STS_TRSP = 0 →
      (readl st Reg.MAC_FPE_CTRL_STS).1 &&& h.MAC_FPE_CTRL_STS_TVER = 0 →
      (readl st Reg.MAC_FPE_CTRL_STS).1 &&& h.MAC_FPE_CTRL_STS_RRSP = 0 →
      (readl st Reg.MAC_FPE_CTRL_STS).1 &&& h.MAC_FPE_CTRL_STS_RVER = 0 →
      (dwmac5_fpe_irq_status h st event).1 = 0) ∧
    writes (dwmac5_fpe_irq_status h st event).2.trace = writes st.trace ∧
    reads (dwmac5_fpe_irq_status h st event).2.trace =
      reads st.trace ++ [Reg.MAC_FPE_CTRL_STS] := by
  obtain ⟨hU, ⟨n1, n2, n3, n4⟩, ⟨a2, a3, a4⟩, ⟨b1, b3, b4⟩, ⟨c1, c2, c4⟩, ⟨d1, d2, d3⟩⟩ := hk
  rw [fpe_irq_status_event, hU]
  refine ⟨?_, ?_, ?_, ?_, ?_, fpe_irq_status_io h st event⟩
  · rw [or_and_of_disjoint_right _ _ _ (ite_and_disjoint _ _ _ a4),
      or_and_of_disjoint_right _ _ _ (ite_and_disjoint _ _ _ a3),
      or_and_of_disjoint_right _ _ _ (ite_and_disjoint _ _ _ a2),
      Nat.zero_or, ite_mask_sub]
    exact ite_flag_iff _ _ n1
  · rw [or_and_of_disjoint_right _ _ _ (ite_and_disjoint _ _ _ b4),
      or_and_of_disjoint_right _ _ _ (ite_and_disjoint _ _ _ b3),
      or_and_of_disjoint_left _ _ _
        (by rw [Nat.zero_or]; exact ite_and_disjoint _ _ _ b1),
      ite_mask_sub]
    exact ite_flag_iff _ _ n2
  · rw [or_and_of_disjoint_right _ _ _ (ite_and_disjoint _ _ _ c4),
      or_and_of_disjoint_left _ _ _
        (by rw [or_and_of_disjoint_right _ _ _ (ite_and_disjoint _ _ _ c2), Nat.zero_or]
            exact ite_and_disjoint _ _ _ c1),
      ite_mask_sub]
    exact ite_flag_iff _ _ n3
  · rw [or_and_of_disjoint_left _ _ _
        (by rw [or_and_of_disjoint_right _ _ _ (ite_and_disjoint _ _ _ d3),
              or_and_of_disjoint_right _ _ _ (ite_and_disjoint _ _ _ d2), Nat.zero_or]
            exact ite_and_disjoint _ _ _ d1),
      ite_mask_sub]
    exact ite_flag_iff _ _ n4
  · intro e1 e2 e3 e4
    simp only [e1, e2, e3, e4, ne_eq, not_true_eq_false, if_false, Nat.or_zero]

/-- Witness for C16: register value `0x90000` (TRSP and RVER set) with a prior
event content of 77: the decoded event is `TRSP | RVER = 9`. -/
theorem fpe_irq_status_decodes_sticky_bits_witness :
    (dwmac5_fpe_irq_status fpetbs510 (const_dev (fun _ => 589824) 0) 77).1 = 9 ∧
    ((dwmac5_fpe_irq_status fpetbs510 (const_dev (fun _ => 589824) 0) 77).1 &&& 1 = 1 ↔
      589824 &&& 524288 ≠ 0) ∧
    ((dwmac5_fpe_irq_status fpetbs510 (const_dev (fun _ => 589824) 0) 77).1 &&& 2 = 2 ↔
      589824 &&& 262144 ≠ 0) ∧
    writes (dwmac5_fpe_irq_status fpetbs510 (const_dev (fun _ => 589824) 0) 77).2.trace = [] :=
  ⟨by decide,
   (fpe_irq_status_decodes_sticky_bits fpetbs510 (const_dev (fun _ => 589824) 0) 77
      (by decide)).1,
   (fpe_irq_status_decodes_sticky_bits fpetbs510 (const_dev (fun _ => 589824) 0) 77
      (by decide)).2.1,
   (fpe_irq_status_decodes_sticky_bits fpetbs510 (const_dev (fun _ => 589824) 0) 77
      (by decide)).2.2.2.2.2.1⟩

theorem est_irq_status_state (k : Hdr) (st : Mmio) (mmc_stat : Stat) (txqcnt : Nat) :
    (dwmac5_est_irq_status k st mmc_stat txqcnt).2.2 =
      if (readl st Reg.MTL_EST_STATUS).1 &&&
        (k.MTL_EST_STATUS_CGCE ||| k.MTL_EST_STATUS_HLBS ||| k.MTL_EST_STATUS_HLBF |||
          k.MTL_EST_STATUS_BTRE ||| k.MTL_EST_STATUS_SWLC) = 0
      then (readl st Reg.MTL_EST_STATUS).2
      else
        irq_swlc_step k (readl st Reg.MTL_EST_STATUS).1
          (irq_btre_step k (readl st Reg.MTL_EST_STATUS).1
            (irq_hlbf_step k (readl st Reg.MTL_EST_STATUS).1 txqcnt
              (irq_hlbs_step k (readl st Reg.MTL_EST_STATUS).1 txqcnt
                (irq_cgce_step k (readl st Reg.MTL_EST_STATUS).1
                  (readl st Reg.MTL_EST_STATUS).2)))) := by
  unfold dwmac5_est_irq_status irq_swlc_step irq_btre_step irq_hlbf_step irq_hlbs_step
    irq_cgce_step
  by_cases h : (readl st Reg.MTL_EST_STATUS).1 &&&
        (k.MTL_EST_STATUS_CGCE ||| k.MTL_EST_STATUS_HLBS ||| k.MTL_EST_STATUS_HLBF |||
          k.MTL_EST_STATUS_BTRE ||| k.MTL_EST_STATUS_SWLC) = 0
  · simp only [h, if_true]
  · simp only [h, if_false]
    by_cases h1 : (readl st Reg.MTL_EST_STATUS).1 &&& k.MTL_EST_STATUS_CGCE = 0 <;>
    by_cases h2 : (readl st Reg.MTL_EST_STATUS).1 &&& k.MTL_EST_STATUS_HLBS = 0 <;>
    by_cases h3 : (readl st Reg.MTL_EST_STATUS).1 &&& k.MTL_EST_STATUS_HLBF = 0 <;>
    by_cases h4 : (readl st Reg.MTL_EST_STATUS).1 &&& k.MTL_EST_STATUS_BTRE = 0 <;>
    by_cases h5 : (readl st Reg.MTL_EST_STATUS).1 &&& k.MTL_EST_STATUS_SWLC = 0 <;>
    simp only [h1, h2, h3, h4, h5, ne_eq, not_true_eq_false, not_false_eq_true, if_true,
      if_false]

theorem accesses_append (a b : List Event) : accesses (a ++ b) = accesses a ++ accesses b := by
  simp [accesses, List.filter_append]

theorem accesses_readl (st : Mmio) (r : Reg) :
    accesses (readl st r).2.trace = accesses st.trace ++ [Event.rd r (readl st r).1] := by
  rw [readl_trace, accesses_append]
  rfl

theorem accesses_writel (v : Nat) (r : Reg) (st : Mmio) :
    accesses (writel v r st).trace = accesses st.trace ++ [Event.wr r (v % 4294967296)] := by
  rw [writel_trace, accesses_append]
  rfl

theorem accesses_net_ratelimit (st : Mmio) :
    accesses (net_ratelimit st).2.trace = accesses st.trace := by
  show accesses (st.trace ++ [_]) = _
  rw [accesses_append]
  exact List.append_nil _

theorem accesses_netdev_log (m : Msg) (st : Mmio) :
    accesses (netdev_log m st).trace = accesses st.trace := by
  rw [netdev_log_trace, accesses_append]
  exact List.append_nil _

theorem accesses_log_if (b : Bool) (m : Msg) (st : Mmio) :
    accesses (if b = true then netdev_log m st else st).trace = accesses st.trace := by
  cases b
  · rfl
  · exact accesses_netdev_log m st

theorem irq_cgce_step_accesses (k : Hdr) (status : Nat) (st : Mmio) :
    accesses (irq_cgce_step k status st).trace = accesses st.trace ++
      (if status &&& k.MTL_EST_STATUS_CGCE ≠ 0 then
        [Event.wr Reg.MTL_EST_STATUS (k.MTL_EST_STATUS_CGCE % 4294967296)] else []) := by
  unfold irq_cgce_step
  split_ifs
  · exact accesses_writel _ _ _
  · exact (List.append_nil _).symm

theorem irq_hlbs_step_accesses (k : Hdr) (status txqcnt : Nat) (st : Mmio) :
    accesses (irq_hlbs_step k status txqcnt st).trace = accesses st.trace ++
      (if status &&& k.MTL_EST_STATUS_HLBS ≠ 0 then
        [Event.rd Reg.MTL_EST_SCH_ERR (readl st Reg.MTL_EST_SCH_ERR).1,
         Event.wr Reg.MTL_EST_SCH_ERR
          (((readl st Reg.MTL_EST_SCH_ERR).1 &&& low_mask txqcnt) % 4294967296)]
       else []) := by
  unfold irq_hlbs_step
  split_ifs
  · simp only [accesses_log_if, accesses_net_ratelimit, accesses_writel, accesses_readl,
      List.append_assoc, List.singleton_append]
  · exact (List.append_nil _).symm

theorem irq_hlbf_step_accesses (k : Hdr) (status txqcnt : Nat) (st : Mmio) :
    accesses (irq_hlbf_step k status txqcnt st).trace = accesses st.trace ++
      (if status &&& k.MTL_EST_STATUS_HLBF ≠ 0 then
        [Event.rd Reg.MTL_EST_FRM_SZ_ERR (readl st Reg.MTL_EST_FRM_SZ_ERR).1,
         Event.rd Reg.MTL_EST_FRM_SZ_CAP
          (readl (readl st Reg.MTL_EST_FRM_SZ_ERR).2 Reg.MTL_EST_FRM_SZ_CAP).1,
         Event.wr Reg.MTL_EST_FRM_SZ_ERR
          (((readl st Reg.MTL_EST_FRM_SZ_ERR).1 &&& low_mask txqcnt) % 4294967296)]
       else []) := by
  unfold irq_hlbf_step
  split_ifs
  · simp only [accesses_log_if, accesses_net_ratelimit, accesses_writel, accesses_readl,
      List.append_assoc, List.singleton_append, List.cons_append, List.nil_append]
  · exact (List.append_nil _).symm

theorem irq_btre_step_accesses (k : Hdr) (status : Nat) (st : Mmio) :
    accesses (irq_btre_step k status st).trace = accesses st.trace ++
      (if status &&& k.MTL_EST_STATUS_BTRE ≠ 0 then
        [Event.wr Reg.MTL_EST_STATUS (k.MTL_EST_STATUS_BTRE % 4294967296)] else []) := by
  unfold irq_btre_step
  split_ifs
  · simp only [accesses_log_if, accesses_net_ratelimit, accesses_writel]
  · exact (List.append_nil _).symm

theorem irq_swlc_step_accesses (k : Hdr) (status : Nat) (st : Mmio) :
    accesses (irq_swlc_step k status st).trace = accesses st.trace ++
      (if status &&& k.MTL_EST_STATUS_SWLC ≠ 0 then
        [Event.wr Reg.MTL_EST_STATUS (k.MTL_EST_STATUS_SWLC % 4294967296)] else []) := by
  unfold irq_swlc_step
  split_ifs
  · simp only [accesses_netdev_log, accesses_writel]
  · exact (List.append_nil _).symm

theorem single_bit_subset {x b : Nat} (h : x &&& 2 ^ b ≠ 0) : 2 ^ b &&& x = 2 ^ b := by
  have hx : x.testBit b = true := by
    by_contra hc
    apply h
    apply Nat.eq_of_testBit_eq
    intro i
    rw [Nat.testBit_and, Nat.testBit_two_pow, Nat.zero_testBit]
    by_cases hi : b = i
    · subst hi
      simp [hc]
    · simp [hi]
  apply Nat.eq_of_testBit_eq
  intro i
  rw [Nat.testBit_and, Nat.testBit_two_pow]
  by_cases hi : b = i
  · subst hi
    simp [hx]
  · simp [hi]

theorem two_pow_mod32 {b : Nat} (hb : b < 32) : 2 ^ b % 4294967296 = 2 ^ b :=
  Nat.mod_eq_of_lt (by
    have := Nat.pow_lt_pow_right (show 1 < 2 by decide) hb
    norm_num at this ⊢
    exact this)

theorem and_mod32_of_lt {x : Nat} (m : Nat) (hx : x < 4294967296) :
    (x &&& m) % 4294967296 = x &&& m :=
  Nat.mod_eq_of_lt (lt_of_le_of_lt Nat.and_le_left hx)

/-! ## C20: the EST status decode clears only what it observed -/

/-- C20: with CGCE, BTRE and SWLC single bits of the 32-bit status word and
`txqcnt < 32`, the register accesses of `est_irq_status` are, in order: the
status read; a write of exactly CGCE to the status register iff CGCE was set
in that read; for HLBS a read of the scheduling-error register followed by a
write of the value read masked to the low `txqcnt` bits; for HLBF reads of
the frame-size-error and capture registers followed by a write to the
frame-size-error register of the value read from it masked to the low
`txqcnt` bits; a write of exactly BTRE, and of exactly SWLC, to the status
register iff that bit was set in the status read. Every value written is a
subset of the bits read from the same register. -/
theorem est_irq_status_clears_observed (k : Hdr) (st : Mmio) (mmc_stat : Stat)
    (txqcnt bC bB bW : Nat) (hq : txqcnt < 32)
    (hC : k.MTL_EST_STATUS_CGCE = 2 ^ bC) (hC32 : bC < 32)
    (hB : k.MTL_EST_STATUS_BTRE = 2 ^ bB) (hB32 : bB < 32)
    (hW : k.MTL_EST_STATUS_SWLC = 2 ^ bW) (hW32 : bW < 32) :
    ∃ sch frm cap,
      accesses (dwmac5_est_irq_status k st mmc_stat txqcnt).2.2.trace =
        accesses st.trace ++
          [Event.rd Reg.MTL_EST_STATUS (readl st Reg.MTL_EST_STATUS).1] ++
          (if (readl st Reg.MTL_EST_STATUS).1 &&& k.MTL_EST_STATUS_CGCE ≠ 0 then
            [Event.wr Reg.MTL_EST_STATUS k.MTL_EST_STATUS_CGCE] else []) ++
          (if (readl st Reg.MTL_EST_STATUS).1 &&& k.MTL_EST_STATUS_HLBS ≠ 0 then
            [Event.rd Reg.MTL_EST_SCH_ERR sch,
             Event.wr Reg.MTL_EST_SCH_ERR (sch &&& (2 ^ txqcnt - 1))] else []) ++
          (if (readl st Reg.MTL_EST_STATUS).1 &&& k.MTL_EST_STATUS_HLBF ≠ 0 then
            [Event.rd Reg.MTL_EST_FRM_SZ_ERR frm, Event.rd Reg.MTL_EST_FRM_SZ_CAP cap,
             Event.wr Reg.MTL_EST_FRM_SZ_ERR (frm &&& (2 ^ txqcnt - 1))] else []) ++
          (if (readl st Reg.MTL_EST_STATUS).1 &&& k.MTL_EST_STATUS_BTRE ≠ 0 then
            [Event.wr Reg.MTL_EST_STATUS k.MTL_EST_STATUS_BTRE] else []) ++
          (if (readl st Reg.MTL_EST_STATUS).1 &&& k.MTL_EST_STATUS_SWLC ≠ 0 then
            [Event.wr Reg.MTL_EST_STATUS k.MTL_EST_STATUS_SWLC] else []) ∧
      ((readl st Reg.MTL_EST_STATUS).1 &&& k.MTL_EST_STATUS_CGCE ≠ 0 →
        k.MTL_EST_STATUS_CGCE &&& (readl st Reg.MTL_EST_STATUS).1 = k.MTL_EST_STATUS_CGCE) ∧
      ((readl st Reg.MTL_EST_STATUS).1 &&& k.MTL_EST_STATUS_BTRE ≠ 0 →
        k.MTL_EST_STATUS_BTRE &&& (readl st Reg.MTL_EST_STATUS).1 = k.MTL_EST_STATUS_BTRE) ∧
      ((readl st Reg.MTL_EST_STATUS).1 &&& k.MTL_EST_STATUS_SWLC ≠ 0 →
        k.MTL_EST_STATUS_SWLC &&& (readl st Reg.MTL_EST_STATUS).1 = k.MTL_EST_STATUS_SWLC) ∧
      (sch &&& (2 ^ txqcnt - 1)) &&& sch = sch &&& (2 ^ txqcnt - 1) ∧
      (frm &&& (2 ^ txqcnt - 1)) &&& frm = frm &&& (2 ^ txqcnt - 1) := by
  refine ⟨(readl (irq_cgce_step k (readl st Reg.MTL_EST_STATUS).1
      (readl st Reg.MTL_EST_STATUS).2) Reg.MTL_EST_SCH_ERR).1,
    (readl (irq_hlbs_step k (readl st Reg.MTL_EST_STATUS).1 txqcnt
      (irq_cgce_step k (readl st Reg.MTL_EST_STATUS).1
        (readl st Reg.MTL_EST_STATUS).2)) Reg.MTL_EST_FRM_SZ_ERR).1,
    (readl (readl (irq_hlbs_step k (readl st Reg.MTL_EST_STATUS).1 txqcnt
      (irq_cgce_step k (readl st Reg.MTL_EST_STATUS).1
        (readl st Reg.MTL_EST_STATUS).2)) Reg.MTL_EST_FRM_SZ_ERR).2 Reg.MTL_EST_FRM_SZ_CAP).1,
    ?_, ?_, ?_, ?_, and_and_self_left _ _, and_and_self_left _ _⟩
  · rw [est_irq_status_state]
    by_cases h : (readl st Reg.MTL_EST_STATUS).1 &&&
        (k.MTL_EST_STATUS_CGCE ||| k.MTL_EST_STATUS_HLBS ||| k.MTL_EST_STATUS_HLBF |||
          k.MTL_EST_STATUS_BTRE ||| k.MTL_EST_STATUS_SWLC) = 0
    · rw [if_pos h]
      simp only [and_or_eq_zero_iff] at h
      obtain ⟨⟨⟨⟨h1, h2⟩, h3⟩, h4⟩, h5⟩ := h
      simp only [h1, h2, h3, h4, h5, ne_eq, not_true_eq_false, if_false, List.append_nil,
        accesses_readl]
    · rw [if_neg h, irq_swlc_step_accesses, irq_btre_step_accesses, irq_hlbf_step_accesses,
        irq_hlbs_step_accesses, irq_cgce_step_accesses, accesses_readl, low_mask_eq hq,
        and_mod32_of_lt _ (readl_lt _ _), and_mod32_of_lt _ (readl_lt _ _),
        hC, hB, hW, two_pow_mod32 hC32, two_pow_mod32 hB32, two_pow_mod32 hW32]
  · rw [hC]
    exact single_bit_subset
  · rw [hB]
    exact single_bit_subset
  · rw [hW]
    exact single_bit_subset

/-- Witness for C20: status `0x1f` (all five events), scheduling-error
register `0xff`, frame-size-error register `0xf3`, four queues: the writes are
CGCE to the status register, `0xf` to the scheduling-error register, `0x3` to
the frame-size-error register, then BTRE and SWLC to the status register. -/
theorem est_irq_status_clears_observed_witness :
    accesses (dwmac5_est_irq_status hdr510 (est_irq_dev 31 255 243 65600 false)
        (fun _ => 0) 4).2.2.trace =
      [Event.rd Reg.MTL_EST_STATUS 31, Event.wr Reg.MTL_EST_STATUS 16,
       Event.rd Reg.MTL_EST_SCH_ERR 255, Event.wr Reg.MTL_EST_SCH_ERR 15,
       Event.rd Reg.MTL_EST_FRM_SZ_ERR 243, Event.rd Reg.MTL_EST_FRM_SZ_CAP 65600,
       Event.wr Reg.MTL_EST_FRM_SZ_ERR 3, Event.wr Reg.MTL_EST_STATUS 2,
       Event.wr Reg.MTL_EST_STATUS 1] ∧
    ∃ sch frm cap,
      accesses (dwmac5_est_irq_status hdr510 (est_irq_dev 31 255 243 65600 false)
          (fun _ => 0) 4).2.2.trace =
        [] ++ [Event.rd Reg.MTL_EST_STATUS 31] ++
          (if 31 &&& 16 ≠ 0 then [Event.wr Reg.MTL_EST_STATUS 16] else []) ++
          (if 31 &&& 8 ≠ 0 then
            [Event.rd Reg.MTL_EST_SCH_ERR sch,
             Event.wr Reg.MTL_EST_SCH_ERR (sch &&& (2 ^ 4 - 1))] else []) ++
          (if 31 &&& 4 ≠ 0 then
            [Event.rd Reg.MTL_EST_FRM_SZ_ERR frm, Event.rd Reg.MTL_EST_FRM_SZ_CAP cap,
             Event.wr Reg.MTL_EST_FRM_SZ_ERR (frm &&& (2 ^ 4 - 1))] else []) ++
          (if 31 &&& 2 ≠ 0 then [Event.wr Reg.MTL_EST_STATUS 2] else []) ++
          (if 31 &&& 1 ≠ 0 then [Event.wr Reg.MTL_EST_STATUS 1] else []) ∧
      (31 &&& 16 ≠ 0 → 16 &&& 31 = 16) ∧
      (31 &&& 2 ≠ 0 → 2 &&& 31 = 2) ∧
      (31 &&& 1 ≠ 0 → 1 &&& 31 = 1) ∧
      (sch &&& (2 ^ 4 - 1)) &&& sch = sch &&& (2 ^ 4 - 1) ∧
      (frm &&& (2 ^ 4 - 1)) &&& frm = frm &&& (2 ^ 4 - 1) :=
  ⟨by decide,
   est_irq_status_clears_observed hdr510 (est_irq_dev 31 255 243 65600 false) (fun _ => 0) 4
    4 1 0 (by decide) rfl (by decide) rfl (by decide) rfl (by decide)⟩

/-! ## C21: external-schedule-mode setter -/

theorem tbs_set_estm_trace (h : FpeTbsHdr) (st : Mmio) (estm : Nat) :
    (dwmac5_tbs_set_estm h st estm).trace =
      st.trace ++ [Event.rd Reg.MTL_TBS_CTRL (readl st Reg.MTL_TBS_CTRL).1,
        Event.wr Reg.MTL_TBS_CTRL
          ((if estm ≠ 0 then (readl st Reg.MTL_TBS_CTRL).1 ||| h.MTL_TBS_CTRL_ESTM
            else (readl st Reg.MTL_TBS_CTRL).1 &&& h.MTL_TBS_CTRL_ESTM) % 4294967296)] := by
  show (st.trace ++ [_]) ++ [_] = _
  rw [List.append_assoc]
  rfl

theorem and_and_self_right (v m : Nat) : (v &&& m) &&& m = v &&& m := by
  rw [Nat.and_assoc, Nat.and_self]

theorem and_and_not32_self (v m : Nat) : (v &&& m) &&& not32 m = 0 := by
  apply Nat.eq_of_testBit_eq
  intro i
  rw [Nat.testBit_and, Nat.testBit_and, testBit_not32, Nat.zero_testBit]
  cases m.testBit i <;> simp

/-- The set branch of `tbs_set_estm` does what its name says: with `estm ≠ 0`
the written value has ESTM set and every other bit as read. -/
theorem tbs_set_estm_set_branch (h : FpeTbsHdr) (st : Mmio) (estm : Nat)
    (he : estm ≠ 0) (hE : h.MTL_TBS_CTRL_ESTM < 4294967296) :
    ∃ w, (dwmac5_tbs_set_estm h st estm).trace =
        st.trace ++ [Event.rd Reg.MTL_TBS_CTRL (readl st Reg.MTL_TBS_CTRL).1,
          Event.wr Reg.MTL_TBS_CTRL w] ∧
      w &&& h.MTL_TBS_CTRL_ESTM = h.MTL_TBS_CTRL_ESTM ∧
      w &&& not32 h.MTL_TBS_CTRL_ESTM =
        (readl st Reg.MTL_TBS_CTRL).1 &&& not32 h.MTL_TBS_CTRL_ESTM := by
  refine ⟨((readl st Reg.MTL_TBS_CTRL).1 ||| h.MTL_TBS_CTRL_ESTM) % 4294967296, ?_,
    or_mask_set _ _ hE, or_mask_outside _ _ (readl_lt st _)⟩
  rw [tbs_set_estm_trace, if_pos he]

/-- C21 fails on the code: the clear branch of `tbs_set_estm` is
`value &= MTL_TBS_CTRL_ESTM`, without the complement. For every header and
every prior register value a call with `estm = 0` writes a value whose ESTM
bits are the prior ones (not cleared) and whose every other bit is 0 (not
kept). With the control register at `0x00000173` (ESTM, LEOV, LEGOS = 7,
LEOS = 1) the call writes `0x00000001`: ESTM is still set and LEOV, LEGOS and
LEOS are lost. -/
theorem tbs_set_estm_clear_keeps_only_estm :
    (∀ (h : FpeTbsHdr) (st : Mmio), ∃ w,
      (dwmac5_tbs_set_estm h st 0).trace =
        st.trace ++ [Event.rd Reg.MTL_TBS_CTRL (readl st Reg.MTL_TBS_CTRL).1,
          Event.wr Reg.MTL_TBS_CTRL w] ∧
      w &&& h.MTL_TBS_CTRL_ESTM = (readl st Reg.MTL_TBS_CTRL).1 &&& h.MTL_TBS_CTRL_ESTM ∧
      w &&& not32 h.MTL_TBS_CTRL_ESTM = 0) ∧
    (dwmac5_tbs_set_estm fpetbs510 (const_dev (fun _ => 371) 0) 0).trace =
      [Event.rd Reg.MTL_TBS_CTRL 371, Event.wr Reg.MTL_TBS_CTRL 1] ∧
    371 &&& fpetbs510.MTL_TBS_CTRL_ESTM = 1 ∧
    1 &&& fpetbs510.MTL_TBS_CTRL_ESTM = 1 ∧
    371 &&& fpetbs510.MTL_TBS_CTRL_LEOV = 2 ∧
    1 &&& fpetbs510.MTL_TBS_CTRL_LEOV = 0 ∧
    371 &&& fpetbs510.MTL_TBS_CTRL_LEGOS = 112 ∧
    1 &&& fpetbs510.MTL_TBS_CTRL_LEGOS = 0 ∧
    371 &&& fpetbs510.MTL_TBS_CTRL_LEOS = 256 ∧
    1 &&& fpetbs510.MTL_TBS_CTRL_LEOS = 0 := by
  refine ⟨fun h st => ⟨(readl st Reg.MTL_TBS_CTRL).1 &&& h.MTL_TBS_CTRL_ESTM, ?_,
    and_and_self_right _ _, and_and_not32_self _ _⟩, by decide⟩
  rw [tbs_set_estm_trace, if_neg (by decide), and_mod32_of_lt _ (readl_lt st _)]

end Dwmac5
